import Mathlib

/-! RSVP service of the event planner (backend controllers).

A shallow embedding of `backend/controllers/rsvpController.js`,
`backend/controllers/eventController.js`, `backend/models/rsvpModel.js` and
`backend/routes/rsvpRoutes.js`.

The document database is a pair of lists (events, RSVP rows).  Handlers are
functions from a store and a request to a reply and a new store.  Object ids
are natural numbers; a handler takes the id that its route parameter casts to,
and the request layer (`createRSVPReq`, `deleteRSVPReq`) takes the parameter as
the string of the URL, with the cast that fails on a string that is no id.  The
clock read by `new Date()` is the argument `now`.  The `populate` joins of a reply
are left out (the account collection is not part of these files); a reply
carries the stored row itself.
-/

namespace MernFinal

/-! ## Data model -/

abbrev ObjectId := Nat

/-- Document of `eventModel.js`. -/
structure Event where
  _id : ObjectId
  title : String := ""
  description : String := ""
  date : Nat := 0
  time : String := ""
  location : String := ""
  createdBy : ObjectId
  inviteLink : String := ""
  attendees : List ObjectId := []
  maxAttendees : Option Nat := none
  isPublic : Bool := true
  category : String := "other"
  status : String := "active"
  createdAt : Nat := 0
  updatedAt : Nat := 0
deriving DecidableEq

/-- Document of `rsvpModel.js`.  `message` has no schema default, so a row
written without one has no message field (`none`). -/
structure RSVP where
  eventId : ObjectId
  userId : ObjectId
  response : String
  message : Option String := none
  plusOnes : Int := 0
  timestamp : Nat := 0
deriving DecidableEq

/-- The two collections the controllers read and write. -/
structure Store where
  events : List Event
  rsvps : List RSVP
deriving DecidableEq

/-- Body of `POST /api/rsvp/:eventId`; `none` is a field the request omits. -/
structure RSVPBody where
  response : Option String := none
  message : Option String := none
  plusOnes : Option Int := none
deriving DecidableEq

/-- What `res.status(..).json(..)` sends: status code, `success`, `message`, `data`. -/
structure Reply (α : Type) where
  status : Nat
  success : Bool
  message : Option String := none
  data : Option α := none
deriving DecidableEq

/-! ## JavaScript and Mongoose primitives used by the controllers -/

/-- White space removed by `trim`: the ECMAScript WhiteSpace and LineTerminator
code points. -/
def isJsSpace (c : Char) : Bool :=
  let n := c.toNat
  n = 9 || n = 10 || n = 11 || n = 12 || n = 13 || n = 32 || n = 160 || n = 5760 ||
  (8192 ≤ n && n ≤ 8202) || n = 8232 || n = 8233 || n = 8239 || n = 8287 ||
  n = 12288 || n = 65279

/-- Characters of a trimmed string. -/
def trimChars (cs : List Char) : List Char :=
  ((cs.dropWhile isJsSpace).reverse.dropWhile isJsSpace).reverse

/-- The `trim` of the schema (`trim: true`) and of the route sanitizer (`.trim()`). -/
def trim (s : String) : String :=
  String.mk (trimChars s.data)

/-- The `length` of a JavaScript string: UTF-16 code units. -/
def jsLength (s : String) : Nat :=
  (s.data.map (fun c => if c.toNat < 65536 then 1 else 2)).sum

/-- Truthiness of an optional string: present and not empty. -/
def truthyStr (a : Option String) : Bool :=
  match a with
  | some s => s ≠ ""
  | none => false

/-- Truthiness of an optional integer: present and not zero. -/
def truthyInt (a : Option Int) : Bool :=
  match a with
  | some n => n ≠ 0
  | none => false

/-- The expression `a || b` on an optional integer with an integer fallback. -/
def orInt (a : Option Int) (b : Int) : Int :=
  match a with
  | some n => if n = 0 then b else n
  | none => b

/-- Values of the `enum` of `response` in `rsvpModel.js`. -/
def responseEnum : List String := ["Yes", "No", "Maybe"]

/-- Validators of the path `response`: `required` and `enum`. -/
def checkResponse (r : Option String) : List String :=
  match r with
  | none => ["response: Please provide a response"]
  | some v =>
    if v = "" then ["response: Please provide a response"]
    else if v ∈ responseEnum then []
    else ["response: " ++ v ++ " is not a valid enum value for path response."]

/-- Validator of the path `message`: `maxlength: 200`. -/
def checkMessage (m : Option String) : List String :=
  match m with
  | none => []
  | some v =>
    if jsLength v ≤ 200 then [] else ["message: Message cannot be more than 200 characters"]

/-- Validator of the path `plusOnes`: `min: 0`. -/
def checkPlusOnes (n : Int) : List String :=
  if 0 ≤ n then [] else ["plusOnes: Plus ones cannot be negative"]

/-- Message of a Mongoose `ValidationError`. -/
def validationMessage (errs : List String) : String :=
  "RSVP validation failed: " ++ ", ".intercalate errs

/-- The query `Event.findById(id)`. -/
def findById (events : List Event) (id : ObjectId) : Option Event :=
  events.find? (fun e => decide (e._id = id))

/-- Filter `{ eventId, userId }` of the RSVP queries. -/
def matchesKey (eventId userId : ObjectId) (r : RSVP) : Bool :=
  decide (r.eventId = eventId) && decide (r.userId = userId)

/-- The query `RSVP.findOne({ eventId, userId })`. -/
def findOne (rsvps : List RSVP) (eventId userId : ObjectId) : Option RSVP :=
  rsvps.find? (matchesKey eventId userId)

/-- Writing back the document that `findOne` returned (`rsvp.save()`): the first
row of the pair is replaced. -/
def saveRSVP (rsvps : List RSVP) (doc : RSVP) : List RSVP :=
  match rsvps with
  | [] => []
  | r :: rs =>
    if matchesKey doc.eventId doc.userId r then doc :: rs else r :: saveRSVP rs doc

/-- Insert of `RSVP.create` under the unique index on `(eventId, userId)`. -/
def insertRSVP (rsvps : List RSVP) (doc : RSVP) : Except String (List RSVP) :=
  if (findOne rsvps doc.eventId doc.userId).isSome then
    .error "E11000 duplicate key error collection: rsvps index: eventId_1_userId_1"
  else .ok (rsvps ++ [doc])

/-! ## rsvpController.js -/

/-- Reply 404 of the handlers. -/
def notFound {α : Type} (msg : String) : Reply α :=
  { status := 404, success := false, message := some msg }

/-- Reply of a `catch` block: status 500 with `error.message`. -/
def serverError {α : Type} (msg : String) : Reply α :=
  { status := 500, success := false, message := some msg }

/-- The update branch of `createRSVP` (lines 36-42): the assignments
`rsvp.response = response`, `rsvp.message = message || rsvp.message`,
`rsvp.plusOnes = plusOnes || rsvp.plusOnes`, `rsvp.timestamp = new Date()`,
then the validation done by `rsvp.save()`, which checks every path of the
loaded document, the retained ones included.  Each assignment to `message`
passes the schema setter `trim`, also when the stored value is assigned back. -/
def updatedRSVP (rsvp : RSVP) (body : RSVPBody) (now : Nat) : Except String RSVP :=
  let message := (if truthyStr body.message then body.message else rsvp.message).map trim
  let plusOnes := orInt body.plusOnes rsvp.plusOnes
  let errs := checkResponse body.response ++ checkMessage message ++ checkPlusOnes plusOnes
  match body.response, errs with
  | some response, [] =>
    .ok { eventId := rsvp.eventId, userId := rsvp.userId, response := response,
          message := message, plusOnes := plusOnes, timestamp := now }
  | _, _ => .error (validationMessage errs)

/-- A stored row whose retained paths pass the validation of `save`: the
message, once trimmed, has at most 200 characters, and `plusOnes` is not
negative.  Every row written through the schema is of this kind. -/
def StoredValid (r : RSVP) : Prop :=
  (∀ m, r.message = some m → jsLength (trim m) ≤ 200) ∧ 0 ≤ r.plusOnes

instance (r : RSVP) : Decidable (StoredValid r) := by
  unfold StoredValid
  cases r.message with
  | none => exact decidable_of_iff (0 ≤ r.plusOnes) (by simp)
  | some m => exact decidable_of_iff (jsLength (trim m) ≤ 200 ∧ 0 ≤ r.plusOnes) (by simp)

/-- The document of the create branch of `createRSVP` (lines 45-51):
`{ eventId, userId, response, message, plusOnes: plusOnes || 0 }` with the
schema default of `timestamp`, validated on every path by `RSVP.create`. -/
def newRSVP (eventId userId : ObjectId) (body : RSVPBody) (now : Nat) : Except String RSVP :=
  let message := body.message.map trim
  let plusOnes := orInt body.plusOnes 0
  let errs := checkResponse body.response ++ checkMessage message ++ checkPlusOnes plusOnes
  match body.response, errs with
  | some response, [] =>
    .ok { eventId := eventId, userId := userId, response := response,
          message := message, plusOnes := plusOnes, timestamp := now }
  | _, _ => .error (validationMessage errs)

/-- The handler `createRSVP` (rsvpController.js, lines 7-69) for a request of
account `userId` (`req.user.id`).  An error thrown by `save` or `create` is
caught and reported with status 500; nothing is written then. -/
def createRSVP (s : Store) (eventId userId : ObjectId) (body : RSVPBody) (now : Nat) :
    Reply RSVP × Store :=
  match findById s.events eventId with
  | none => (notFound "Event not found", s)
  | some event =>
    if event.status ≠ "active" then
      ({ status := 400, success := false, message := some "Event is no longer accepting RSVPs" }, s)
    else
      match findOne s.rsvps eventId userId with
      | some rsvp =>
        match updatedRSVP rsvp body now with
        | .ok doc =>
          ({ status := 201, success := true, data := some doc },
            { s with rsvps := saveRSVP s.rsvps doc })
        | .error e => (serverError e, s)
      | none =>
        match newRSVP eventId userId body now with
        | .ok doc =>
          match insertRSVP s.rsvps doc with
          | .ok rows =>
            ({ status := 201, success := true, data := some doc }, { s with rsvps := rows })
          | .error e => (serverError e, s)
        | .error e => (serverError e, s)

/-- The handler `deleteRSVP` (rsvpController.js, lines 179-205):
`findOneAndDelete` removes the first row of the pair. -/
def deleteRSVP (s : Store) (eventId userId : ObjectId) : Reply Unit × Store :=
  match findOne s.rsvps eventId userId with
  | none => (notFound "RSVP not found", s)
  | some _ =>
    ({ status := 200, success := true, message := some "RSVP deleted successfully" },
      { s with rsvps := s.rsvps.eraseP (matchesKey eventId userId) })

/-- An object with numeric values, as an association list in insertion order. -/
abbrev Obj := List (String × Nat)

/-- Reading the property `k` of an object. -/
def Obj.get (o : Obj) (k : String) : Option Nat :=
  match o with
  | [] => none
  | (k1, v) :: t => if k1 = k then some v else Obj.get t k

/-- The assignment `o[k] = v`. -/
def Obj.set (o : Obj) (k : String) (v : Nat) : Obj :=
  match o with
  | [] => [(k, v)]
  | (k1, v1) :: t => if k1 = k then (k1, v) :: t else (k1, v1) :: Obj.set t k v

/-- One step of `$group: { _id: '$response', count: { $sum: 1 } }`: the group
of `k` grows by one, or is opened with count 1. -/
def groupStep (acc : List (String × Nat)) (k : String) : List (String × Nat) :=
  match acc with
  | [] => [(k, 1)]
  | (k1, n) :: t => if k1 = k then (k1, n + 1) :: t else (k1, n) :: groupStep t k

/-- The pipeline `RSVP.aggregate([{ $match: { eventId } }, { $group: .. }])`. -/
def aggregateByResponse (rsvps : List RSVP) (eventId : ObjectId) : List (String × Nat) :=
  ((rsvps.filter (fun r => decide (r.eventId = eventId))).map (fun r => r.response)).foldl
    groupStep []

/-- The loop `rsvpStats.forEach(stat => { stats[stat._id] = stat.count })`. -/
def assignStats (stats : Obj) (groups : List (String × Nat)) : Obj :=
  groups.foldl (fun o g => Obj.set o g.1 g.2) stats

/-- Order of `.sort({ timestamp: -1 })`: newest first. -/
def newerFirst (a b : RSVP) : Prop := b.timestamp ≤ a.timestamp

instance : DecidableRel newerFirst := fun a b => inferInstanceAs (Decidable (b.timestamp ≤ a.timestamp))

/-- The query `RSVP.find({ eventId }).sort({ timestamp: -1 })`. -/
def findByEvent (rsvps : List RSVP) (eventId : ObjectId) : List RSVP :=
  (rsvps.filter (fun r => decide (r.eventId = eventId))).insertionSort newerFirst

/-- Reply of `getEventRSVPs`. -/
structure RSVPListReply where
  status : Nat
  success : Bool
  message : Option String := none
  count : Option Nat := none
  stats : Option Obj := none
  data : List RSVP := []
deriving DecidableEq

/-- The handler `getEventRSVPs` (rsvpController.js, lines 74-120). -/
def getEventRSVPs (s : Store) (eventId : ObjectId) : RSVPListReply :=
  match findById s.events eventId with
  | none => { status := 404, success := false, message := some "Event not found" }
  | some event =>
    let rsvps := findByEvent s.rsvps eventId
    let rsvpStats := aggregateByResponse s.rsvps event._id
    let stats : Obj := assignStats [("Yes", 0), ("No", 0), ("Maybe", 0), ("total", rsvps.length)] rsvpStats
    { status := 200, success := true, count := some rsvps.length, stats := some stats, data := rsvps }

/-! ## eventController.js -/

/-- The handler `deleteEvent` (eventController.js, lines 208-242):
`deleteMany` removes every row of the event, `deleteOne` the event document. -/
def deleteEvent (s : Store) (id userId : ObjectId) : Reply Unit × Store :=
  match findById s.events id with
  | none => (notFound "Event not found", s)
  | some event =>
    if event.createdBy ≠ userId then
      ({ status := 401, success := false, message := some "Not authorized to delete this event" }, s)
    else
      ({ status := 200, success := true, message := some "Event deleted successfully" },
        { events := s.events.eraseP (fun e => decide (e._id = event._id)),
          rsvps := s.rsvps.filter (fun r => !decide (r.eventId = id)) })

/-! ## rsvpRoutes.js -/

/-- The validation chains of `router.post('/:eventId', ..)` (rsvpRoutes.js,
lines 17-30): the recorded errors and the body after the sanitizer `trim`. -/
def rsvpValidators (body : RSVPBody) : List String × RSVPBody :=
  let message := body.message.map trim
  let e1 :=
    match body.response with
    | some v => if v ∈ responseEnum then [] else ["Response must be Yes, No, or Maybe"]
    | none => ["Response must be Yes, No, or Maybe"]
  let e2 :=
    match message with
    | some m => if jsLength m ≤ 200 then [] else ["Message cannot be more than 200 characters"]
    | none => []
  let e3 :=
    match body.plusOnes with
    | some n => if 0 ≤ n ∧ n ≤ 10 then [] else ["Plus ones must be between 0 and 10"]
    | none => []
  (e1 ++ e2 ++ e3, { body with message := message })

/-- The route `POST /api/rsvp/:eventId` for an authenticated account
(`protect` has set `req.user.id`): the validation chains run, then `createRSVP`.
Neither the route nor the handler reads the recorded errors
(there is no `validationResult(req)`), so only the sanitized body is passed on. -/
def postRSVP (s : Store) (eventId userId : ObjectId) (body : RSVPBody) (now : Nat) :
    Reply RSVP × Store :=
  createRSVP s eventId userId (rsvpValidators body).2 now

/-! ## Route parameters -/

/-- Message of the `CastError` of a query whose filter holds a string that is
no ObjectId (quotation marks left out). -/
def castError (value path model : String) : String :=
  "Cast to ObjectId failed for value " ++ value ++ " (type string) at path " ++ path ++
    " for model " ++ model

/-- Value of a hexadecimal digit. -/
def hexDigit (c : Char) : Option Nat :=
  let n := c.toNat
  if 48 ≤ n ∧ n ≤ 57 then some (n - 48)
  else if 97 ≤ n ∧ n ≤ 102 then some (n - 87)
  else if 65 ≤ n ∧ n ≤ 70 then some (n - 55)
  else none

/-- The ObjectId written by a string of 24 hexadecimal digits; a string of
another form is no ObjectId. -/
def hexObjectId (param : String) : Option ObjectId :=
  if param.data.length = 24 then
    param.data.foldl (fun acc c => acc.bind (fun n => (hexDigit c).map (fun d => 16 * n + d)))
      (some 0)
  else none

/-- The handler `createRSVP` on the route parameter `req.params.eventId` as it
arrives, a string.  The first query, `Event.findById(eventId)` (line 13), casts
it; `cast` is the cast of the database layer, `none` for a string that is no
ObjectId.  The query then rejects with a `CastError`, and the `catch` of lines
63-68 answers with status 500. -/
def createRSVPReq (cast : String → Option ObjectId) (s : Store) (param : String)
    (userId : ObjectId) (body : RSVPBody) (now : Nat) : Reply RSVP × Store :=
  match cast param with
  | none => (serverError (castError param "_id" "Event"), s)
  | some eventId => createRSVP s eventId userId body now

/-- The handler `deleteRSVP` on the route parameter `req.params.eventId` as it
arrives: `RSVP.findOneAndDelete({ eventId, userId })` (line 183) casts it, and
for a string that is no ObjectId the query rejects with a `CastError`, which
the `catch` of lines 199-204 answers with status 500. -/
def deleteRSVPReq (cast : String → Option ObjectId) (s : Store) (param : String)
    (userId : ObjectId) : Reply Unit × Store :=
  match cast param with
  | none => (serverError (castError param "eventId" "RSVP"), s)
  | some eventId => deleteRSVP s eventId userId

/-! ## Sequences of calls and the uniqueness invariant -/

/-- A call of one of the three handlers that write RSVP rows. -/
inductive Call where
  | createRSVP (eventId userId : ObjectId) (body : RSVPBody) (now : Nat)
  | deleteRSVP (eventId userId : ObjectId)
  | deleteEvent (id userId : ObjectId)

/-- The store after one call. -/
def Call.apply (s : Store) (c : Call) : Store :=
  match c with
  | .createRSVP e u b now => (MernFinal.createRSVP s e u b now).2
  | .deleteRSVP e u => (MernFinal.deleteRSVP s e u).2
  | .deleteEvent e u => (MernFinal.deleteEvent s e u).2

/-- The store after a sequence of calls, executed one after the other. -/
def runCalls (s : Store) (calls : List Call) : Store :=
  calls.foldl Call.apply s

/-- Number of RSVP rows of the pair `(eventId, userId)`. -/
def rowCount (rsvps : List RSVP) (eventId userId : ObjectId) : Nat :=
  (rsvps.filter (matchesKey eventId userId)).length

/-- No pair `(eventId, userId)` has more than one RSVP row. -/
def UniquePerPair (rsvps : List RSVP) : Prop :=
  ∀ eventId userId, rowCount rsvps eventId userId ≤ 1

/-- Keys `(eventId, userId)` of the rows, in store order. -/
def rowKeys (rsvps : List RSVP) : List (ObjectId × ObjectId) :=
  rsvps.map (fun r => (r.eventId, r.userId))

/-- Number of rows of an event with a given response. -/
def countResponse (rsvps : List RSVP) (eventId : ObjectId) (resp : String) : Nat :=
  (rsvps.filter (fun r => decide (r.eventId = eventId) && decide (r.response = resp))).length

/-! ## A small store used in the examples -/

/-- Account 7 owns an active event 1 and a cancelled event 2; account 2 has
answered Yes with two guests to event 1. -/
def sampleStore : Store :=
  { events := [{ _id := 1, createdBy := 7 }, { _id := 2, createdBy := 7, status := "cancelled" }],
    rsvps := [{ eventId := 1, userId := 2, response := "Yes", plusOnes := 2, timestamp := 3 }] }

/-- The sample store after account 2 has added the message "see you" to its
row. -/
def notedStore : Store :=
  { sampleStore with
    rsvps := [{ eventId := 1, userId := 2, response := "Yes", message := some "see you",
                plusOnes := 2, timestamp := 3 }] }

/-- The sample store with a row of account 2 that was written past the schema
(an import or a shell session): its `plusOnes` is negative. -/
def legacyStore : Store :=
  { sampleStore with
    rsvps := [{ eventId := 1, userId := 2, response := "Yes", plusOnes := -1, timestamp := 3 }] }

/-- A message of 201 characters. -/
def longMessage : String := String.mk (List.replicate 201 'a')

/-! ## eventController.js: update -/

/-- The plain fields of a body of `POST /api/events` or `PUT /api/events/:id`,
each with a value of the type of its path; `none` is a field the request
omits.  A body of `PUT` that also holds update operators is an `UpdateBody`. -/
structure EventBody where
  title : Option String := none
  description : Option String := none
  date : Option Nat := none
  time : Option String := none
  location : Option String := none
  createdBy : Option ObjectId := none
  inviteLink : Option String := none
  attendees : Option (List ObjectId) := none
  maxAttendees : Option Nat := none
  isPublic : Option Bool := none
  category : Option String := none
  status : Option String := none
  createdAt : Option Nat := none
  updatedAt : Option Nat := none
deriving DecidableEq

/-- Values of the `enum` of `category` in `eventModel.js`. -/
def categoryEnum : List String := ["party", "meeting", "conference", "wedding", "birthday", "other"]

/-- Values of the `enum` of `status` in `eventModel.js`. -/
def statusEnum : List String := ["active", "cancelled", "completed"]

/-- Validators of a trimmed, required string path with a `maxlength`. -/
def checkText (path required tooLong : String) (max : Nat) (v : Option String) : List String :=
  match v with
  | none => []
  | some t =>
    if trim t = "" then [path ++ ": " ++ required]
    else if jsLength (trim t) ≤ max then [] else [path ++ ": " ++ tooLong]

/-- Validator of an `enum` path. -/
def checkEnum (path : String) (values : List String) (v : Option String) : List String :=
  match v with
  | none => []
  | some t => if t ∈ values then [] else [path ++ ": " ++ t ++ " is not a valid enum value"]

/-- The validators that `runValidators: true` runs on the paths of the update. -/
def checkEventBody (b : EventBody) : List String :=
  checkText "title" "Please provide an event title" "Title cannot be more than 100 characters" 100
      b.title ++
    checkText "description" "Please provide an event description"
      "Description cannot be more than 500 characters" 500 b.description ++
    (match b.time with
     | some t => if t = "" then ["time: Please provide an event time"] else []
     | none => []) ++
    checkText "location" "Please provide an event location"
      "Location cannot be more than 100 characters" 100 b.location ++
    checkEnum "category" categoryEnum b.category ++
    checkEnum "status" statusEnum b.status

/-- The document after the paths of the body are set; the schema trims
`title`, `description` and `location`. -/
def applyEventBody (e : Event) (b : EventBody) : Event :=
  { _id := e._id,
    title := (b.title.map trim).getD e.title,
    description := (b.description.map trim).getD e.description,
    date := b.date.getD e.date,
    time := b.time.getD e.time,
    location := (b.location.map trim).getD e.location,
    createdBy := b.createdBy.getD e.createdBy,
    inviteLink := b.inviteLink.getD e.inviteLink,
    attendees := b.attendees.getD e.attendees,
    maxAttendees := (match b.maxAttendees with
                     | some n => some n
                     | none => e.maxAttendees),
    isPublic := b.isPublic.getD e.isPublic,
    category := b.category.getD e.category,
    status := b.status.getD e.status,
    createdAt := b.createdAt.getD e.createdAt,
    updatedAt := b.updatedAt.getD e.updatedAt }

/-- Replacing the first event document with the given `_id`. -/
def replaceEvent (events : List Event) (id : ObjectId) (doc : Event) : List Event :=
  match events with
  | [] => []
  | e :: es => if e._id = id then doc :: es else e :: replaceEvent es id doc

/-- The call `Event.findByIdAndUpdate(id, body, { new: true, runValidators: true })`
on a stored event: update validators, then the write under the unique index on
`inviteLink`. -/
def findByIdAndUpdate (events : List Event) (id : ObjectId) (event : Event) (b : EventBody) :
    Except String (Event × List Event) :=
  match checkEventBody b with
  | [] =>
    let doc := applyEventBody event b
    let duplicate :=
      match b.inviteLink with
      | some link => events.any (fun e => !decide (e._id = id) && decide (e.inviteLink = link))
      | none => false
    if duplicate then .error "E11000 duplicate key error collection: events index: inviteLink_1"
    else .ok (doc, replaceEvent events id doc)
  | errs => .error ("Validation failed: " ++ ", ".intercalate errs)

/-- The handler `updateEvent` (eventController.js, lines 169-203). -/
def updateEvent (s : Store) (id userId : ObjectId) (body : EventBody) : Reply Event × Store :=
  match findById s.events id with
  | none => (notFound "Event not found", s)
  | some event =>
    if event.createdBy ≠ userId then
      ({ status := 401, success := false, message := some "Not authorized to update this event" }, s)
    else
      match findByIdAndUpdate s.events id event body with
      | .ok (doc, events) =>
        ({ status := 200, success := true, data := some doc }, { s with events := events })
      | .error e => (serverError e, s)

/-- The body of `PUT /api/events/:id` as `findByIdAndUpdate` reads it: the plain
fields, which the update is built from as a `$set`, and the update operators.
Of the operators, `$set` is kept with all its paths and `$unset` with its entry
for `inviteLink`; other operators and other entries of `$unset` are left out. -/
structure UpdateBody where
  fields : EventBody := { }
  set : EventBody := { }
  unsetInviteLink : Bool := false
deriving DecidableEq

/-- A path of the `$set` that the update is cast to: the plain field if the
body has it, else the entry of the `$set` of the body. -/
def orField {α : Type} (field setEntry : Option α) : Option α :=
  match field with
  | some v => some v
  | none => setEntry

/-- The `$set` that the update is cast to: the plain fields of the body written
over the `$set` of the body. -/
def mergeBody (fields set : EventBody) : EventBody :=
  { title := orField fields.title set.title,
    description := orField fields.description set.description,
    date := orField fields.date set.date,
    time := orField fields.time set.time,
    location := orField fields.location set.location,
    createdBy := orField fields.createdBy set.createdBy,
    inviteLink := orField fields.inviteLink set.inviteLink,
    attendees := orField fields.attendees set.attendees,
    maxAttendees := orField fields.maxAttendees set.maxAttendees,
    isPublic := orField fields.isPublic set.isPublic,
    category := orField fields.category set.category,
    status := orField fields.status set.status,
    createdAt := orField fields.createdAt set.createdAt,
    updatedAt := orField fields.updatedAt set.updatedAt }

/-- The call `Event.findByIdAndUpdate(id, req.body, { new: true, runValidators: true })`
on a stored event, for a body with update operators: update validators on the
paths that are set, then the write, which the database rejects when a path is
both set and unset, and under the unique index on `inviteLink`.  A document
whose `inviteLink` was unset holds the empty string here, which no generated
link equals; the index keeps at most one document without a link. -/
def findByIdAndUpdateRaw (events : List Event) (id : ObjectId) (event : Event)
    (raw : UpdateBody) : Except String (Event × List Event) :=
  match checkEventBody (mergeBody raw.fields raw.set) with
  | [] =>
    if raw.unsetInviteLink = true ∧ (mergeBody raw.fields raw.set).inviteLink.isSome = true then
      .error "Updating the path inviteLink would create a conflict at inviteLink"
    else
      let doc : Event :=
        if raw.unsetInviteLink = true then
          { applyEventBody event (mergeBody raw.fields raw.set) with inviteLink := "" }
        else applyEventBody event (mergeBody raw.fields raw.set)
      let written : Option String :=
        if raw.unsetInviteLink = true then some "" else (mergeBody raw.fields raw.set).inviteLink
      let duplicate :=
        match written with
        | some link => events.any (fun e => !decide (e._id = id) && decide (e.inviteLink = link))
        | none => false
      if duplicate then .error "E11000 duplicate key error collection: events index: inviteLink_1"
      else .ok (doc, replaceEvent events id doc)
  | errs => .error ("Validation failed: " ++ ", ".intercalate errs)

/-- The handler `updateEvent` (eventController.js, lines 169-203) on the body
as it arrives, update operators included: `req.body` is passed to
`findByIdAndUpdate` as it is (line 188). -/
def updateEventRaw (s : Store) (id userId : ObjectId) (raw : UpdateBody) : Reply Event × Store :=
  match findById s.events id with
  | none => (notFound "Event not found", s)
  | some event =>
    if event.createdBy ≠ userId then
      ({ status := 401, success := false, message := some "Not authorized to update this event" }, s)
    else
      match findByIdAndUpdateRaw s.events id event raw with
      | .ok (doc, events) =>
        ({ status := 200, success := true, data := some doc }, { s with events := events })
      | .error e => (serverError e, s)

/-- The response interceptor of `utils/api.js` (lines 28-38): on a reply with
status 401 the stored token and user are removed and the browser is sent to
`/login`. -/
def interceptorEndsSession (status : Nat) : Bool :=
  decide (status = 401)

/-! ## Route tables and dispatch -/

/-- HTTP methods of the route tables. -/
inductive Method where
  | GET | POST | PUT | DELETE
deriving DecidableEq

/-- The handlers exported by the two controllers. -/
inductive Handler where
  | createRSVP | getEventRSVPs | getMyRSVPs | getMyRSVPForEvent | deleteRSVP
  | getEvents | getMyEvents | getEventByInviteLink | getEvent | createEvent | updateEvent
  | deleteEvent
deriving DecidableEq

/-- A segment of a route path: a literal or a parameter such as `:eventId`. -/
inductive Segment where
  | lit (s : String)
  | param (name : String)
deriving DecidableEq

/-- One registration `router.METHOD(path, [protect,] .., handler)`. -/
structure Route where
  method : Method
  path : List Segment
  protect : Bool
  handler : Handler
deriving DecidableEq

/-- Matching a route path against the segments of a request path; a parameter
takes any non-empty segment. -/
def matchPath (pattern : List Segment) (path : List String) : Option (List (String × String)) :=
  match pattern, path with
  | [], [] => some []
  | Segment.lit s :: ps, x :: xs => if s = x then matchPath ps xs else none
  | Segment.param n :: ps, x :: xs =>
    if x = "" then none else (matchPath ps xs).map (fun params => (n, x) :: params)
  | _, _ => none

/-- First-match dispatch over a route table in registration order. -/
def dispatch (routes : List Route) (m : Method) (path : List String) :
    Option (Handler × List (String × String)) :=
  match routes with
  | [] => none
  | r :: rs =>
    if r.method = m then
      match matchPath r.path path with
      | some params => some (r.handler, params)
      | none => dispatch rs m path
    else dispatch rs m path

/-- The route table of `rsvpRoutes.js`, in registration order. -/
def rsvpRoutes : List Route :=
  [ { method := .POST, path := [.param "eventId"], protect := true, handler := .createRSVP },
    { method := .GET, path := [.param "eventId"], protect := false, handler := .getEventRSVPs },
    { method := .GET, path := [.lit "my-rsvps"], protect := true, handler := .getMyRSVPs },
    { method := .GET, path := [.param "eventId", .lit "my-response"], protect := true,
      handler := .getMyRSVPForEvent },
    { method := .DELETE, path := [.param "eventId"], protect := true, handler := .deleteRSVP } ]

/-- The route table of `eventRoutes.js`, in registration order. -/
def eventRoutes : List Route :=
  [ { method := .GET, path := [], protect := false, handler := .getEvents },
    { method := .GET, path := [.lit "my-events"], protect := true, handler := .getMyEvents },
    { method := .GET, path := [.lit "invite", .param "link"], protect := false,
      handler := .getEventByInviteLink },
    { method := .GET, path := [.param "id"], protect := false, handler := .getEvent },
    { method := .POST, path := [], protect := true, handler := .createEvent },
    { method := .PUT, path := [.param "id"], protect := true, handler := .updateEvent },
    { method := .DELETE, path := [.param "id"], protect := true, handler := .deleteEvent } ]

/-! ## server.js: the broadcast rooms -/

/-- A socket connection (`socket.id`). -/
abbrev ConnId := Nat

/-- The room registry of the socket server: the pairs (room, connection) of
the current memberships; a room is the set of connections paired with it. -/
abbrev Registry := List (String × ConnId)

/-- The room name of an event: the template `event-${eventId}`. -/
def roomOf (eventId : String) : String := "event-" ++ eventId

/-- The call `socket.join(room)`: joining a room twice leaves one membership. -/
def Registry.join (reg : Registry) (room : String) (c : ConnId) : Registry :=
  if (room, c) ∈ reg then reg else reg ++ [(room, c)]

/-- The call `socket.leave(room)`. -/
def Registry.leave (reg : Registry) (room : String) (c : ConnId) : Registry :=
  reg.filter (fun m => !decide (m = (room, c)))

/-- A closed connection is removed from all its rooms. -/
def Registry.drop (reg : Registry) (c : ConnId) : Registry :=
  reg.filter (fun m => !decide (m.2 = c))

/-- A message delivered to a connection. -/
structure Delivery where
  conn : ConnId
  event : String
  payload : String
deriving DecidableEq

/-- The call `socket.to(room).emit(event, payload)`: one message to every
member of the room except the sending socket. -/
def emitToRoom (reg : Registry) (room : String) (sender : ConnId) (event payload : String) :
    List Delivery :=
  (reg.filter (fun m => decide (m.1 = room) && !decide (m.2 = sender))).map
    (fun m => { conn := m.2, event := event, payload := payload })

/-- Messages a client can send on its socket (server.js, lines 63-83). -/
inductive SocketMsg where
  | joinEvent (eventId : String)
  | leaveEvent (eventId : String)
  | rsvpUpdate (eventId : String) (rsvpData : String)
  | disconnect
deriving DecidableEq

/-- The listeners registered in `io.on('connection', ..)` for the socket `c`. -/
def onSocket (reg : Registry) (c : ConnId) (msg : SocketMsg) : Registry × List Delivery :=
  match msg with
  | .joinEvent eventId => (reg.join (roomOf eventId) c, [])
  | .leaveEvent eventId => (reg.leave (roomOf eventId) c, [])
  | .rsvpUpdate eventId rsvpData => (reg, emitToRoom reg (roomOf eventId) c "rsvp-received" rsvpData)
  | .disconnect => (reg.drop c, [])

/-- The registry after the socket messages of a history, starting from `reg`. -/
def runSockets (reg : Registry) (history : List (ConnId × SocketMsg)) : Registry :=
  history.foldl (fun r m => (onSocket r m.1 m.2).1) reg

/-- State of the server process: the database and the room registry. -/
structure ServerState where
  store : Store
  registry : Registry
deriving DecidableEq

/-- What the server handles: a call of an HTTP handler or a socket message. -/
inductive ServerEvent where
  | http (call : Call)
  | socket (c : ConnId) (msg : SocketMsg)

/-- One step of the server with the messages it delivers to connections.  The
HTTP handlers contain no call on the socket server (no `io` or `req.io` in the
controllers), so they deliver nothing. -/
def serverStep (st : ServerState) (ev : ServerEvent) : ServerState × List Delivery :=
  match ev with
  | .http call => ({ st with store := call.apply st.store }, [])
  | .socket c msg =>
    ({ st with registry := (onSocket st.registry c msg).1 }, (onSocket st.registry c msg).2)

/-! ## The create branch under a concurrent insert -/

/-- The create branch of `createRSVP` (lines 43-52 and the `catch` of lines
63-68) after the lookup of line 30 has found no row, when the insert reaches
the storage in state `s`: another request may have inserted a row of the pair
in between, and then the unique index rejects the insert. -/
def createRSVPInsertAt (s : Store) (eventId userId : ObjectId) (body : RSVPBody) (now : Nat) :
    Reply RSVP × Store :=
  match newRSVP eventId userId body now with
  | .ok doc =>
    match insertRSVP s.rsvps doc with
    | .ok rows => ({ status := 201, success := true, data := some doc }, { s with rsvps := rows })
    | .error e => (serverError e, s)
  | .error e => (serverError e, s)

/-- The sample store after another request has inserted a row of account 3 for
event 1. -/
def racedStore : Store :=
  { sampleStore with
    rsvps := sampleStore.rsvps ++ [{ eventId := 1, userId := 3, response := "No", timestamp := 8 }] }

/-! ## eventController.js: listing, reading and creating events -/

/-- Query string of `GET /api/events`; `none` is a parameter the request omits. -/
structure EventQuery where
  page : Option Nat := none
  limit : Option Nat := none
  category : Option String := none
  search : Option String := none
deriving DecidableEq

/-- The filter built in `getEvents` (lines 11-23): `status: 'active'`, the
category unless it is missing, empty or 'all', and for a non-empty search text
the `$or` of the case-insensitive `$regex` on title, description and location.
The search text is handed to `$regex` as it is; `rx` is the regular-expression
engine of the database: `rx pattern` is the test the pattern compiles to, and
`none` for a text that is no regular expression. -/
def matchesQuery (rx : String → Option (String → Bool)) (q : EventQuery) (e : Event) : Bool :=
  decide (e.status = "active") &&
  (match q.category with
   | some c => if c = "" ∨ c = "all" then true else decide (e.category = c)
   | none => true) &&
  (match q.search with
   | some t =>
     if t = "" then true
     else
       match rx t with
       | some test => test e.title || test e.description || test e.location
       | none => false
   | none => true)

/-- A query whose search text is not empty and is no regular expression: the
database rejects the filter. -/
def invalidSearch (rx : String → Option (String → Bool)) (q : EventQuery) : Bool :=
  match q.search with
  | some t => !decide (t = "") && (rx t).isNone
  | none => false

/-- Order of `.sort({ createdAt: -1 })`: newest first. -/
def newestEventFirst (a b : Event) : Prop := b.createdAt ≤ a.createdAt

instance : DecidableRel newestEventFirst :=
  fun a b => inferInstanceAs (Decidable (b.createdAt ≤ a.createdAt))

/-- Reply of `getEvents`. -/
structure EventListReply where
  status : Nat
  success : Bool
  message : Option String := none
  count : Option Nat := none
  total : Option Nat := none
  data : List Event := []
deriving DecidableEq

/-- The handler `getEvents` (eventController.js, lines 7-45).  `page` defaults
to 1 and `limit` to 10; the database rejects the negative skip of page 0, and a
limit of 0 means no limit.  A search text that is no regular expression makes
`Event.find` reject, and the `catch` answers with status 500. -/
def getEvents (rx : String → Option (String → Bool)) (s : Store) (q : EventQuery) :
    EventListReply :=
  let page := q.page.getD 1
  let limit := q.limit.getD 10
  let found := (s.events.filter (matchesQuery rx q)).insertionSort newestEventFirst
  if page = 0 ∧ limit ≠ 0 then
    { status := 500, success := false, message := some "Skip value must be non-negative" }
  else if invalidSearch rx q then
    { status := 500, success := false, message := some "Regular expression is invalid" }
  else
    let skipped := found.drop ((page - 1) * limit)
    let events := if limit = 0 then skipped else skipped.take limit
    { status := 200, success := true, count := some events.length,
      total := some (s.events.filter (matchesQuery rx q)).length, data := events }

/-- Starts-with test on character lists. -/
def startsWith (p t : List Char) : Bool :=
  match p, t with
  | [], _ => true
  | _ :: _, [] => false
  | a :: p1, b :: t1 => a == b && startsWith p1 t1

/-- Occurrence of `p` somewhere in `t`. -/
def occursIn (p t : List Char) : Bool :=
  match t with
  | [] => p.isEmpty
  | c :: cs => startsWith p (c :: cs) || occursIn p cs

/-- A search text with an unclosed group: it has no escape and no character
class (no backslash, no square bracket) and more opening than closing
parentheses.  Such a text is no regular expression. -/
def unclosedGroup (pattern : String) : Bool :=
  pattern.data.all (fun c => !decide (c.toNat = 92) && !decide (c.toNat = 91) &&
    !decide (c.toNat = 93)) &&
  decide ((pattern.data.filter (fun c => decide (c.toNat = 41))).length <
    (pattern.data.filter (fun c => decide (c.toNat = 40))).length)

/-- The engine behind `{ $regex: search, $options: 'i' }` on the search texts
of the examples: a text with an unclosed group is rejected, and a text without
regular-expression metacharacters is compiled to the test of case-insensitive
occurrence.  Any other text is read here as if it had no metacharacters; the
examples use none. -/
def literalSearch (pattern : String) : Option (String → Bool) :=
  if unclosedGroup pattern then none
  else some (fun text => occursIn (pattern.data.map Char.toLower) (text.data.map Char.toLower))

/-- Reply of `getEvent` and `getEventByInviteLink`: the event with `rsvpStats`. -/
structure EventDetailReply where
  status : Nat
  success : Bool
  message : Option String := none
  event : Option Event := none
  rsvpStats : Option Obj := none
deriving DecidableEq

/-- The tally of lines 63-77 and 110-124: the groups assigned over
`{ Yes: 0, No: 0, Maybe: 0 }`. -/
def eventRsvpStats (s : Store) (event : Event) : Obj :=
  assignStats [("Yes", 0), ("No", 0), ("Maybe", 0)] (aggregateByResponse s.rsvps event._id)

/-- The handler `getEvent` (eventController.js, lines 50-92). -/
def getEvent (s : Store) (id : ObjectId) : EventDetailReply :=
  match findById s.events id with
  | none => { status := 404, success := false, message := some "Event not found" }
  | some event =>
    { status := 200, success := true, event := some event,
      rsvpStats := some (eventRsvpStats s event) }

/-- The query `Event.findOne({ inviteLink: link })`. -/
def findByInviteLink (events : List Event) (link : String) : Option Event :=
  events.find? (fun e => decide (e.inviteLink = link))

/-- The handler `getEventByInviteLink` (eventController.js, lines 97-139). -/
def getEventByInviteLink (s : Store) (link : String) : EventDetailReply :=
  match findByInviteLink s.events link with
  | none => { status := 404, success := false, message := some "Event not found" }
  | some event =>
    { status := 200, success := true, event := some event,
      rsvpStats := some (eventRsvpStats s event) }

/-- The `required` validators of `eventModel.js` on a path the body omits. -/
def checkEventRequired (b : EventBody) : List String :=
  (if b.title.isNone then ["title: Please provide an event title"] else []) ++
  (if b.description.isNone then ["description: Please provide an event description"] else []) ++
  (if b.date.isNone then ["date: Please provide an event date"] else []) ++
  (if b.time.isNone then ["time: Please provide an event time"] else []) ++
  (if b.location.isNone then ["location: Please provide an event location"] else [])

/-- The document that `Event.create({ ...req.body, createdBy: req.user.id })`
builds (eventController.js, lines 146-149): the paths of the body, `createdBy`
replaced by the caller, the schema defaults for the paths left out (`link` is
the generated uuid, `newId` the generated `_id`), and `updatedAt` set by the
`pre('save')` hook.  Every path is validated. -/
def newEvent (b : EventBody) (userId : ObjectId) (now : Nat) (newId : ObjectId) (link : String) :
    Except String Event :=
  match b.title, b.description, b.date, b.time, b.location,
      checkEventRequired b ++ checkEventBody b with
  | some title, some description, some date, some time, some location, [] =>
    .ok { _id := newId, title := trim title, description := trim description, date := date,
          time := time, location := trim location, createdBy := userId,
          inviteLink := b.inviteLink.getD link, attendees := b.attendees.getD [],
          maxAttendees := b.maxAttendees, isPublic := b.isPublic.getD true,
          category := b.category.getD "other", status := b.status.getD "active",
          createdAt := b.createdAt.getD now, updatedAt := now }
  | _, _, _, _, _, errs => .error ("Event validation failed: " ++ ", ".intercalate errs)

/-- Insert of `Event.create` under the unique indexes on `_id` and `inviteLink`. -/
def insertEvent (events : List Event) (doc : Event) : Except String (List Event) :=
  if events.any (fun e => decide (e._id = doc._id)) then
    .error "E11000 duplicate key error collection: events index: _id_"
  else if events.any (fun e => decide (e.inviteLink = doc.inviteLink)) then
    .error "E11000 duplicate key error collection: events index: inviteLink_1"
  else .ok (events ++ [doc])

/-- The handler `createEvent` (eventController.js, lines 144-164). -/
def createEvent (s : Store) (userId : ObjectId) (body : EventBody) (now : Nat)
    (newId : ObjectId) (link : String) : Reply Event × Store :=
  match newEvent body userId now newId link with
  | .ok doc =>
    match insertEvent s.events doc with
    | .ok events => ({ status := 201, success := true, data := some doc }, { s with events := events })
    | .error e => (serverError e, s)
  | .error e => (serverError e, s)

/-! ## eventRoutes.js -/

/-- Chain `.trim().notEmpty().isLength({ min, max })` of a text field of
`router.post('/')`: the first failing validator gives the message. -/
def checkTextField (required range : String) (min max : Nat) (v : Option String) : List String :=
  match v with
  | none => [required]
  | some t =>
    if trim t = "" then [required]
    else if min ≤ jsLength (trim t) ∧ jsLength (trim t) ≤ max then [] else [range]

/-- The validation chains of `router.post('/', ..)` (eventRoutes.js, lines
39-78): the recorded errors and the body after the sanitizer `trim`.  The date
is a timestamp, so `isISO8601` holds when it is present; the custom validator
compares it with the current time. -/
def eventValidators (body : EventBody) (now : Nat) : List String × EventBody :=
  let e1 := checkTextField "Event title is required" "Title must be between 3 and 100 characters"
    3 100 body.title
  let e2 := checkTextField "Event description is required"
    "Description must be between 10 and 500 characters" 10 500 body.description
  let e3 :=
    match body.date with
    | none => ["Please provide a valid date"]
    | some d => if d < now then ["Event date cannot be in the past"] else []
  let e4 :=
    match body.time with
    | some t => if t = "" then ["Event time is required"] else []
    | none => ["Event time is required"]
  let e5 := checkTextField "Event location is required"
    "Location must be between 3 and 100 characters" 3 100 body.location
  let e6 :=
    match body.category with
    | some c => if c ∈ categoryEnum then [] else ["Invalid category"]
    | none => []
  let e7 :=
    match body.maxAttendees with
    | some n => if 1 ≤ n then [] else ["Max attendees must be a positive number"]
    | none => []
  (e1 ++ e2 ++ e3 ++ e4 ++ e5 ++ e6 ++ e7,
    { body with title := body.title.map trim, description := body.description.map trim,
                location := body.location.map trim })

/-- The route `POST /api/events` for an authenticated account: the validation
chains run, then `createEvent`.  Neither the route nor the handler reads the
recorded errors (there is no `validationResult(req)`), so only the sanitized
body is passed on. -/
def postEvent (s : Store) (userId : ObjectId) (body : EventBody) (now : Nat)
    (newId : ObjectId) (link : String) : Reply Event × Store :=
  createEvent s userId (eventValidators body now).2 now newId link

/-- A store with invite links: account 7 owns the public event 1 and the
private event 2, both active; account 8 owns the older public event 3. -/
def linkStore : Store :=
  { events :=
      [{ _id := 1, title := "Summer party", createdBy := 7, inviteLink := "aaa", createdAt := 20 },
       { _id := 2, title := "Board meeting", createdBy := 7, inviteLink := "bbb",
         isPublic := false, category := "meeting", createdAt := 30 },
       { _id := 3, title := "Old picnic", createdBy := 8, inviteLink := "ccc", createdAt := 10 }],
    rsvps := [{ eventId := 1, userId := 2, response := "Yes", plusOnes := 2, timestamp := 3 },
              { eventId := 1, userId := 3, response := "No", timestamp := 4 },
              { eventId := 2, userId := 3, response := "Maybe", timestamp := 5 }] }

/-! ## Storage calls that throw -/

/-- For each storage call awaited by `createRSVP`, in source order
(`Event.findById`, `RSVP.findOne`, `save` or `create`, `RSVP.findById`), the
message of the exception if the call throws. -/
structure CreateRSVPFaults where
  findEvent : Option String := none
  findRow : Option String := none
  write : Option String := none
  populate : Option String := none
deriving DecidableEq

/-- The handler `createRSVP` when storage calls may throw: the `catch` of lines
63-68 answers with status 500 and `error.message`.  A write that throws leaves
the store as it was; a throw of the later `RSVP.findById` comes after the
write. -/
def createRSVPF (f : CreateRSVPFaults) (s : Store) (eventId userId : ObjectId) (body : RSVPBody)
    (now : Nat) : Reply RSVP × Store :=
  match f.findEvent with
  | some m => (serverError m, s)
  | none =>
    match findById s.events eventId with
    | none => (notFound "Event not found", s)
    | some event =>
      if event.status ≠ "active" then
        ({ status := 400, success := false, message := some "Event is no longer accepting RSVPs" },
          s)
      else
        match f.findRow with
        | some m => (serverError m, s)
        | none =>
          match (match findOne s.rsvps eventId userId with
                 | some rsvp => (updatedRSVP rsvp body now).bind
                     (fun doc => .ok (doc, saveRSVP s.rsvps doc))
                 | none => (newRSVP eventId userId body now).bind
                     (fun doc => (insertRSVP s.rsvps doc).map (fun rows => (doc, rows)))) with
          | .error e => (serverError e, s)
          | .ok (doc, rows) =>
            match f.write with
            | some m => (serverError m, s)
            | none =>
              match f.populate with
              | some m => (serverError m, { s with rsvps := rows })
              | none => ({ status := 201, success := true, data := some doc }, { s with rsvps := rows })

/-- For each storage call awaited by `deleteEvent`, in source order
(`Event.findById`, `RSVP.deleteMany`, `event.deleteOne`), the message of the
exception if the call throws. -/
structure DeleteEventFaults where
  findEvent : Option String := none
  deleteMany : Option String := none
  deleteOne : Option String := none
deriving DecidableEq

/-- The handler `deleteEvent` when storage calls may throw: the `catch` of
lines 236-241 answers with status 500 and `error.message`; no write that was
done before the throw is undone. -/
def deleteEventF (f : DeleteEventFaults) (s : Store) (id userId : ObjectId) : Reply Unit × Store :=
  match f.findEvent with
  | some m => (serverError m, s)
  | none =>
    match findById s.events id with
    | none => (notFound "Event not found", s)
    | some event =>
      if event.createdBy ≠ userId then
        ({ status := 401, success := false, message := some "Not authorized to delete this event" },
          s)
      else
        match f.deleteMany with
        | some m => (serverError m, s)
        | none =>
          match f.deleteOne with
          | some m =>
            (serverError m, { s with rsvps := s.rsvps.filter (fun r => !decide (r.eventId = id)) })
          | none =>
            ({ status := 200, success := true, message := some "Event deleted successfully" },
              { events := s.events.eraseP (fun e => decide (e._id = event._id)),
                rsvps := s.rsvps.filter (fun r => !decide (r.eventId = id)) })

/-! ## Two concurrent `createRSVP` calls -/

/-- The parameters of one `createRSVP` request. -/
structure RSVPCall where
  eventId : ObjectId
  userId : ObjectId
  body : RSVPBody
  now : Nat
deriving DecidableEq

/-- Where a `createRSVP` call stands between its awaited storage calls: before
`Event.findById`, before `RSVP.findOne`, before `rsvp.save()` of the row it has
read, before `RSVP.create`, before the final `RSVP.findById`, or finished with
a status. -/
inductive Phase where
  | start
  | lookup
  | update (read : RSVP)
  | insert
  | populate
  | done (status : Nat)
deriving DecidableEq

/-- A finished call. -/
def Phase.isDone (ph : Phase) : Bool :=
  match ph with
  | .done _ => true
  | _ => false

/-- What `rsvp.save()` writes on a stored document: the `$set` of the paths
whose assigned value differs from the value that was read; the other paths of
the row in the store stay as they are. -/
def patchRow (read doc cur : RSVP) : RSVP :=
  { eventId := cur.eventId, userId := cur.userId,
    response := if doc.response = read.response then cur.response else doc.response,
    message := if doc.message = read.message then cur.message else doc.message,
    plusOnes := if doc.plusOnes = read.plusOnes then cur.plusOnes else doc.plusOnes,
    timestamp := if doc.timestamp = read.timestamp then cur.timestamp else doc.timestamp }

/-- A committed write: the call, the row the call had read (none for an
insert), and the row of the pair in the store after the write. -/
structure Commit where
  call : RSVPCall
  read : Option RSVP
  row : RSVP
deriving DecidableEq

/-- One storage call of a `createRSVP` request: the store and the phase after
it, and the write it committed, if any. -/
def callStep (c : RSVPCall) (s : Store) (ph : Phase) : Store × Phase × Option Commit :=
  match ph with
  | .start =>
    match findById s.events c.eventId with
    | none => (s, .done 404, none)
    | some event => if event.status ≠ "active" then (s, .done 400, none) else (s, .lookup, none)
  | .lookup =>
    match findOne s.rsvps c.eventId c.userId with
    | some rsvp => (s, .update rsvp, none)
    | none => (s, .insert, none)
  | .update read =>
    match updatedRSVP read c.body c.now with
    | .error _ => (s, .done 500, none)
    | .ok doc =>
      match findOne s.rsvps read.eventId read.userId with
      | none => (s, .done 500, none)
      | some cur =>
        ({ s with rsvps := saveRSVP s.rsvps (patchRow read doc cur) }, .populate,
          some { call := c, read := some read, row := patchRow read doc cur })
  | .insert =>
    match newRSVP c.eventId c.userId c.body c.now with
    | .error _ => (s, .done 500, none)
    | .ok doc =>
      match insertRSVP s.rsvps doc with
      | .ok rows => ({ s with rsvps := rows }, .populate, some { call := c, read := none, row := doc })
      | .error _ => (s, .done 500, none)
  | .populate => (s, .done 201, none)
  | .done status => (s, .done status, none)

/-- The store, the phases of the two calls, and the committed writes, newest
first. -/
structure ConcState where
  store : Store
  phaseA : Phase
  phaseB : Phase
  commits : List Commit
deriving DecidableEq

/-- Both calls at their start. -/
def ConcState.init (s : Store) : ConcState :=
  { store := s, phaseA := .start, phaseB := .start, commits := [] }

/-- The newest first list of commits after a step. -/
def pushCommit (cm : Option Commit) (commits : List Commit) : List Commit :=
  match cm with
  | some x => x :: commits
  | none => commits

/-- One step of the interleaving: the next storage call of call `a` (when
`pickA`) or of call `b`. -/
def concStep (a b : RSVPCall) (st : ConcState) (pickA : Bool) : ConcState :=
  if pickA then
    { store := (callStep a st.store st.phaseA).1, phaseA := (callStep a st.store st.phaseA).2.1,
      phaseB := st.phaseB, commits := pushCommit (callStep a st.store st.phaseA).2.2 st.commits }
  else
    { store := (callStep b st.store st.phaseB).1, phaseA := st.phaseA,
      phaseB := (callStep b st.store st.phaseB).2.1,
      commits := pushCommit (callStep b st.store st.phaseB).2.2 st.commits }

/-- The state after an interleaving, given as the list of the calls that move. -/
def runSchedule (a b : RSVPCall) (st : ConcState) (schedule : List Bool) : ConcState :=
  schedule.foldl (concStep a b) st

/-! ## The listing in the words of the specification -/

/-- An event that a listing for the query is to show: it is active, it has the
category of the query unless that is missing, empty or 'all', and for a
non-empty search text, the text is a regular expression that its title,
description or location matches. -/
def Listed (rx : String → Option (String → Bool)) (q : EventQuery) (e : Event) : Prop :=
  e.status = "active" ∧
  (∀ c, q.category = some c → c ≠ "" → c ≠ "all" → e.category = c) ∧
  (∀ t, q.search = some t → t ≠ "" →
    ∃ test, rx t = some test ∧
      (test e.title = true ∨ test e.description = true ∨ test e.location = true))

/-! ## Invariant of the two concurrent calls -/

/-- A submission that passes the schema validators: a response of the
enumeration, a message of at most 200 characters after trimming, and a
`plusOnes` that is not negative. -/
def ValidBody (b : RSVPBody) : Prop :=
  (∃ resp, b.response = some resp ∧ resp ∈ responseEnum) ∧
  (∀ m, b.message = some m → jsLength (trim m) ≤ 200) ∧
  (∀ n, b.plusOnes = some n → 0 ≤ n)

/-- What holds of a call for the pair `(e, u)` in a phase: a row it has read
is a row of the pair that passes the schema validation, and the pair still has
a row; a call about to insert faces a row of the pair only after a commit; a
call past its write has seen a commit. -/
def PhaseOk (e u : ObjectId) (rsvps : List RSVP) (commits : List Commit) (ph : Phase) : Prop :=
  match ph with
  | .start => True
  | .lookup => True
  | .update read =>
    read.eventId = e ∧ read.userId = u ∧ (findOne rsvps e u).isSome = true ∧ StoredValid read
  | .insert => (findOne rsvps e u).isSome = true → commits ≠ []
  | .populate => commits ≠ []
  | .done _ => commits ≠ []

/-- The write that committed last: it was made by one of the two calls, its
row is the stored row of the pair, and the row carries the response of its call
unless the call had read a row that already carried that response. -/
def LastCommitOk (a b : RSVPCall) (e u : ObjectId) (rsvps : List RSVP) (cm : Commit) : Prop :=
  (cm.call = a ∨ cm.call = b) ∧
  findOne rsvps e u = some cm.row ∧
  (some cm.row.response = cm.call.body.response ∨
    ∃ r, cm.read = some r ∧ some r.response = cm.call.body.response)

/-- The invariant of the interleavings of two calls for the pair `(e, u)`
started on the store `s0`. -/
def ConcInv (a b : RSVPCall) (e u : ObjectId) (s0 : Store) (st : ConcState) : Prop :=
  rowCount st.store.rsvps e u ≤ 1 ∧
  st.store.events = s0.events ∧
  (∀ cm, st.commits.head? = some cm → LastCommitOk a b e u st.store.rsvps cm) ∧
  PhaseOk e u st.store.rsvps st.commits st.phaseA ∧
  PhaseOk e u st.store.rsvps st.commits st.phaseB ∧
  (∀ row, findOne st.store.rsvps e u = some row → StoredValid row)

/-- The submission {Yes} of account 2 for event 1 at time 10. -/
def yesCall : RSVPCall := { eventId := 1, userId := 2, body := { response := some "Yes" }, now := 10 }

/-- The submission {No} of account 2 for event 1 at time 11. -/
def noCall : RSVPCall := { eventId := 1, userId := 2, body := { response := some "No" }, now := 11 }

/-! ## Theorems -/

/-! ## Lemmas on the store primitives -/

theorem matchesKey_iff (e u : ObjectId) (r : RSVP) :
    matchesKey e u r = true ↔ r.eventId = e ∧ r.userId = u := by
  simp [matchesKey]

theorem rowCount_saveRSVP (rsvps : List RSVP) (doc : RSVP) (e u : ObjectId) :
    rowCount (saveRSVP rsvps doc) e u = rowCount rsvps e u := by
  induction rsvps with
  | nil => simp [saveRSVP]
  | cons r rs ih =>
    unfold saveRSVP
    by_cases h : matchesKey doc.eventId doc.userId r = true
    · rw [if_pos h]
      have hr : matchesKey e u r = matchesKey e u doc := by
        simp only [matchesKey, Bool.and_eq_true, decide_eq_true_eq] at h
        simp [matchesKey, h.1, h.2]
      simp only [rowCount, List.filter_cons, hr]
      split <;> simp
    · rw [if_neg h]
      simp only [rowCount, List.filter_cons] at ih ⊢
      split <;> simp [ih]

theorem uniquePerPair_of_sublist {l1 l2 : List RSVP} (h : l1.Sublist l2)
    (hu : UniquePerPair l2) : UniquePerPair l1 := by
  intro e u
  exact le_trans (h.filter _).length_le (hu e u)

theorem rowCount_eq_zero_of_findOne_none {rsvps : List RSVP} {e u : ObjectId}
    (h : findOne rsvps e u = none) : rowCount rsvps e u = 0 := by
  unfold findOne at h
  rw [List.find?_eq_none] at h
  simp only [rowCount, List.length_eq_zero, List.filter_eq_nil_iff]
  exact h

theorem uniquePerPair_append_of_findOne_none {rsvps : List RSVP} {doc : RSVP}
    (hu : UniquePerPair rsvps) (h : findOne rsvps doc.eventId doc.userId = none) :
    UniquePerPair (rsvps ++ [doc]) := by
  intro e u
  have h0 := rowCount_eq_zero_of_findOne_none h
  have hu1 := hu e u
  simp only [rowCount, List.filter_append, List.length_append] at *
  by_cases hk : matchesKey e u doc = true
  · have : e = doc.eventId ∧ u = doc.userId := by
      rw [matchesKey_iff] at hk
      exact ⟨hk.1.symm, hk.2.symm⟩
    rw [this.1, this.2, h0]
    simp only [List.filter_cons, List.filter_nil]
    split <;> simp
  · simp only [List.filter_cons, hk, List.filter_nil]
    simpa using hu1

theorem newRSVP_key {e u : ObjectId} {b : RSVPBody} {now : Nat} {doc : RSVP}
    (h : newRSVP e u b now = .ok doc) : doc.eventId = e ∧ doc.userId = u := by
  unfold newRSVP at h
  simp only at h
  split at h
  · cases h; exact ⟨rfl, rfl⟩
  · cases h

theorem createRSVP_unique (s : Store) (e u : ObjectId) (b : RSVPBody) (now : Nat)
    (hu : UniquePerPair s.rsvps) : UniquePerPair (createRSVP s e u b now).2.rsvps := by
  unfold createRSVP
  cases hf : findById s.events e with
  | none => exact hu
  | some event =>
    simp only
    split
    · exact hu
    · cases hr : findOne s.rsvps e u with
      | some rsvp =>
        simp only
        cases hd : updatedRSVP rsvp b now with
        | error m => exact hu
        | ok doc =>
          intro e1 u1
          simp only [rowCount_saveRSVP]
          exact hu e1 u1
      | none =>
        simp only
        cases hd : newRSVP e u b now with
        | error m => exact hu
        | ok doc =>
          obtain ⟨h1, h2⟩ := newRSVP_key hd
          have hnone : findOne s.rsvps doc.eventId doc.userId = none := by rw [h1, h2]; exact hr
          simp only [insertRSVP, hnone, Option.isSome_none]
          exact uniquePerPair_append_of_findOne_none hu hnone

theorem deleteRSVP_unique (s : Store) (e u : ObjectId)
    (hu : UniquePerPair s.rsvps) : UniquePerPair (deleteRSVP s e u).2.rsvps := by
  unfold deleteRSVP
  split
  · exact hu
  · exact uniquePerPair_of_sublist (List.eraseP_sublist _) hu

theorem deleteEvent_unique (s : Store) (e u : ObjectId)
    (hu : UniquePerPair s.rsvps) : UniquePerPair (deleteEvent s e u).2.rsvps := by
  unfold deleteEvent
  split
  · exact hu
  · split
    · exact hu
    · exact uniquePerPair_of_sublist (List.filter_sublist _) hu

/-- C1: if no two RSVP rows of a store share the same (eventId, userId), then
after any finite sequence of createRSVP, deleteRSVP and deleteEvent calls with
arbitrary arguments, executed one after the other, the store still has at most
one RSVP row per (eventId, userId) pair. -/
theorem runCalls_uniquePerPair (s : Store) (calls : List Call)
    (hu : UniquePerPair s.rsvps) : UniquePerPair (runCalls s calls).rsvps := by
  unfold runCalls
  induction calls generalizing s with
  | nil => exact hu
  | cons c cs ih =>
    simp only [List.foldl_cons]
    apply ih
    cases c with
    | createRSVP e u b now => exact createRSVP_unique s e u b now hu
    | deleteRSVP e u => exact deleteRSVP_unique s e u hu
    | deleteEvent e u => exact deleteEvent_unique s e u hu


theorem uniquePerPair_of_nodup {rsvps : List RSVP} (h : (rowKeys rsvps).Nodup) :
    UniquePerPair rsvps := by
  induction rsvps with
  | nil => intro e u; simp [rowCount]
  | cons r rs ih =>
    simp only [rowKeys, List.map_cons, List.nodup_cons] at h
    intro e u
    have h1 := ih h.2 e u
    simp only [rowCount, List.filter_cons] at h1 ⊢
    by_cases hk : matchesKey e u r = true
    · rw [if_pos hk]
      have hz : List.filter (matchesKey e u) rs = [] := by
        rw [List.filter_eq_nil_iff]
        intro x hx hmx
        apply h.1
        rw [matchesKey_iff] at hk hmx
        rw [List.mem_map]
        exact ⟨x, hx, by rw [hmx.1, hmx.2, hk.1, hk.2]⟩
      simp [hz]
    · rw [if_neg hk]
      exact h1

/-- Instance of C1: the sample store and a sequence that updates, inserts,
deletes a row and deletes an event. -/
theorem runCalls_uniquePerPair_witness :
    UniquePerPair sampleStore.rsvps ∧
    UniquePerPair (runCalls sampleStore
      [Call.createRSVP 1 2 { response := some "Maybe" } 4,
       Call.createRSVP 1 3 { response := some "No", plusOnes := some 1 } 5,
       Call.deleteRSVP 1 2,
       Call.deleteEvent 1 7]).rsvps :=
  ⟨uniquePerPair_of_nodup (by decide),
   runCalls_uniquePerPair sampleStore _ (uniquePerPair_of_nodup (by decide))⟩

/-! ## The two branches of `createRSVP` -/

theorem ne_empty_of_mem_responseEnum {v : String} (h : v ∈ responseEnum) : v ≠ "" := by
  intro hv
  subst hv
  revert h
  decide

theorem checkResponse_of_mem {v : String} (h : v ∈ responseEnum) :
    checkResponse (some v) = [] := by
  simp [checkResponse, ne_empty_of_mem_responseEnum h, h]

theorem checkPlusOnes_orInt {p : Option Int} {d : Int} (hd : 0 ≤ d)
    (hp : ∀ n, p = some n → 0 ≤ n) : checkPlusOnes (orInt p d) = [] := by
  have : 0 ≤ orInt p d := by
    unfold orInt
    cases p with
    | none => exact hd
    | some n =>
      simp only
      split
      · exact hd
      · exact hp n rfl
  simp [checkPlusOnes, this]

theorem rdropWhile_cons_eq {α : Type} (p : α → Bool) (x : α) (xs : List α) :
    (x :: xs).rdropWhile p =
      if (xs.rdropWhile p).isEmpty = true ∧ p x = true then [] else x :: xs.rdropWhile p := by
  simp only [List.rdropWhile, List.reverse_cons, List.dropWhile_append]
  by_cases h : (List.dropWhile p xs.reverse).isEmpty = true
  · have h' : List.dropWhile p xs.reverse = [] := List.isEmpty_iff.1 h
    by_cases hx : p x = true
    · simp [h', List.dropWhile, hx]
    · simp [h', List.dropWhile, hx]
  · have h' : ¬ List.dropWhile p xs.reverse = [] := fun e => h (List.isEmpty_iff.2 e)
    simp [h, h']

theorem dropWhile_rdropWhile_self {α : Type} (p : α → Bool) (l : List α)
    (h : List.dropWhile p l = l) :
    List.dropWhile p (l.rdropWhile p) = l.rdropWhile p := by
  cases l with
  | nil => simp [List.rdropWhile]
  | cons x xs =>
    have hx : ¬ p x = true := by
      intro hp
      rw [List.dropWhile_cons_of_pos hp] at h
      have := congrArg List.length h
      have hle := (@List.dropWhile_sublist _ xs p).length_le
      simp at this
      omega
    rw [rdropWhile_cons_eq]
    split
    · rfl
    · rw [List.dropWhile_cons_of_neg hx]

theorem trimChars_idem (cs : List Char) : trimChars (trimChars cs) = trimChars cs := by
  have h1 := dropWhile_rdropWhile_self isJsSpace (cs.dropWhile isJsSpace)
    (List.dropWhile_idempotent isJsSpace cs)
  simp only [List.rdropWhile] at h1
  unfold trimChars
  rw [h1]
  simp only [List.reverse_reverse, List.dropWhile_idempotent]

theorem trim_trim (s : String) : trim (trim s) = trim s := by
  simp only [trim, trimChars_idem]

theorem checkMessage_eq_nil {m : Option String} :
    checkMessage m = [] ↔ ∀ v, m = some v → jsLength v ≤ 200 := by
  cases m with
  | none => simp [checkMessage]
  | some v =>
    by_cases h : jsLength v ≤ 200 <;> simp [checkMessage, h]

theorem checkPlusOnes_eq_nil {n : Int} : checkPlusOnes n = [] ↔ 0 ≤ n := by
  by_cases h : 0 ≤ n <;> simp [checkPlusOnes, h]

theorem updatedRSVP_ok (row : RSVP) (b : RSVPBody) (now : Nat) (resp : String)
    (hresp : b.response = some resp) (henum : resp ∈ responseEnum)
    (hmsg : ∀ m, b.message = some m → jsLength (trim m) ≤ 200)
    (hplus : ∀ n, b.plusOnes = some n → 0 ≤ n) (hrow : StoredValid row) :
    updatedRSVP row b now = .ok
      { eventId := row.eventId, userId := row.userId, response := resp,
        message := (if truthyStr b.message then b.message else row.message).map trim,
        plusOnes := orInt b.plusOnes row.plusOnes, timestamp := now } := by
  have e1 : checkResponse (some resp) = [] := checkResponse_of_mem henum
  have e2 : checkMessage
      ((if truthyStr b.message then b.message else row.message).map trim) = [] := by
    rw [checkMessage_eq_nil]
    intro v hv
    split at hv
    · cases hm : b.message with
      | none => rw [hm] at hv; cases hv
      | some m =>
        rw [hm] at hv
        simp only [Option.map_some', Option.some.injEq] at hv
        rw [← hv]
        exact hmsg m hm
    · cases hm : row.message with
      | none => rw [hm] at hv; cases hv
      | some m =>
        rw [hm] at hv
        simp only [Option.map_some', Option.some.injEq] at hv
        rw [← hv]
        exact hrow.1 m hm
  have e3 : checkPlusOnes (orInt b.plusOnes row.plusOnes) = [] :=
    checkPlusOnes_orInt hrow.2 hplus
  unfold updatedRSVP
  simp only [e1, e2, e3, hresp, List.append_nil]

theorem updatedRSVP_valid {rsvp doc : RSVP} {b : RSVPBody} {now : Nat}
    (h : updatedRSVP rsvp b now = .ok doc) : StoredValid doc := by
  unfold updatedRSVP at h
  simp only at h
  split at h
  · rename_i response herrs
    cases h
    simp only [List.append_eq_nil] at herrs
    obtain ⟨⟨_, hm⟩, hp⟩ := herrs
    refine ⟨?_, checkPlusOnes_eq_nil.1 hp⟩
    intro m hm'
    have hlen := checkMessage_eq_nil.1 hm m hm'
    simp only [Option.map_eq_some'] at hm'
    obtain ⟨m0, _, hm0⟩ := hm'
    rw [← hm0, trim_trim]
    rw [hm0]
    exact hlen
  · cases h

theorem newRSVP_valid {e u : ObjectId} {doc : RSVP} {b : RSVPBody} {now : Nat}
    (h : newRSVP e u b now = .ok doc) : StoredValid doc := by
  unfold newRSVP at h
  simp only at h
  split at h
  · rename_i response herrs
    cases h
    simp only [List.append_eq_nil] at herrs
    obtain ⟨⟨_, hm⟩, hp⟩ := herrs
    refine ⟨?_, checkPlusOnes_eq_nil.1 hp⟩
    intro m hm'
    have hlen := checkMessage_eq_nil.1 hm m hm'
    simp only [Option.map_eq_some'] at hm'
    obtain ⟨m0, _, hm0⟩ := hm'
    rw [← hm0, trim_trim]
    rw [hm0]
    exact hlen
  · cases h

theorem newRSVP_ok (e u : ObjectId) (b : RSVPBody) (now : Nat) (resp : String)
    (hresp : b.response = some resp) (henum : resp ∈ responseEnum)
    (hmsg : ∀ m, b.message = some m → jsLength (trim m) ≤ 200)
    (hplus : ∀ n, b.plusOnes = some n → 0 ≤ n) :
    newRSVP e u b now = .ok
      { eventId := e, userId := u, response := resp, message := b.message.map trim,
        plusOnes := orInt b.plusOnes 0, timestamp := now } := by
  have e1 : checkResponse (some resp) = [] := checkResponse_of_mem henum
  have e2 : checkMessage (b.message.map trim) = [] := by
    cases hm : b.message with
    | none => simp [checkMessage]
    | some m => simp [checkMessage, hmsg m hm]
  have e3 : checkPlusOnes (orInt b.plusOnes 0) = [] := checkPlusOnes_orInt (le_refl 0) hplus
  unfold newRSVP
  simp only [e1, e2, e3, hresp, List.append_nil]

theorem findOne_key {rsvps : List RSVP} {e u : ObjectId} {row : RSVP}
    (h : findOne rsvps e u = some row) : row.eventId = e ∧ row.userId = u := by
  unfold findOne at h
  have := List.find?_some h
  exact (matchesKey_iff e u row).1 this

theorem findOne_saveRSVP {rsvps : List RSVP} {e u : ObjectId} {row doc : RSVP}
    (h : findOne rsvps e u = some row) (he : doc.eventId = e) (hu : doc.userId = u) :
    findOne (saveRSVP rsvps doc) e u = some doc := by
  induction rsvps with
  | nil => simp [findOne] at h
  | cons r rs ih =>
    unfold saveRSVP
    rw [he, hu]
    by_cases hk : matchesKey e u r = true
    · rw [if_pos hk]
      have hd : matchesKey e u doc = true := by rw [matchesKey_iff]; exact ⟨he, hu⟩
      simp [findOne, List.find?_cons, hd]
    · rw [if_neg hk]
      have hrs : findOne rs e u = some row := by
        simpa [findOne, List.find?_cons, hk] using h
      have := ih hrs
      simpa [findOne, List.find?_cons, hk] using this

theorem createRSVP_update_eq {s : Store} {e u : ObjectId} {b : RSVPBody} {now : Nat}
    {ev : Event} {row doc : RSVP}
    (hev : findById s.events e = some ev) (hact : ev.status = "active")
    (hrow : findOne s.rsvps e u = some row) (hdoc : updatedRSVP row b now = .ok doc) :
    createRSVP s e u b now =
      ({ status := 201, success := true, data := some doc },
        { s with rsvps := saveRSVP s.rsvps doc }) := by
  unfold createRSVP
  simp only [hev, hact, hrow, hdoc, ne_eq, not_true_eq_false, if_false]

theorem createRSVP_insert_eq {s : Store} {e u : ObjectId} {b : RSVPBody} {now : Nat}
    {ev : Event} {doc : RSVP}
    (hev : findById s.events e = some ev) (hact : ev.status = "active")
    (hrow : findOne s.rsvps e u = none) (hdoc : newRSVP e u b now = .ok doc) :
    createRSVP s e u b now =
      ({ status := 201, success := true, data := some doc },
        { s with rsvps := s.rsvps ++ [doc] }) := by
  obtain ⟨h1, h2⟩ := newRSVP_key hdoc
  have hnone : findOne s.rsvps doc.eventId doc.userId = none := by rw [h1, h2]; exact hrow
  unfold createRSVP
  simp only [hev, hact, hrow, hdoc, ne_eq, not_true_eq_false, if_false, insertRSVP, hnone,
    Option.isSome_none]
  rfl

theorem orInt_zero (p : Option Int) : orInt p 0 = p.getD 0 := by
  cases p with
  | none => rfl
  | some n =>
    simp only [orInt, Option.getD_some]
    split
    · rename_i h; exact h.symm
    · rfl

theorem updatedRSVP_fields {rsvp doc : RSVP} {b : RSVPBody} {now : Nat}
    (h : updatedRSVP rsvp b now = .ok doc) :
    b.response = some doc.response ∧
    doc.message = (if truthyStr b.message then b.message else rsvp.message).map trim ∧
    doc.plusOnes = orInt b.plusOnes rsvp.plusOnes ∧ doc.timestamp = now ∧
    doc.eventId = rsvp.eventId ∧ doc.userId = rsvp.userId := by
  unfold updatedRSVP at h
  simp only at h
  split at h
  · rename_i response hresp herrs
    cases h
    exact ⟨hresp, rfl, rfl, rfl, rfl, rfl⟩
  · cases h

theorem createRSVP_update_spec (s : Store) (e u : ObjectId) (b : RSVPBody) (now : Nat)
    (ev : Event) (row : RSVP)
    (hev : findById s.events e = some ev) (hact : ev.status = "active")
    (hrow : findOne s.rsvps e u = some row) :
    ((∃ resp, b.response = some resp ∧ resp ∈ responseEnum) →
      (∀ m, b.message = some m → jsLength (trim m) ≤ 200) →
      (∀ n, b.plusOnes = some n → 0 ≤ n) → StoredValid row →
      (createRSVP s e u b now).1.status = 201) ∧
    ((createRSVP s e u b now).1.status = 201 →
      ∃ row', findOne (createRSVP s e u b now).2.rsvps e u = some row' ∧
        b.response = some row'.response ∧
        row'.message = (if truthyStr b.message then b.message else row.message).map trim ∧
        row'.plusOnes = orInt b.plusOnes row.plusOnes ∧ row'.timestamp = now) ∧
    ((createRSVP s e u b now).1.status ≠ 201 →
      (createRSVP s e u b now).1.status = 500 ∧ (createRSVP s e u b now).2 = s) := by
  obtain ⟨k1, k2⟩ := findOne_key hrow
  cases hd : updatedRSVP row b now with
  | ok doc =>
    obtain ⟨f1, f2, f3, f4, f5, f6⟩ := updatedRSVP_fields hd
    rw [createRSVP_update_eq hev hact hrow hd]
    exact ⟨fun _ _ _ _ => rfl,
      fun _ => ⟨doc, findOne_saveRSVP hrow (f5.trans k1) (f6.trans k2), f1, f2, f3, f4⟩,
      fun h => absurd rfl h⟩
  | error m =>
    have heq : createRSVP s e u b now = (serverError m, s) := by
      unfold createRSVP
      simp only [hev, hact, hrow, hd, ne_eq, not_true_eq_false, if_false]
    rw [heq]
    refine ⟨?_, fun h => ?_, fun _ => ⟨rfl, rfl⟩⟩
    · rintro ⟨resp, hr, he⟩ hm hp hv
      have := updatedRSVP_ok row b now resp hr he hm hp hv
      rw [hd] at this
      cases this
    · simp [serverError] at h

/-! ## Claims on `createRSVP` -/

/-- C2 (the code departs from the claim): on the sample store account 2 has a
row for the active event 1 with plusOnes 2; a createRSVP call that supplies
plusOnes 0 succeeds with status 201 and the stored row still has plusOnes 2,
because `plusOnes || rsvp.plusOnes` takes a supplied 0 for a missing value. -/
theorem createRSVP_supplied_zero_plusOnes_kept :
    (createRSVP sampleStore 1 2 { response := some "Yes", plusOnes := some 0 } 9).1.status = 201 ∧
    (findOne (createRSVP sampleStore 1 2 { response := some "Yes", plusOnes := some 0 } 9).2.rsvps
      1 2).map (fun r => r.plusOnes) = some 2 := by
  decide

set_option maxRecDepth 20000 in
/-- C3 as stated fails: the `save` of the update branch validates the whole
document, so a call that omits plusOnes can be answered with status 500 and
leave the row with its old response.  On the sample store the submission
{Maybe, message of 201 characters} of account 2 fails and the row keeps the
response Yes; on a store whose row has the stored plusOnes -1 the submission
{Maybe} fails as well. -/
theorem createRSVP_omitted_plusOnes_counterexample :
    (createRSVP sampleStore 1 2 { response := some "Maybe", message := some longMessage } 9).1.status
      = 500 ∧
    (findOne (createRSVP sampleStore 1 2
        { response := some "Maybe", message := some longMessage } 9).2.rsvps 1 2).map
      (fun r => (r.response, r.plusOnes)) = some ("Yes", 2) ∧
    (createRSVP legacyStore 1 2 { response := some "Maybe" } 9).1.status = 500 ∧
    (findOne (createRSVP legacyStore 1 2 { response := some "Maybe" } 9).2.rsvps 1 2).map
      (fun r => (r.response, r.plusOnes)) = some ("Yes", -1) := by
  decide

/-- C3 (amended): createRSVP is called for an active event on which the caller
already has an RSVP row with plusOnes p, and the request omits plusOnes.  If
the response is one of Yes, No, Maybe, the message (if any) has at most 200
characters after trimming and the stored row passes the schema validation, the
call succeeds with status 201.  Whenever the call succeeds, the stored row of
the caller afterwards has the new response and plusOnes p.  Otherwise the
call answers with status 500 and the store is unchanged. -/
theorem createRSVP_omitted_plusOnes_retained (s : Store) (e u : ObjectId) (b : RSVPBody)
    (now : Nat) (ev : Event) (row : RSVP) (p : Int)
    (hev : findById s.events e = some ev) (hact : ev.status = "active")
    (hrow : findOne s.rsvps e u = some row) (hp : row.plusOnes = p)
    (hplus : b.plusOnes = none) :
    ((∃ resp, b.response = some resp ∧ resp ∈ responseEnum) →
      (∀ m, b.message = some m → jsLength (trim m) ≤ 200) → StoredValid row →
      (createRSVP s e u b now).1.status = 201) ∧
    ((createRSVP s e u b now).1.status = 201 →
      ∃ row', findOne (createRSVP s e u b now).2.rsvps e u = some row' ∧
        b.response = some row'.response ∧ row'.plusOnes = p) ∧
    ((createRSVP s e u b now).1.status ≠ 201 →
      (createRSVP s e u b now).1.status = 500 ∧ (createRSVP s e u b now).2 = s) := by
  obtain ⟨h1, h2, h3⟩ := createRSVP_update_spec s e u b now ev row hev hact hrow
  refine ⟨fun hr hm hv => h1 hr hm (by simp [hplus]) hv, fun hs => ?_, h3⟩
  obtain ⟨row', r1, r2, _, r4, _⟩ := h2 hs
  refine ⟨row', r1, r2, ?_⟩
  rw [r4, hplus, ← hp]
  rfl

/-- Instance of C3 (amended), the scenario of the specification: the row
{Yes, plusOnes 2} followed by the submission {Maybe} gives {Maybe, plusOnes 2}. -/
theorem createRSVP_omitted_plusOnes_retained_witness :
    findOne sampleStore.rsvps 1 2 =
      some { eventId := 1, userId := 2, response := "Yes", plusOnes := 2, timestamp := 3 } ∧
    (createRSVP sampleStore 1 2 { response := some "Maybe" } 9).1.status = 201 ∧
    (∃ row', findOne (createRSVP sampleStore 1 2 { response := some "Maybe" } 9).2.rsvps 1 2 =
        some row' ∧ some "Maybe" = some row'.response ∧ row'.plusOnes = 2) :=
  ⟨by decide,
   (createRSVP_omitted_plusOnes_retained sampleStore 1 2 { response := some "Maybe" } 9
    { _id := 1, createdBy := 7 }
    { eventId := 1, userId := 2, response := "Yes", plusOnes := 2, timestamp := 3 } 2
    (by decide) (by decide) (by decide) (by decide) (by decide)).1
      ⟨"Maybe", rfl, by decide⟩ (by intro m h; simp at h) (by decide),
   (createRSVP_omitted_plusOnes_retained sampleStore 1 2 { response := some "Maybe" } 9
    { _id := 1, createdBy := 7 }
    { eventId := 1, userId := 2, response := "Yes", plusOnes := 2, timestamp := 3 } 2
    (by decide) (by decide) (by decide) (by decide) (by decide)).2.1 (by decide)⟩

/-- C4 as stated fails: a supplied non-empty message is stored trimmed, not as
submitted.  On the sample store the submission {No, message " hi "} of account
2 leaves the row with message "hi". -/
theorem createRSVP_message_as_submitted_counterexample :
    (findOne (createRSVP sampleStore 1 2 { response := some "No", message := some " hi " } 9).2.rsvps
      1 2).map (fun r => r.message) = some (some "hi") ∧
    (findOne (createRSVP sampleStore 1 2 { response := some "No", message := some " hi " } 9).2.rsvps
      1 2).map (fun r => r.message) ≠ some (some " hi ") := by
  decide

/-- C4 (amended): a submission is made for an active event on which the caller
already has an RSVP row.  If the response is one of Yes, No, Maybe, the message
(if any) has at most 200 characters after trimming, plusOnes (if any) is not
negative and the stored row passes the schema validation, the call succeeds
with status 201, through the route as well as on the handler alone.  Whenever
the call through the route `POST /api/rsvp/:eventId` succeeds, the stored row
has the submitted response, and its message is the submitted message with
surrounding white space trimmed if that is not empty; if the message is
omitted, empty or white space only, it is the message the row had before,
passed through the `trim` of the schema.  For the handler called without the
sanitizer of the route the same holds with the case split on the submitted
message being empty, so that a message of white space only is stored as the
empty string.  A stored message without surrounding white space, as every
message written through the schema is, is retained as it is. -/
theorem postRSVP_update_response_message (s : Store) (e u : ObjectId) (b : RSVPBody)
    (now : Nat) (ev : Event) (row : RSVP)
    (hev : findById s.events e = some ev) (hact : ev.status = "active")
    (hrow : findOne s.rsvps e u = some row) :
    ((∃ resp, b.response = some resp ∧ resp ∈ responseEnum) →
      (∀ m, b.message = some m → jsLength (trim m) ≤ 200) →
      (∀ n, b.plusOnes = some n → 0 ≤ n) → StoredValid row →
      (postRSVP s e u b now).1.status = 201 ∧ (createRSVP s e u b now).1.status = 201) ∧
    ((postRSVP s e u b now).1.status = 201 →
      ∃ row', findOne (postRSVP s e u b now).2.rsvps e u = some row' ∧
        b.response = some row'.response ∧
        row'.message =
          (match b.message with
           | some m => if trim m ≠ "" then some (trim m) else row.message.map trim
           | none => row.message.map trim)) ∧
    ((createRSVP s e u b now).1.status = 201 →
      ∃ row', findOne (createRSVP s e u b now).2.rsvps e u = some row' ∧
        b.response = some row'.response ∧
        row'.message =
          (match b.message with
           | some m => if m ≠ "" then some (trim m) else row.message.map trim
           | none => row.message.map trim)) ∧
    ((∀ m, row.message = some m → trim m = m) → row.message.map trim = row.message) := by
  obtain ⟨h1, h2, _⟩ := createRSVP_update_spec s e u b now ev row hev hact hrow
  obtain ⟨g1, g2, _⟩ :=
    createRSVP_update_spec s e u (rsvpValidators b).2 now ev row hev hact hrow
  refine ⟨fun hr hm hp hv => ⟨?_, h1 hr hm hp hv⟩, fun hs => ?_, fun hs => ?_, fun ht => ?_⟩
  · refine g1 hr ?_ hp hv
    intro m hm'
    simp only [rsvpValidators, Option.map_eq_some'] at hm'
    obtain ⟨m0, hm0, rfl⟩ := hm'
    rw [trim_trim]
    exact hm m0 hm0
  · obtain ⟨row', r1, r2, r3, _, _⟩ := g2 hs
    refine ⟨row', r1, r2, ?_⟩
    rw [r3]
    simp only [rsvpValidators]
    cases hm : b.message with
    | none => simp [truthyStr]
    | some m =>
      by_cases h0 : trim m = "" <;> simp [truthyStr, h0, trim_trim]
  · obtain ⟨row', r1, r2, r3, _, _⟩ := h2 hs
    refine ⟨row', r1, r2, ?_⟩
    rw [r3]
    cases hm : b.message with
    | none => simp [truthyStr]
    | some m =>
      by_cases h0 : m = "" <;> simp [truthyStr, h0]
  · cases hm : row.message with
    | none => rfl
    | some m => simp [ht m hm]

/-- Instance of C4 (amended): on a store where account 2 has the row
{Yes, message "see you"}, the submission {No, message of white space only}
through the route is answered with 201 and keeps the message "see you". -/
theorem postRSVP_update_response_message_witness :
    findOne notedStore.rsvps 1 2 =
      some { eventId := 1, userId := 2, response := "Yes", message := some "see you",
             plusOnes := 2, timestamp := 3 } ∧
    (postRSVP notedStore 1 2 { response := some "No", message := some "   " } 9).1.status = 201 ∧
    (∃ row', findOne (postRSVP notedStore 1 2
        { response := some "No", message := some "   " } 9).2.rsvps 1 2 = some row' ∧
      some "No" = some row'.response ∧
      row'.message =
        (match (some "   " : Option String) with
         | some m => if trim m ≠ "" then some (trim m) else (some "see you").map trim
         | none => (some "see you").map trim)) :=
  ⟨by decide,
   ((postRSVP_update_response_message notedStore 1 2
    { response := some "No", message := some "   " } 9
    { _id := 1, createdBy := 7 }
    { eventId := 1, userId := 2, response := "Yes", message := some "see you",
      plusOnes := 2, timestamp := 3 }
    (by decide) (by decide) (by decide)).1
      ⟨"No", rfl, by decide⟩ (by intro m h; simp at h; subst h; decide)
      (by intro n h; simp at h) (by decide)).1,
   (postRSVP_update_response_message notedStore 1 2
    { response := some "No", message := some "   " } 9
    { _id := 1, createdBy := 7 }
    { eventId := 1, userId := 2, response := "Yes", message := some "see you",
      plusOnes := 2, timestamp := 3 }
    (by decide) (by decide) (by decide)).2.1 (by decide)⟩

/-- C5 as stated fails: when the request omits message, the inserted row has
no message at all rather than the empty string.  On the sample store the
submission {Yes} of account 3 inserts a row whose message is absent. -/
theorem createRSVP_insert_empty_message_counterexample :
    (findOne (createRSVP sampleStore 1 3 { response := some "Yes" } 9).2.rsvps 1 3).map
      (fun r => r.message) = some none ∧
    (findOne (createRSVP sampleStore 1 3 { response := some "Yes" } 9).2.rsvps 1 3).map
      (fun r => r.message) ≠ some (some "") := by
  decide

/-- C5 (amended): when createRSVP is called with a valid submission (response
of the enumeration, message of at most 200 characters after trimming, plusOnes
not negative) for an active event on which the caller has no RSVP row, the call
succeeds and exactly one new row is added to the stored rows, with the eventId
and userId of the call and the submitted response; its plusOnes is the
submitted value, or 0 when plusOnes is omitted; its message is the submitted
value with surrounding white space trimmed, or absent when message is
omitted. -/
theorem createRSVP_insert_row (s : Store) (e u : ObjectId) (b : RSVPBody)
    (now : Nat) (ev : Event) (resp : String)
    (hev : findById s.events e = some ev) (hact : ev.status = "active")
    (hrow : findOne s.rsvps e u = none)
    (hresp : b.response = some resp) (henum : resp ∈ responseEnum)
    (hmsg : ∀ m, b.message = some m → jsLength (trim m) ≤ 200)
    (hplus : ∀ n, b.plusOnes = some n → 0 ≤ n) :
    (createRSVP s e u b now).1.status = 201 ∧
    (createRSVP s e u b now).2.events = s.events ∧
    (createRSVP s e u b now).2.rsvps = s.rsvps ++
      [{ eventId := e, userId := u, response := resp,
         message := (match b.message with
                     | some m => some (trim m)
                     | none => none),
         plusOnes := (match b.plusOnes with
                      | some n => n
                      | none => 0),
         timestamp := now }] := by
  have hdoc := newRSVP_ok e u b now resp hresp henum hmsg hplus
  rw [createRSVP_insert_eq hev hact hrow hdoc]
  refine ⟨rfl, rfl, ?_⟩
  simp only [orInt_zero]
  cases b.message <;> cases b.plusOnes <;> rfl

/-- Instance of C5 (amended): account 3 answers the active event 1 of the
sample store for the first time. -/
theorem createRSVP_insert_row_witness :
    findOne sampleStore.rsvps 1 3 = none ∧
    (createRSVP sampleStore 1 3 { response := some "Yes", message := some " see you " } 9).2.rsvps =
      sampleStore.rsvps ++
        [{ eventId := 1, userId := 3, response := "Yes", message := some (trim " see you "),
           plusOnes := 0, timestamp := 9 }] :=
  ⟨by decide,
   (createRSVP_insert_row sampleStore 1 3 { response := some "Yes", message := some " see you " } 9
    { _id := 1, createdBy := 7 } "Yes"
    (by decide) (by decide) (by decide) (by decide) (by decide)
    (by intro m h; simp at h; subst h; decide) (by intro n h; simp at h)).2.2⟩

/-- C6 (the code departs from the claim): for the active event 1 of the sample
store and the authenticated account 9, the validation chain of the route
records "Plus ones must be between 0 and 10" for plusOnes 11, but nothing reads
the recorded errors: the submission is answered with status 201 and a row with
plusOnes 11 is written.  The submissions with plusOnes 10 and plusOnes 0
succeed as the claim says. -/
theorem postRSVP_plusOnes_eleven_written :
    (rsvpValidators { response := some "Yes", plusOnes := some 11 }).1 =
      ["Plus ones must be between 0 and 10"] ∧
    (postRSVP sampleStore 1 9 { response := some "Yes", plusOnes := some 11 } 9).1.status = 201 ∧
    (postRSVP sampleStore 1 9 { response := some "Yes", plusOnes := some 11 } 9).2.rsvps =
      sampleStore.rsvps ++
        [{ eventId := 1, userId := 9, response := "Yes", plusOnes := 11, timestamp := 9 }] ∧
    (postRSVP sampleStore 1 9 { response := some "Yes", plusOnes := some 10 } 9).1.status = 201 ∧
    (postRSVP sampleStore 1 9 { response := some "Yes", plusOnes := some 0 } 9).1.status = 201 := by
  decide

/-- C7: for every event whose status is not 'active', every caller and every
request body, createRSVP answers with the failure reply of status 400,
success false and message 'Event is no longer accepting RSVPs', and the store
is unchanged, whether or not the caller already has a row for that event. -/
theorem createRSVP_inactive_event (s : Store) (e u : ObjectId) (b : RSVPBody) (now : Nat)
    (ev : Event) (hev : findById s.events e = some ev) (hst : ev.status ≠ "active") :
    createRSVP s e u b now =
      ({ status := 400, success := false, message := some "Event is no longer accepting RSVPs" },
        s) := by
  unfold createRSVP
  simp only [hev, hst, ne_eq, not_false_eq_true, if_true]

/-- Instance of C7: the cancelled event 2 of the sample store. -/
theorem createRSVP_inactive_event_witness :
    findById sampleStore.events 2 = some { _id := 2, createdBy := 7, status := "cancelled" } ∧
    createRSVP sampleStore 2 2 { response := some "Yes" } 9 =
      ({ status := 400, success := false, message := some "Event is no longer accepting RSVPs" },
        sampleStore) :=
  ⟨by decide,
   createRSVP_inactive_event sampleStore 2 2 { response := some "Yes" } 9
    { _id := 2, createdBy := 7, status := "cancelled" } (by decide) (by decide)⟩

theorem createRSVP_unknown_event (s : Store) (e u : ObjectId) (b : RSVPBody) (now : Nat)
    (hev : findById s.events e = none) :
    createRSVP s e u b now =
      ({ status := 404, success := false, message := some "Event not found" }, s) := by
  unfold createRSVP
  simp only [hev]
  rfl

/-- C9 (the code departs from the claim): the validation chain of the route
records 'Response must be Yes, No, or Maybe' for the response "Perhaps" and for
a missing response, but nothing reads the recorded errors, so the handler runs
and queries the store first.  On the sample store the submission is answered
with 404 for an unknown event, with 400 'Event is no longer accepting RSVPs'
for the cancelled event 2, and with 500 for the active event 1 (the schema
validation of the write fails); in each case the store is unchanged. -/
theorem postRSVP_invalid_response_reaches_store :
    (rsvpValidators { response := some "Perhaps" }).1 = ["Response must be Yes, No, or Maybe"] ∧
    (rsvpValidators { }).1 = ["Response must be Yes, No, or Maybe"] ∧
    postRSVP sampleStore 5 2 { response := some "Perhaps" } 9 =
      ({ status := 404, success := false, message := some "Event not found" }, sampleStore) ∧
    postRSVP sampleStore 2 2 { response := some "Perhaps" } 9 =
      ({ status := 400, success := false, message := some "Event is no longer accepting RSVPs" },
        sampleStore) ∧
    (postRSVP sampleStore 1 2 { response := some "Perhaps" } 9).1.status = 500 ∧
    (postRSVP sampleStore 1 2 { response := some "Perhaps" } 9).2 = sampleStore ∧
    (postRSVP sampleStore 1 3 { } 9).1.status = 500 ∧
    (postRSVP sampleStore 1 3 { } 9).2 = sampleStore := by
  decide

/-! ## The tally of `getEventRSVPs` -/

theorem Obj.get_set (o : Obj) (k k' : String) (v : Nat) :
    Obj.get (Obj.set o k v) k' = if k = k' then some v else Obj.get o k' := by
  induction o with
  | nil => simp [Obj.set, Obj.get]
  | cons p t ih =>
    obtain ⟨k1, v1⟩ := p
    unfold Obj.set
    by_cases h1 : k1 = k
    · rw [if_pos h1]
      subst h1
      by_cases h2 : k1 = k' <;> simp [Obj.get, h2]
    · rw [if_neg h1]
      by_cases h2 : k1 = k'
      · have h3 : ¬ k = k' := fun h => h1 (h2.trans h.symm)
        simp [Obj.get, h2, h3]
      · simp only [Obj.get, h2, if_false, ih]

theorem Obj.get_eq_none_of_not_mem {g : Obj} {k : String} (h : k ∉ g.map Prod.fst) :
    Obj.get g k = none := by
  induction g with
  | nil => rfl
  | cons p t ih =>
    obtain ⟨k1, v1⟩ := p
    simp only [List.map_cons, List.mem_cons, not_or] at h
    have h1 : ¬ k1 = k := fun e => h.1 e.symm
    simp only [Obj.get, h1, if_false]
    exact ih h.2

theorem get_assignStats (g : List (String × Nat)) (o : Obj) (k : String)
    (hg : (g.map Prod.fst).Nodup) :
    Obj.get (assignStats o g) k =
      (match Obj.get g k with
       | some n => some n
       | none => Obj.get o k) := by
  induction g generalizing o with
  | nil => simp [assignStats, Obj.get]
  | cons p t ih =>
    obtain ⟨k1, v1⟩ := p
    simp only [List.map_cons, List.nodup_cons] at hg
    have h := ih (Obj.set o k1 v1) hg.2
    simp only [assignStats, List.foldl_cons] at h ⊢
    rw [h, Obj.get_set]
    by_cases h1 : k1 = k
    · subst h1
      simp [Obj.get, Obj.get_eq_none_of_not_mem hg.1]
    · simp [Obj.get, h1]

theorem keys_groupStep (acc : List (String × Nat)) (k : String) :
    (groupStep acc k).map Prod.fst =
      if k ∈ acc.map Prod.fst then acc.map Prod.fst else acc.map Prod.fst ++ [k] := by
  induction acc with
  | nil => simp [groupStep]
  | cons p t ih =>
    obtain ⟨k1, n⟩ := p
    unfold groupStep
    by_cases h1 : k1 = k
    · simp [h1]
    · have h2 : ¬ k = k1 := fun e => h1 e.symm
      rw [if_neg h1]
      simp only [List.map_cons, ih, List.mem_cons, h2, false_or]
      split <;> simp

theorem nodup_keys_groupStep {acc : List (String × Nat)} (k : String)
    (h : (acc.map Prod.fst).Nodup) : ((groupStep acc k).map Prod.fst).Nodup := by
  rw [keys_groupStep]
  split
  · exact h
  · rename_i hk
    rw [List.nodup_append]
    refine ⟨h, List.nodup_singleton k, ?_⟩
    intro a ha hb
    rw [List.mem_singleton] at hb
    exact hk (hb ▸ ha)

theorem nodup_keys_foldl_groupStep (rs : List String) (acc : List (String × Nat))
    (h : (acc.map Prod.fst).Nodup) : ((rs.foldl groupStep acc).map Prod.fst).Nodup := by
  induction rs generalizing acc with
  | nil => exact h
  | cons r t ih => exact ih _ (nodup_keys_groupStep r h)

theorem get_groupStep (acc : List (String × Nat)) (k k' : String) :
    Obj.get (groupStep acc k) k' =
      if k = k' then some ((Obj.get acc k').getD 0 + 1) else Obj.get acc k' := by
  induction acc with
  | nil => by_cases h : k = k' <;> simp [groupStep, Obj.get, h]
  | cons p t ih =>
    obtain ⟨k1, n⟩ := p
    unfold groupStep
    by_cases h1 : k1 = k
    · rw [if_pos h1]
      subst h1
      by_cases h2 : k1 = k' <;> simp [Obj.get, h2]
    · rw [if_neg h1]
      by_cases h2 : k1 = k'
      · have h3 : ¬ k = k' := fun h => h1 (h2.trans h.symm)
        simp [Obj.get, h2, h3]
      · simp only [Obj.get, h2, if_false, ih]

theorem get_foldl_groupStep (rs : List String) (acc : List (String × Nat)) (k : String) :
    Obj.get (rs.foldl groupStep acc) k =
      if rs.count k = 0 then Obj.get acc k else some ((Obj.get acc k).getD 0 + rs.count k) := by
  induction rs generalizing acc with
  | nil => simp
  | cons r t ih =>
    simp only [List.foldl_cons]
    rw [ih, get_groupStep]
    by_cases h : r = k
    · subst h
      simp only [List.count_cons_self, if_true, Option.getD_some]
      split
      · simp; omega
      · simp; omega
    · have hc : (r :: t).count k = t.count k := List.count_cons_of_ne (fun e => h e.symm) t
      simp only [hc, h, if_false]

theorem count_responses (rsvps : List RSVP) (eventId : ObjectId) (k : String) :
    ((rsvps.filter (fun r => decide (r.eventId = eventId))).map (fun r => r.response)).count k =
      countResponse rsvps eventId k := by
  induction rsvps with
  | nil => simp [countResponse]
  | cons r t ih =>
    simp only [countResponse, List.filter_cons] at ih ⊢
    by_cases h1 : r.eventId = eventId
    · by_cases h2 : r.response = k
      · simp [h1, h2, ih]
      · have h3 : ¬ k = r.response := fun e => h2 e.symm
        simp [h1, h2, ih, List.count_cons, h3]
    · simp [h1, ih]

theorem get_aggregateByResponse (rsvps : List RSVP) (eventId : ObjectId) (k : String) :
    Obj.get (aggregateByResponse rsvps eventId) k =
      if countResponse rsvps eventId k = 0 then none else some (countResponse rsvps eventId k) := by
  unfold aggregateByResponse
  rw [get_foldl_groupStep, count_responses]
  simp [Obj.get]

theorem nodup_keys_aggregateByResponse (rsvps : List RSVP) (eventId : ObjectId) :
    ((aggregateByResponse rsvps eventId).map Prod.fst).Nodup :=
  nodup_keys_foldl_groupStep _ [] (by simp)

theorem get_stats (rsvps : List RSVP) (eventId : ObjectId) (init : Obj) (k : String) :
    Obj.get (assignStats init (aggregateByResponse rsvps eventId)) k =
      if countResponse rsvps eventId k = 0 then Obj.get init k
      else some (countResponse rsvps eventId k) := by
  rw [get_assignStats _ _ _ (nodup_keys_aggregateByResponse rsvps eventId),
    get_aggregateByResponse]
  by_cases h : countResponse rsvps eventId k = 0
  · simp only [h, if_true]
  · simp only [h, if_false]

theorem findById_id {events : List Event} {id : ObjectId} {ev : Event}
    (h : findById events id = some ev) : ev._id = id := by
  unfold findById at h
  simpa using List.find?_some h

theorem length_findByEvent (rsvps : List RSVP) (eventId : ObjectId) :
    (findByEvent rsvps eventId).length =
      (rsvps.filter (fun r => decide (r.eventId = eventId))).length := by
  unfold findByEvent
  exact List.length_insertionSort _ _

theorem countResponse_sum (rsvps : List RSVP) (eventId : ObjectId)
    (h : ∀ r ∈ rsvps, r.eventId = eventId → r.response ∈ responseEnum) :
    countResponse rsvps eventId "Yes" + countResponse rsvps eventId "No" +
      countResponse rsvps eventId "Maybe" =
      (rsvps.filter (fun r => decide (r.eventId = eventId))).length := by
  induction rsvps with
  | nil => simp [countResponse]
  | cons r t ih =>
    have iht := ih (fun x hx => h x (List.mem_cons_of_mem r hx))
    simp only [countResponse, List.filter_cons] at iht ⊢
    by_cases h1 : r.eventId = eventId
    · have hr := h r (List.mem_cons_self r t) h1
      simp only [responseEnum, List.mem_cons, List.mem_singleton, List.not_mem_nil, or_false] at hr
      rcases hr with hr | hr | hr <;> simp [h1, hr] <;> omega
    · simpa [h1] using iht

theorem countResponse_total (rsvps : List RSVP) (eventId : ObjectId)
    (h : ∀ r ∈ rsvps, r.eventId = eventId → r.response ∈ responseEnum) :
    countResponse rsvps eventId "total" = 0 := by
  simp only [countResponse, List.length_eq_zero, List.filter_eq_nil_iff, Bool.and_eq_true,
    decide_eq_true_eq, not_and]
  intro r hr he hrt
  have := h r hr he
  rw [hrt] at this
  revert this
  decide

theorem getEventRSVPs_eq {s : Store} {eventId : ObjectId} {ev : Event}
    (hev : findById s.events eventId = some ev) :
    getEventRSVPs s eventId =
      { status := 200, success := true, count := some (findByEvent s.rsvps eventId).length,
        stats := some (assignStats
          [("Yes", 0), ("No", 0), ("Maybe", 0), ("total", (findByEvent s.rsvps eventId).length)]
          (aggregateByResponse s.rsvps eventId)),
        data := findByEvent s.rsvps eventId } := by
  have hid := findById_id hev
  simp only [getEventRSVPs, hev, hid]

/-- C10: for every existing event and every store whose RSVP rows all have a
response in {Yes, No, Maybe}, getEventRSVPs answers with a stats object that
has the keys Yes, No, Maybe and total, and Yes + No + Maybe = total = count =
number of stored RSVP rows of that event; each of Yes, No, Maybe is 0 when no
row of the event has that response. -/
theorem getEventRSVPs_stats_total (s : Store) (eventId : ObjectId) (ev : Event)
    (hev : findById s.events eventId = some ev)
    (hresp : ∀ r ∈ s.rsvps, r.response ∈ responseEnum) :
    ∃ stats y n m total,
      (getEventRSVPs s eventId).success = true ∧
      (getEventRSVPs s eventId).stats = some stats ∧
      Obj.get stats "Yes" = some y ∧ Obj.get stats "No" = some n ∧
      Obj.get stats "Maybe" = some m ∧ Obj.get stats "total" = some total ∧
      y + n + m = total ∧
      (getEventRSVPs s eventId).count = some total ∧
      total = (s.rsvps.filter (fun r => decide (r.eventId = eventId))).length ∧
      (countResponse s.rsvps eventId "Yes" = 0 → y = 0) ∧
      (countResponse s.rsvps eventId "No" = 0 → n = 0) ∧
      (countResponse s.rsvps eventId "Maybe" = 0 → m = 0) := by
  have hall : ∀ r ∈ s.rsvps, r.eventId = eventId → r.response ∈ responseEnum :=
    fun r hr _ => hresp r hr
  have hsum := countResponse_sum s.rsvps eventId hall
  have htot := countResponse_total s.rsvps eventId hall
  have hlen := length_findByEvent s.rsvps eventId
  rw [getEventRSVPs_eq hev]
  refine ⟨assignStats
      [("Yes", 0), ("No", 0), ("Maybe", 0), ("total", (findByEvent s.rsvps eventId).length)]
      (aggregateByResponse s.rsvps eventId),
    countResponse s.rsvps eventId "Yes", countResponse s.rsvps eventId "No",
    countResponse s.rsvps eventId "Maybe", (findByEvent s.rsvps eventId).length, rfl, rfl, ?_, ?_,
    ?_, ?_, ?_, rfl, hlen, fun h => h, fun h => h, fun h => h⟩
  · rw [get_stats]
    by_cases h : countResponse s.rsvps eventId "Yes" = 0
    · rw [if_pos h, h]; rfl
    · rw [if_neg h]
  · rw [get_stats]
    by_cases h : countResponse s.rsvps eventId "No" = 0
    · rw [if_pos h, h]; rfl
    · rw [if_neg h]
  · rw [get_stats]
    by_cases h : countResponse s.rsvps eventId "Maybe" = 0
    · rw [if_pos h, h]; rfl
    · rw [if_neg h]
  · rw [get_stats, if_pos htot]; rfl
  · rw [hlen]; exact hsum

/-- Instance of C10: the sample store and its event 1, whose only row answers
Yes. -/
theorem getEventRSVPs_stats_total_witness :
    (∀ r ∈ sampleStore.rsvps, r.response ∈ responseEnum) ∧
    ∃ stats y n m total,
      (getEventRSVPs sampleStore 1).success = true ∧
      (getEventRSVPs sampleStore 1).stats = some stats ∧
      Obj.get stats "Yes" = some y ∧ Obj.get stats "No" = some n ∧
      Obj.get stats "Maybe" = some m ∧ Obj.get stats "total" = some total ∧
      y + n + m = total ∧
      (getEventRSVPs sampleStore 1).count = some total ∧
      total = (sampleStore.rsvps.filter (fun r => decide (r.eventId = 1))).length ∧
      (countResponse sampleStore.rsvps 1 "Yes" = 0 → y = 0) ∧
      (countResponse sampleStore.rsvps 1 "No" = 0 → n = 0) ∧
      (countResponse sampleStore.rsvps 1 "Maybe" = 0 → m = 0) :=
  ⟨by decide,
   getEventRSVPs_stats_total sampleStore 1 { _id := 1, createdBy := 7 } (by decide) (by decide)⟩


/-! ## The tally and the list of `getEventRSVPs` under reordering -/

theorem countResponse_perm {l1 l2 : List RSVP} (h : l1.Perm l2) (eventId : ObjectId)
    (k : String) : countResponse l1 eventId k = countResponse l2 eventId k := by
  unfold countResponse
  exact (h.filter _).length_eq

theorem length_findByEvent_perm {l1 l2 : List RSVP} (h : l1.Perm l2) (eventId : ObjectId) :
    (findByEvent l1 eventId).length = (findByEvent l2 eventId).length := by
  rw [length_findByEvent, length_findByEvent]
  exact (h.filter _).length_eq

/-- C11: for every existing event, each of stats.Yes, stats.No and stats.Maybe
returned by getEventRSVPs equals the number of stored rows of that event with
that response, and for any reordering (permutation) of the stored rows the
stats object has the same value at every key. -/
theorem getEventRSVPs_tally_pure (s s' : Store) (eventId : ObjectId) (ev : Event)
    (hev : findById s.events eventId = some ev) (hevents : s'.events = s.events)
    (hperm : s'.rsvps.Perm s.rsvps) :
    ∃ stats stats',
      (getEventRSVPs s eventId).stats = some stats ∧
      (getEventRSVPs s' eventId).stats = some stats' ∧
      Obj.get stats "Yes" = some (countResponse s.rsvps eventId "Yes") ∧
      Obj.get stats "No" = some (countResponse s.rsvps eventId "No") ∧
      Obj.get stats "Maybe" = some (countResponse s.rsvps eventId "Maybe") ∧
      ∀ k, Obj.get stats' k = Obj.get stats k := by
  have hev' : findById s'.events eventId = some ev := by rw [hevents]; exact hev
  rw [getEventRSVPs_eq hev, getEventRSVPs_eq hev']
  refine ⟨_, _, rfl, rfl, ?_, ?_, ?_, ?_⟩
  · rw [get_stats]
    by_cases h : countResponse s.rsvps eventId "Yes" = 0
    · rw [if_pos h, h]; rfl
    · rw [if_neg h]
  · rw [get_stats]
    by_cases h : countResponse s.rsvps eventId "No" = 0
    · rw [if_pos h, h]; rfl
    · rw [if_neg h]
  · rw [get_stats]
    by_cases h : countResponse s.rsvps eventId "Maybe" = 0
    · rw [if_pos h, h]; rfl
    · rw [if_neg h]
  · intro k
    rw [get_stats, get_stats, countResponse_perm hperm, length_findByEvent_perm hperm]

/-- Instance of C11: the sample store with a second row for event 1, and the
same rows in the other order. -/
theorem getEventRSVPs_tally_pure_witness :
    ∃ stats stats',
      (getEventRSVPs racedStore 1).stats = some stats ∧
      (getEventRSVPs { racedStore with rsvps := racedStore.rsvps.reverse } 1).stats =
        some stats' ∧
      Obj.get stats "Yes" = some (countResponse racedStore.rsvps 1 "Yes") ∧
      Obj.get stats "No" = some (countResponse racedStore.rsvps 1 "No") ∧
      Obj.get stats "Maybe" = some (countResponse racedStore.rsvps 1 "Maybe") ∧
      ∀ k, Obj.get stats' k = Obj.get stats k :=
  getEventRSVPs_tally_pure racedStore { racedStore with rsvps := racedStore.rsvps.reverse } 1
    { _id := 1, createdBy := 7 } (by decide) rfl (List.reverse_perm _)

/-- C12: for every existing event, the data list returned by getEventRSVPs
holds exactly the stored RSVP rows whose eventId is that event (it is a
permutation of them: no row of another event, none missing) and is ordered by
timestamp non-increasing, newest first. -/
theorem getEventRSVPs_data_sorted (s : Store) (eventId : ObjectId) (ev : Event)
    (hev : findById s.events eventId = some ev) :
    (getEventRSVPs s eventId).data.Perm
      (s.rsvps.filter (fun r => decide (r.eventId = eventId))) ∧
    (∀ r, r ∈ (getEventRSVPs s eventId).data ↔ r ∈ s.rsvps ∧ r.eventId = eventId) ∧
    (getEventRSVPs s eventId).data.Pairwise (fun a b => b.timestamp ≤ a.timestamp) := by
  rw [getEventRSVPs_eq hev]
  have hp : (findByEvent s.rsvps eventId).Perm
      (s.rsvps.filter (fun r => decide (r.eventId = eventId))) :=
    List.perm_insertionSort _ _
  refine ⟨hp, ?_, ?_⟩
  · intro r
    simp only []
    rw [hp.mem_iff, List.mem_filter, decide_eq_true_eq]
  · have htotal : IsTotal RSVP newerFirst := ⟨fun a b => Nat.le_total b.timestamp a.timestamp⟩
    have htrans : IsTrans RSVP newerFirst :=
      ⟨fun a b c hab hbc => Nat.le_trans hbc hab⟩
    exact @List.sorted_insertionSort RSVP newerFirst _ htotal htrans _

/-- Instance of C12: event 1 of the sample store after a second answer. -/
theorem getEventRSVPs_data_sorted_witness :
    (getEventRSVPs racedStore 1).data.Perm
      (racedStore.rsvps.filter (fun r => decide (r.eventId = 1))) ∧
    (∀ r, r ∈ (getEventRSVPs racedStore 1).data ↔ r ∈ racedStore.rsvps ∧ r.eventId = 1) ∧
    (getEventRSVPs racedStore 1).data.Pairwise (fun a b => b.timestamp ≤ a.timestamp) :=
  getEventRSVPs_data_sorted racedStore 1 { _id := 1, createdBy := 7 } (by decide)

/-! ## Deleting and updating events, deleting rows -/

theorem not_mem_eraseP_of_nodup_ids {events : List Event} (id : ObjectId)
    (hids : (events.map (fun e => e._id)).Nodup) :
    ∀ e ∈ events.eraseP (fun e => decide (e._id = id)), e._id ≠ id := by
  induction events with
  | nil => intro e he; simp at he
  | cons x xs ih =>
    simp only [List.map_cons, List.nodup_cons] at hids
    intro e he
    by_cases hx : x._id = id
    · rw [List.eraseP_cons_of_pos (by simpa using hx)] at he
      intro hid
      apply hids.1
      rw [List.mem_map]
      exact ⟨e, he, by rw [hid, hx]⟩
    · rw [List.eraseP_cons_of_neg (by simpa using hx)] at he
      rcases List.mem_cons.1 he with h | h
      · rw [h]; exact hx
      · exact ih hids.2 e h

theorem findById_eq_none_of_forall_ne {events : List Event} {id : ObjectId}
    (h : ∀ e ∈ events, e._id ≠ id) : findById events id = none := by
  unfold findById
  rw [List.find?_eq_none]
  intro e he
  simpa using h e he

theorem perm_eraseP_of_find {l : List RSVP} {p : RSVP → Bool} {a : RSVP}
    (h : l.find? p = some a) : l.Perm (a :: l.eraseP p) := by
  induction l with
  | nil => simp at h
  | cons x xs ih =>
    by_cases hx : p x = true
    · rw [List.find?_cons_of_pos _ hx] at h
      cases h
      rw [List.eraseP_cons_of_pos hx]
    · rw [List.find?_cons_of_neg _ hx] at h
      rw [List.eraseP_cons_of_neg hx]
      exact ((ih h).cons x).trans (List.Perm.swap a x _)

/-- C13: after deleteEvent succeeds for event E called by the creator of E (in
a store whose event ids are unique, as the database guarantees), the store
holds no event E and no RSVP row whose eventId is E, and a following
getEventRSVPs on the id of E answers 404 Not Found. -/
theorem deleteEvent_cascade (s : Store) (id caller : ObjectId) (ev : Event)
    (hev : findById s.events id = some ev) (hown : ev.createdBy = caller)
    (hids : (s.events.map (fun e => e._id)).Nodup) :
    (deleteEvent s id caller).1.success = true ∧
    (∀ e ∈ (deleteEvent s id caller).2.events, e._id ≠ id) ∧
    (∀ r ∈ (deleteEvent s id caller).2.rsvps, r.eventId ≠ id) ∧
    (getEventRSVPs (deleteEvent s id caller).2 id).status = 404 ∧
    (getEventRSVPs (deleteEvent s id caller).2 id).success = false := by
  have hid := findById_id hev
  have hgone := not_mem_eraseP_of_nodup_ids id hids
  have hdel : deleteEvent s id caller =
      ({ status := 200, success := true, message := some "Event deleted successfully" },
        { events := s.events.eraseP (fun e => decide (e._id = id)),
          rsvps := s.rsvps.filter (fun r => !decide (r.eventId = id)) }) := by
    unfold deleteEvent
    simp only [hev, hown, hid, ne_eq, not_true_eq_false, if_false]
  rw [hdel]
  refine ⟨rfl, hgone, ?_, ?_, ?_⟩
  · intro r hr
    simp only [List.mem_filter, Bool.not_eq_true', decide_eq_false_iff_not] at hr
    exact hr.2
  · simp only [getEventRSVPs, findById_eq_none_of_forall_ne hgone]
  · simp only [getEventRSVPs, findById_eq_none_of_forall_ne hgone]

/-- Instance of C13: account 7 deletes its event 1 of the sample store. -/
theorem deleteEvent_cascade_witness :
    findById sampleStore.events 1 = some { _id := 1, createdBy := 7 } ∧
    ((deleteEvent sampleStore 1 7).1.success = true ∧
    (∀ e ∈ (deleteEvent sampleStore 1 7).2.events, e._id ≠ 1) ∧
    (∀ r ∈ (deleteEvent sampleStore 1 7).2.rsvps, r.eventId ≠ 1) ∧
    (getEventRSVPs (deleteEvent sampleStore 1 7).2 1).status = 404 ∧
    (getEventRSVPs (deleteEvent sampleStore 1 7).2 1).success = false) :=
  ⟨by decide,
   deleteEvent_cascade sampleStore 1 7 { _id := 1, createdBy := 7 } (by decide) (by decide)
    (by decide)⟩

/-- C14: for every existing event E and every caller whose id differs from
E.createdBy, updateEvent (with any body) and deleteEvent answer with a failure
and leave the whole store unchanged: every event, E included, and every RSVP
row is as before. -/
theorem updateEvent_deleteEvent_not_creator (s : Store) (id caller : ObjectId) (body : EventBody)
    (ev : Event) (hev : findById s.events id = some ev) (hne : ev.createdBy ≠ caller) :
    (updateEvent s id caller body).1.success = false ∧
    (updateEvent s id caller body).2 = s ∧
    (deleteEvent s id caller).1.success = false ∧
    (deleteEvent s id caller).2 = s := by
  unfold updateEvent deleteEvent
  simp only [hev, hne, ne_eq, not_false_eq_true, if_true, and_self]

/-- Instance of C14: account 2 tries to rename and to delete event 1 of account 7. -/
theorem updateEvent_deleteEvent_not_creator_witness :
    findById sampleStore.events 1 = some { _id := 1, createdBy := 7 } ∧
    ((updateEvent sampleStore 1 2 { title := some "Mine" }).1.success = false ∧
    (updateEvent sampleStore 1 2 { title := some "Mine" }).2 = sampleStore ∧
    (deleteEvent sampleStore 1 2).1.success = false ∧
    (deleteEvent sampleStore 1 2).2 = sampleStore) :=
  ⟨by decide,
   updateEvent_deleteEvent_not_creator sampleStore 1 2 { title := some "Mine" }
    { _id := 1, createdBy := 7 } (by decide) (by decide)⟩

/-- C15 (the code departs from the claim): on the sample store account 2, which
is authenticated and not the creator of event 1, gets status 401 from
updateEvent and from deleteEvent, not 403.  The status differs from the 404 of
an unknown event, but it is the status on which the response interceptor of
the client ends the session as for an invalid credential. -/
theorem updateEvent_deleteEvent_not_creator_status :
    (updateEvent sampleStore 1 2 { title := some "Mine" }).1.status = 401 ∧
    (deleteEvent sampleStore 1 2).1.status = 401 ∧
    (updateEvent sampleStore 5 2 { title := some "Mine" }).1.status = 404 ∧
    (deleteEvent sampleStore 5 2).1.status = 404 ∧
    interceptorEndsSession (updateEvent sampleStore 1 2 { title := some "Mine" }).1.status = true ∧
    interceptorEndsSession (deleteEvent sampleStore 1 2).1.status = true := by
  decide

theorem deleteRSVP_spec (s : Store) (e u : ObjectId) :
    (deleteRSVP s e u).2.events = s.events ∧
    (findOne s.rsvps e u = none → deleteRSVP s e u = (notFound "RSVP not found", s)) ∧
    (∀ row, findOne s.rsvps e u = some row →
      (deleteRSVP s e u).1.status = 200 ∧ (deleteRSVP s e u).1.success = true ∧
      row.eventId = e ∧ row.userId = u ∧
      s.rsvps.Perm (row :: (deleteRSVP s e u).2.rsvps)) ∧
    (∀ r : RSVP, ¬ (r.eventId = e ∧ r.userId = u) →
      (deleteRSVP s e u).2.rsvps.count r = s.rsvps.count r) := by
  cases hf : findOne s.rsvps e u with
  | none =>
    have hd : deleteRSVP s e u = (notFound "RSVP not found", s) := by
      unfold deleteRSVP; simp only [hf]
    rw [hd]
    refine ⟨rfl, fun _ => rfl, ?_, fun _ _ => rfl⟩
    intro row h
    cases h
  | some row0 =>
    have hd : deleteRSVP s e u =
        ({ status := 200, success := true, message := some "RSVP deleted successfully" },
          { s with rsvps := s.rsvps.eraseP (matchesKey e u) }) := by
      unfold deleteRSVP; simp only [hf]
    have hperm : s.rsvps.Perm (row0 :: s.rsvps.eraseP (matchesKey e u)) :=
      perm_eraseP_of_find hf
    obtain ⟨k1, k2⟩ := findOne_key hf
    rw [hd]
    refine ⟨rfl, ?_, ?_, ?_⟩
    · intro h; cases h
    · intro row h
      cases h
      exact ⟨rfl, rfl, k1, k2, hperm⟩
    · intro r hr
      have hc := hperm.count_eq r
      have hne : ¬ row0 = r := by
        intro h
        apply hr
        rw [← h]
        exact ⟨k1, k2⟩
      rw [List.count_cons_of_ne (fun h => hne h.symm)] at hc
      exact hc.symm

/-! ## Route dispatch -/

/-- C17 (the code departs from the claim): under first-match dispatch over the
route table of rsvpRoutes.js in registration order, GET /rsvp/my-rsvps is
handled by getEventRSVPs with eventId = 'my-rsvps', because `/:eventId` is
registered before `/my-rsvps`; no GET path at all is dispatched to getMyRSVPs.
The table of eventRoutes.js registers `/my-events` before `/:id`, and there
GET /events/my-events reaches getMyEvents. -/
theorem dispatch_my_rsvps_shadowed :
    dispatch rsvpRoutes .GET ["my-rsvps"] = some (.getEventRSVPs, [("eventId", "my-rsvps")]) ∧
    (∀ path params, dispatch rsvpRoutes .GET path ≠ some (.getMyRSVPs, params)) ∧
    dispatch eventRoutes .GET ["my-events"] = some (.getMyEvents, []) := by
  refine ⟨by decide, ?_, by decide⟩
  intro path params
  match path with
  | [] => simp [dispatch, rsvpRoutes, matchPath]
  | [x] =>
    by_cases hx : x = ""
    · simp [dispatch, rsvpRoutes, matchPath, hx]
    · simp [dispatch, rsvpRoutes, matchPath, hx]
  | x :: y :: rest =>
    by_cases hx : x = ""
    · simp [dispatch, rsvpRoutes, matchPath, hx]
    · by_cases h1 : "my-rsvps" = x <;> by_cases h2 : "my-response" = y <;>
        cases rest <;> simp [dispatch, rsvpRoutes, matchPath, hx, h1, h2]

/-! ## The broadcast rooms -/

theorem nodup_join {reg : Registry} (h : reg.Nodup) (room : String) (c : ConnId) :
    (reg.join room c).Nodup := by
  unfold Registry.join
  split
  · exact h
  · rename_i hm
    rw [List.nodup_append]
    refine ⟨h, List.nodup_singleton _, ?_⟩
    intro a ha hb
    rw [List.mem_singleton] at hb
    exact hm (hb ▸ ha)

theorem nodup_onSocket {reg : Registry} (h : reg.Nodup) (c : ConnId) (msg : SocketMsg) :
    (onSocket reg c msg).1.Nodup := by
  cases msg with
  | joinEvent e => exact nodup_join h _ _
  | leaveEvent e => exact h.filter _
  | rsvpUpdate e d => exact h
  | disconnect => exact h.filter _

theorem nodup_runSockets (history : List (ConnId × SocketMsg)) {reg : Registry}
    (h : reg.Nodup) : (runSockets reg history).Nodup := by
  unfold runSockets
  induction history generalizing reg with
  | nil => exact h
  | cons m ms ih => exact ih (nodup_onSocket h m.1 m.2)

theorem runSockets_append (reg : Registry) (h1 h2 : List (ConnId × SocketMsg)) :
    runSockets reg (h1 ++ h2) = runSockets (runSockets reg h1) h2 := by
  simp [runSockets, List.foldl_append]

theorem countP_eq_of_nodup {reg : Registry} (h : reg.Nodup) (a : String × ConnId)
    (p : String × ConnId → Bool) (hp : ∀ m, p m = true ↔ m = a) :
    reg.countP p = if a ∈ reg then 1 else 0 := by
  induction reg with
  | nil => simp
  | cons x xs ih =>
    rw [List.nodup_cons] at h
    by_cases hx : x = a
    · have hpx : p x = true := (hp x).2 hx
      have hnot : a ∉ xs := hx ▸ h.1
      have ih' := ih h.2
      rw [if_neg hnot] at ih'
      rw [List.countP_cons_of_pos _ _ hpx, ih']
      simp [hx]
    · have hpx : ¬ p x = true := fun hh => hx ((hp x).1 hh)
      rw [List.countP_cons_of_neg _ _ hpx, ih h.2]
      have : a ∈ x :: xs ↔ a ∈ xs := by
        simp only [List.mem_cons]
        constructor
        · rintro (hh | hh)
          · exact absurd hh.symm hx
          · exact hh
        · exact Or.inr
      simp only [this]

theorem deliveries_emitToRoom {reg : Registry} (h : reg.Nodup) (room : String)
    (s c : ConnId) (event payload : String) :
    ((emitToRoom reg room s event payload).filter (fun d => decide (d.conn = c))).length =
      if (room, c) ∈ reg ∧ c ≠ s then 1 else 0 := by
  have hlen : ((emitToRoom reg room s event payload).filter (fun d => decide (d.conn = c))).length
      = reg.countP (fun m => decide (m.1 = room) && !decide (m.2 = s) && decide (m.2 = c)) := by
    unfold emitToRoom
    rw [List.filter_map, List.length_map, List.filter_filter, List.countP_eq_length_filter]
    congr 1
    apply List.filter_congr
    intro m _
    simp only [Function.comp]
    exact Bool.and_comm _ _
  rw [hlen]
  by_cases hcs : c = s
  · subst hcs
    have : reg.countP (fun m => decide (m.1 = room) && !decide (m.2 = c) && decide (m.2 = c)) = 0 := by
      rw [List.countP_eq_zero]
      intro m _
      by_cases hm : m.2 = c <;> simp [hm]
    simp [this]
  · have hp : ∀ m : String × ConnId,
        (decide (m.1 = room) && !decide (m.2 = s) && decide (m.2 = c)) = true ↔ m = (room, c) := by
      intro m
      obtain ⟨r, k⟩ := m
      simp only [Bool.and_eq_true, decide_eq_true_eq, Bool.not_eq_true', decide_eq_false_iff_not,
        Prod.mk.injEq]
      constructor
      · intro hh; exact ⟨hh.1.1, hh.2⟩
      · intro hh; exact ⟨⟨hh.1, by rw [hh.2]; exact hcs⟩, hh.2⟩
    rw [countP_eq_of_nodup h (room, c) _ hp]
    simp [hcs]

/-- C19: let the registry be the one reached from the empty registry by any
history of socket messages.  When 'rsvp-update' {eventId, rsvpData} is handled
for the originating connection s, the registry is unchanged, every delivered
message is an 'rsvp-received' carrying rsvpData, and the number of messages
delivered to a connection c is exactly one if c is currently in room
'event-<eventId>' and is not s, and zero otherwise.  A connection is in the
room right after its join-event (however often it had joined before) and is
not in it right after its leave-event. -/
theorem rsvpUpdate_delivers_once (history : List (ConnId × SocketMsg)) (s c : ConnId)
    (eventId rsvpData : String) :
    (onSocket (runSockets [] history) s (.rsvpUpdate eventId rsvpData)).1 =
      runSockets [] history ∧
    (∀ d ∈ (onSocket (runSockets [] history) s (.rsvpUpdate eventId rsvpData)).2,
      d.event = "rsvp-received" ∧ d.payload = rsvpData) ∧
    (((onSocket (runSockets [] history) s (.rsvpUpdate eventId rsvpData)).2.filter
        (fun d => decide (d.conn = c))).length =
      if (roomOf eventId, c) ∈ runSockets [] history ∧ c ≠ s then 1 else 0) ∧
    (roomOf eventId, c) ∈ runSockets [] (history ++ [(c, .joinEvent eventId)]) ∧
    (roomOf eventId, c) ∉ runSockets [] (history ++ [(c, .leaveEvent eventId)]) := by
  refine ⟨rfl, ?_, deliveries_emitToRoom (nodup_runSockets history List.nodup_nil) _ _ _ _ _,
    ?_, ?_⟩
  · intro d hd
    simp only [onSocket, emitToRoom, List.mem_map] at hd
    obtain ⟨m, _, rfl⟩ := hd
    exact ⟨rfl, rfl⟩
  · rw [runSockets_append]
    simp only [runSockets, List.foldl_cons, List.foldl_nil, onSocket, Registry.join]
    split
    · assumption
    · simp
  · rw [runSockets_append]
    simp [runSockets, onSocket, Registry.leave]

/-! ## Broadcast on a successful `createRSVP` -/

/-- C18 as stated fails: with connection 5 in the room of event 1, the
successful createRSVP call of account 3 for event 1 on the sample store
delivers no message to anyone. -/
theorem createRSVP_publishes_counterexample :
    (createRSVP sampleStore 1 3 { response := some "Yes" } 9).1.success = true ∧
    (serverStep { store := sampleStore, registry := [(roomOf "1", 5)] }
      (.http (.createRSVP 1 3 { response := some "Yes" } 9))).2 = [] := by
  decide

/-- C18 (amended): no createRSVP call, successful or not, publishes a message.
The server delivers messages only when it handles the socket message
'rsvp-update' {eventId, rsvpData} of a connected client, and then each one is
an 'rsvp-received' carrying rsvpData, addressed to a member of room
'event-<eventId>' other than the sender. -/
theorem serverStep_delivers_only_on_rsvpUpdate :
    (∀ (st : ServerState) (e u : ObjectId) (b : RSVPBody) (now : Nat),
      (serverStep st (.http (.createRSVP e u b now))).2 = [] ∧
      (serverStep st (.http (.createRSVP e u b now))).1.registry = st.registry) ∧
    (∀ (st : ServerState) (ev : ServerEvent), (serverStep st ev).2 ≠ [] →
      ∃ c eventId rsvpData, ev = .socket c (.rsvpUpdate eventId rsvpData) ∧
        ∀ d ∈ (serverStep st ev).2,
          d.event = "rsvp-received" ∧ d.payload = rsvpData ∧
          (roomOf eventId, d.conn) ∈ st.registry ∧ d.conn ≠ c) := by
  refine ⟨fun st e u b now => ⟨rfl, rfl⟩, ?_⟩
  intro st ev h
  cases ev with
  | http call => exact absurd rfl h
  | socket c msg =>
    cases msg with
    | joinEvent e => exact absurd rfl h
    | leaveEvent e => exact absurd rfl h
    | disconnect => exact absurd rfl h
    | rsvpUpdate e data =>
      refine ⟨c, e, data, rfl, ?_⟩
      intro d hd
      simp only [serverStep, onSocket, emitToRoom, List.mem_map, List.mem_filter,
        Bool.and_eq_true, decide_eq_true_eq, Bool.not_eq_true', decide_eq_false_iff_not] at hd
      obtain ⟨m, ⟨hm, hroom, hs⟩, rfl⟩ := hd
      refine ⟨rfl, rfl, ?_, hs⟩
      rw [← hroom]
      exact hm

/-- Instance of C18 (amended): connection 6 sends 'rsvp-update' for event 1
while connection 5 is in the room of event 1. -/
theorem serverStep_delivers_only_on_rsvpUpdate_witness :
    (serverStep { store := sampleStore, registry := [(roomOf "1", 5)] }
      (.socket 6 (.rsvpUpdate "1" "tally"))).2 ≠ [] ∧
    ∃ c eventId rsvpData,
      ServerEvent.socket 6 (.rsvpUpdate "1" "tally") = .socket c (.rsvpUpdate eventId rsvpData) ∧
      ∀ d ∈ (serverStep { store := sampleStore, registry := [(roomOf "1", 5)] }
          (.socket 6 (.rsvpUpdate "1" "tally"))).2,
        d.event = "rsvp-received" ∧ d.payload = rsvpData ∧
        (roomOf eventId, d.conn) ∈
          ({ store := sampleStore, registry := [(roomOf "1", 5)] } : ServerState).registry ∧
        d.conn ≠ c :=
  ⟨by decide,
   serverStep_delivers_only_on_rsvpUpdate.2
    { store := sampleStore, registry := [(roomOf "1", 5)] }
    (.socket 6 (.rsvpUpdate "1" "tally")) (by decide)⟩

/-! ## The insert rejected by the unique index -/

theorem createRSVP_eq_insertAt {s : Store} {e u : ObjectId} {ev : Event}
    (b : RSVPBody) (now : Nat)
    (hev : findById s.events e = some ev) (hact : ev.status = "active")
    (hrow : findOne s.rsvps e u = none) :
    createRSVP s e u b now = createRSVPInsertAt s e u b now := by
  unfold createRSVP createRSVPInsertAt
  simp only [hev, hact, hrow, ne_eq, not_true_eq_false, if_false]

/-- C20 as stated fails: account 3 has no row for event 1 when the lookup runs
on the sample store, another request inserts one, and the insert of the
submission {Yes} is rejected by the unique index.  The call answers with status
500 and the duplicate-key message, and the stored row keeps the response No. -/
theorem createRSVP_retry_counterexample :
    findOne sampleStore.rsvps 1 3 = none ∧
    createRSVPInsertAt racedStore 1 3 { response := some "Yes" } 9 =
      (serverError "E11000 duplicate key error collection: rsvps index: eventId_1_userId_1",
        racedStore) ∧
    (findOne racedStore.rsvps 1 3).map (fun r => r.response) = some "No" := by
  decide

/-- C20 (amended): if the insert of the create branch of createRSVP reaches the
storage when a row of the pair (eventId, userId) exists, createRSVP does not
retry as an update: for every request body it answers with a failure (status
500, success false) and leaves the store, the existing row included,
unchanged. -/
theorem createRSVPInsertAt_duplicate (s : Store) (e u : ObjectId) (b : RSVPBody) (now : Nat)
    (row : RSVP) (hrow : findOne s.rsvps e u = some row) :
    (createRSVPInsertAt s e u b now).1.status = 500 ∧
    (createRSVPInsertAt s e u b now).1.success = false ∧
    (createRSVPInsertAt s e u b now).2 = s := by
  cases hd : newRSVP e u b now with
  | error m =>
    have heq : createRSVPInsertAt s e u b now = (serverError m, s) := by
      unfold createRSVPInsertAt
      simp only [hd]
    rw [heq]
    exact ⟨rfl, rfl, rfl⟩
  | ok doc =>
    obtain ⟨h1, h2⟩ := newRSVP_key hd
    have hins : insertRSVP s.rsvps doc =
        .error "E11000 duplicate key error collection: rsvps index: eventId_1_userId_1" := by
      unfold insertRSVP
      rw [h1, h2, hrow]
      rfl
    have heq : createRSVPInsertAt s e u b now =
        (serverError "E11000 duplicate key error collection: rsvps index: eventId_1_userId_1",
          s) := by
      unfold createRSVPInsertAt
      simp only [hd, hins]
    rw [heq]
    exact ⟨rfl, rfl, rfl⟩

/-- Instance of C20 (amended): the raced sample store, where account 3 already
has a row for event 1. -/
theorem createRSVPInsertAt_duplicate_witness :
    findOne racedStore.rsvps 1 3 = some { eventId := 1, userId := 3, response := "No", timestamp := 8 } ∧
    ((createRSVPInsertAt racedStore 1 3 { response := some "Yes" } 9).1.status = 500 ∧
    (createRSVPInsertAt racedStore 1 3 { response := some "Yes" } 9).1.success = false ∧
    (createRSVPInsertAt racedStore 1 3 { response := some "Yes" } 9).2 = racedStore) :=
  ⟨by decide,
   createRSVPInsertAt_duplicate racedStore 1 3 { response := some "Yes" } 9
    { eventId := 1, userId := 3, response := "No", timestamp := 8 } (by decide)⟩

/-! ## Updating, listing and creating events -/

theorem findByIdAndUpdate_ok {events evs : List Event} {id : ObjectId} {ev doc : Event}
    {b : EventBody} (h : findByIdAndUpdate events id ev b = .ok (doc, evs)) :
    doc = applyEventBody ev b ∧ evs = replaceEvent events id doc := by
  unfold findByIdAndUpdate at h
  split at h
  · simp only at h
    split at h
    · cases h
    · simp only [Except.ok.injEq, Prod.mk.injEq] at h
      obtain ⟨h1, h2⟩ := h
      subst h1
      exact ⟨rfl, h2.symm⟩
  · cases h

theorem findById_replaceEvent {events : List Event} {id : ObjectId} {ev doc : Event}
    (h : findById events id = some ev) (hd : doc._id = id) :
    findById (replaceEvent events id doc) id = some doc := by
  induction events with
  | nil => simp [findById] at h
  | cons x xs ih =>
    unfold replaceEvent
    by_cases hx : x._id = id
    · rw [if_pos hx]
      simp [findById, List.find?_cons, hd]
    · rw [if_neg hx]
      have hxs : findById xs id = some ev := by
        simpa [findById, List.find?_cons, hx] using h
      have := ih hxs
      simpa [findById, List.find?_cons, hx] using this

theorem mergeBody_plain (b : EventBody) : mergeBody b { } = b := by
  obtain ⟨t, d, da, ti, l, c, i, at_, m, p, ca, st, cr, up⟩ := b
  simp only [mergeBody, orField, EventBody.mk.injEq]
  refine ⟨?_, ?_, ?_, ?_, ?_, ?_, ?_, ?_, ?_, ?_, ?_, ?_, ?_, ?_⟩ <;> split <;> simp_all

theorem updateEventRaw_plain (s : Store) (id caller : ObjectId) (b : EventBody) :
    updateEventRaw s id caller { fields := b } = updateEvent s id caller b := by
  unfold updateEventRaw updateEvent findByIdAndUpdateRaw findByIdAndUpdate
  simp only [mergeBody_plain, Bool.false_eq_true, false_and, if_false]

theorem findByIdAndUpdateRaw_ok {events evs : List Event} {id : ObjectId} {ev doc : Event}
    {raw : UpdateBody} (h : findByIdAndUpdateRaw events id ev raw = .ok (doc, evs)) :
    evs = replaceEvent events id doc ∧ doc._id = ev._id ∧
    doc.inviteLink =
      (if raw.unsetInviteLink = true then ""
       else ((mergeBody raw.fields raw.set).inviteLink).getD ev.inviteLink) ∧
    ¬ (raw.unsetInviteLink = true ∧ (mergeBody raw.fields raw.set).inviteLink.isSome = true) := by
  unfold findByIdAndUpdateRaw at h
  cases hchk : checkEventBody (mergeBody raw.fields raw.set) with
  | cons e es =>
    rw [hchk] at h
    cases h
  | nil =>
    rw [hchk] at h
    simp only at h
    by_cases hconf : raw.unsetInviteLink = true ∧
        (mergeBody raw.fields raw.set).inviteLink.isSome = true
    · rw [if_pos hconf] at h
      cases h
    · rw [if_neg hconf] at h
      by_cases hun : raw.unsetInviteLink = true
      · simp only [hun, if_true] at h
        split at h
        · cases h
        · simp only [Except.ok.injEq, Prod.mk.injEq] at h
          obtain ⟨h1, h2⟩ := h
          subst h1
          exact ⟨h2.symm, rfl, by simp [hun], hconf⟩
      · have hun' : raw.unsetInviteLink = false := by simpa using hun
        simp only [hun', Bool.false_eq_true, if_false] at h
        split at h
        · cases h
        · simp only [Except.ok.injEq, Prod.mk.injEq] at h
          obtain ⟨h1, h2⟩ := h
          subst h1
          exact ⟨h2.symm, rfl, by simp [hun', applyEventBody], hconf⟩

/-- C22 as stated fails: the creator, account 7, updates event 1 of the link
store with a body that holds an inviteLink field, and the stored inviteLink
changes from "aaa" to "zzz". -/
theorem updateEvent_inviteLink_counterexample :
    (findById linkStore.events 1).map (fun e => (e.createdBy, e.inviteLink)) = some (7, "aaa") ∧
    (updateEvent linkStore 1 7 { inviteLink := some "zzz" }).1.success = true ∧
    (findById (updateEvent linkStore 1 7 { inviteLink := some "zzz" }).2.events 1).map
      (fun e => e.inviteLink) = some "zzz" := by
  decide

/-- C22 (amended): for every event E and every updateEvent call on E, with the
body as it arrives (plain fields, `$set`, `$unset`).  A call that is not
answered with success leaves the store, and so the inviteLink of E, as it was.
A call whose body names inviteLink neither as a field nor under `$set` or
`$unset` leaves the inviteLink of E as it was, whether or not the update is
accepted.  A call that is answered with success and whose body gives
inviteLink a value, as a field or else under `$set`, leaves E with that value
as its inviteLink; one that is answered with success and unsets inviteLink
leaves E without a link. -/
theorem updateEventRaw_inviteLink (s : Store) (id caller : ObjectId) (raw : UpdateBody)
    (ev : Event) (hev : findById s.events id = some ev) :
    ((updateEventRaw s id caller raw).1.status ≠ 200 → (updateEventRaw s id caller raw).2 = s) ∧
    (raw.fields.inviteLink = none → raw.set.inviteLink = none → raw.unsetInviteLink = false →
      ∃ ev', findById (updateEventRaw s id caller raw).2.events id = some ev' ∧
        ev'.inviteLink = ev.inviteLink) ∧
    ((updateEventRaw s id caller raw).1.status = 200 →
      ∀ v, raw.fields.inviteLink = some v ∨
          (raw.fields.inviteLink = none ∧ raw.set.inviteLink = some v) →
        ∃ ev', findById (updateEventRaw s id caller raw).2.events id = some ev' ∧
          ev'.inviteLink = v) ∧
    ((updateEventRaw s id caller raw).1.status = 200 → raw.unsetInviteLink = true →
      ∃ ev', findById (updateEventRaw s id caller raw).2.events id = some ev' ∧
        ev'.inviteLink = "") := by
  have hid := findById_id hev
  have hfail : ∀ r : Reply Event, r.status ≠ 200 →
      updateEventRaw s id caller raw = (r, s) →
      ((updateEventRaw s id caller raw).1.status ≠ 200 →
        (updateEventRaw s id caller raw).2 = s) ∧
      (raw.fields.inviteLink = none → raw.set.inviteLink = none →
        raw.unsetInviteLink = false →
        ∃ ev', findById (updateEventRaw s id caller raw).2.events id = some ev' ∧
          ev'.inviteLink = ev.inviteLink) ∧
      ((updateEventRaw s id caller raw).1.status = 200 →
        ∀ v, raw.fields.inviteLink = some v ∨
            (raw.fields.inviteLink = none ∧ raw.set.inviteLink = some v) →
          ∃ ev', findById (updateEventRaw s id caller raw).2.events id = some ev' ∧
            ev'.inviteLink = v) ∧
      ((updateEventRaw s id caller raw).1.status = 200 → raw.unsetInviteLink = true →
        ∃ ev', findById (updateEventRaw s id caller raw).2.events id = some ev' ∧
          ev'.inviteLink = "") := by
    intro r hr heq
    rw [heq]
    exact ⟨fun _ => rfl, fun _ _ _ => ⟨ev, hev, rfl⟩, fun h => absurd h hr, fun h => absurd h hr⟩
  by_cases hc : ev.createdBy = caller
  · cases hu : findByIdAndUpdateRaw s.events id ev raw with
    | error m =>
      apply hfail (serverError m) (by simp [serverError])
      unfold updateEventRaw
      simp only [hev, hc, hu, ne_eq, not_true_eq_false, if_false]
    | ok p =>
      obtain ⟨doc, evs⟩ := p
      obtain ⟨h1, h2, h3, h4⟩ := findByIdAndUpdateRaw_ok hu
      have heq : updateEventRaw s id caller raw =
          ({ status := 200, success := true, data := some doc }, { s with events := evs }) := by
        unfold updateEventRaw
        simp only [hev, hc, hu, ne_eq, not_true_eq_false, if_false]
      have hfound : findById evs id = some doc := by
        rw [h1]
        exact findById_replaceEvent hev (h2.trans hid)
      rw [heq]
      refine ⟨fun h => absurd rfl h, ?_, ?_, ?_⟩
      · intro f1 f2 f3
        refine ⟨doc, hfound, ?_⟩
        rw [h3]
        simp [f3, mergeBody, orField, f1, f2]
      · intro _ v hv
        refine ⟨doc, hfound, ?_⟩
        have hun : ¬ raw.unsetInviteLink = true := by
          intro hun
          apply h4
          refine ⟨hun, ?_⟩
          rcases hv with hv | ⟨hv1, hv2⟩
          · simp [mergeBody, orField, hv]
          · simp [mergeBody, orField, hv1, hv2]
        rw [h3, if_neg hun]
        rcases hv with hv | ⟨hv1, hv2⟩
        · simp [mergeBody, orField, hv]
        · simp [mergeBody, orField, hv1, hv2]
      · intro _ hun
        refine ⟨doc, hfound, ?_⟩
        rw [h3, if_pos hun]
  · apply hfail { status := 401, success := false,
                  message := some "Not authorized to update this event" } (by simp)
    unfold updateEventRaw
    simp only [hev, hc, ne_eq, not_false_eq_true, if_true]

/-- Instance of C22 (amended) on the link store: the creator, account 7,
renames event 1 and its link stays "aaa"; a body with `$set: { inviteLink }`
sets the link to "zzz"; a body with `$unset: { inviteLink }` removes it; the
same `$set` sent by account 8, who is not the creator, changes nothing. -/
theorem updateEventRaw_inviteLink_witness :
    findById linkStore.events 1 =
      some { _id := 1, title := "Summer party", createdBy := 7, inviteLink := "aaa",
             createdAt := 20 } ∧
    (∃ ev', findById (updateEventRaw linkStore 1 7
        { fields := { title := some "Autumn party" } }).2.events 1 = some ev' ∧
      ev'.inviteLink = "aaa") ∧
    (∃ ev', findById (updateEventRaw linkStore 1 7
        { set := { inviteLink := some "zzz" } }).2.events 1 = some ev' ∧
      ev'.inviteLink = "zzz") ∧
    (∃ ev', findById (updateEventRaw linkStore 1 7
        { unsetInviteLink := true }).2.events 1 = some ev' ∧
      ev'.inviteLink = "") ∧
    (updateEventRaw linkStore 1 8 { set := { inviteLink := some "zzz" } }).2 = linkStore :=
  ⟨by decide,
   (updateEventRaw_inviteLink linkStore 1 7 { fields := { title := some "Autumn party" } }
    { _id := 1, title := "Summer party", createdBy := 7, inviteLink := "aaa", createdAt := 20 }
    (by decide)).2.1 (by decide) (by decide) (by decide),
   (updateEventRaw_inviteLink linkStore 1 7 { set := { inviteLink := some "zzz" } }
    { _id := 1, title := "Summer party", createdBy := 7, inviteLink := "aaa", createdAt := 20 }
    (by decide)).2.2.1 (by decide) "zzz" (Or.inr ⟨by decide, by decide⟩),
   (updateEventRaw_inviteLink linkStore 1 7 { unsetInviteLink := true }
    { _id := 1, title := "Summer party", createdBy := 7, inviteLink := "aaa", createdAt := 20 }
    (by decide)).2.2.2 (by decide) (by decide),
   (updateEventRaw_inviteLink linkStore 1 8 { set := { inviteLink := some "zzz" } }
    { _id := 1, title := "Summer party", createdBy := 7, inviteLink := "aaa", createdAt := 20 }
    (by decide)).1 (by decide)⟩

/-- C23 (the code departs from the claim): the filter of getEvents has no
condition on isPublic.  On the link store, whose event 2 is active and
private, the list returned for the empty query holds event 2. -/
theorem getEvents_lists_private_event :
    (findById linkStore.events 2).map (fun e => (e.status, e.isPublic)) =
      some ("active", false) ∧
    (getEvents literalSearch linkStore { }).success = true ∧
    (getEvents literalSearch linkStore { }).data.map (fun e => (e._id, e.isPublic)) =
      [(2, false), (1, true), (3, true)] := by
  decide

/-- C24 (the code departs from the claim): at time 100 account 9 posts an event
dated 5.  The validation chain of the route records 'Event date cannot be in
the past', but nothing reads the recorded errors and the schema has no such
validator: the request is answered with status 201 and the event is stored. -/
theorem postEvent_past_date_stored :
    (eventValidators
      { title := some "Past party", description := some "A party long ago", date := some 5,
        time := some "18:00", location := some "Garden" } 100).1 =
      ["Event date cannot be in the past"] ∧
    (postEvent linkStore 9
      { title := some "Past party", description := some "A party long ago", date := some 5,
        time := some "18:00", location := some "Garden" } 100 4 "ddd").1.status = 201 ∧
    ((postEvent linkStore 9
      { title := some "Past party", description := some "A party long ago", date := some 5,
        time := some "18:00", location := some "Garden" } 100 4 "ddd").2.events.map
      (fun e => (e._id, e.date))) = [(1, 0), (2, 0), (3, 0), (4, 5)] := by
  decide

theorem newEvent_createdBy {b : EventBody} {userId now newId : Nat} {link : String} {doc : Event}
    (h : newEvent b userId now newId link = .ok doc) : doc.createdBy = userId := by
  unfold newEvent at h
  split at h
  · cases h; rfl
  · cases h

theorem newEvent_isOk {b : EventBody} (userId now newId : Nat) (link : String)
    (h : checkEventRequired b ++ checkEventBody b = []) :
    ∃ doc, newEvent b userId now newId link = .ok doc := by
  have h1 := (List.append_eq_nil.1 h).1
  unfold checkEventRequired at h1
  cases ht : b.title <;> cases hd : b.description <;> cases hda : b.date <;>
    cases hti : b.time <;> cases hl : b.location <;>
    simp [ht, hd, hda, hti, hl] at h1
  unfold newEvent
  simp only [ht, hd, hda, hti, hl, h]
  exact ⟨_, rfl⟩

theorem insertEvent_ok {events evs : List Event} {doc : Event}
    (h : insertEvent events doc = .ok evs) : evs = events ++ [doc] := by
  unfold insertEvent at h
  split at h
  · cases h
  · split at h
    · cases h
    · cases h; rfl

theorem insertEvent_fresh {events : List Event} {doc : Event}
    (hid : ∀ e ∈ events, e._id ≠ doc._id) (hlink : ∀ e ∈ events, e.inviteLink ≠ doc.inviteLink) :
    insertEvent events doc = .ok (events ++ [doc]) := by
  have h1 : events.any (fun e => decide (e._id = doc._id)) = false := by
    rw [List.any_eq_false]
    intro e he
    simpa using hid e he
  have h2 : events.any (fun e => decide (e.inviteLink = doc.inviteLink)) = false := by
    rw [List.any_eq_false]
    intro e he
    simpa using hlink e he
  unfold insertEvent
  simp [h1, h2]

theorem newEvent_id_link {b : EventBody} {userId now newId : Nat} {link : String} {doc : Event}
    (h : newEvent b userId now newId link = .ok doc) :
    doc._id = newId ∧ doc.inviteLink = b.inviteLink.getD link := by
  unfold newEvent at h
  split at h
  · cases h; exact ⟨rfl, rfl⟩
  · cases h

/-- C29: for every request body, including one that contains its own createdBy
field, createEvent either stores nothing and returns no event, or appends
exactly one event to the stored events, returns it with status 201, and that
event has createdBy equal to the id of the authenticated caller; so every event
in the store after the call either was stored before or has createdBy equal to
the caller.  The second case occurs whenever the body passes the schema
validators and the generated `_id` and the invite link are not in use. -/
theorem createEvent_createdBy (s : Store) (caller : ObjectId) (body : EventBody) (now : Nat)
    (newId : ObjectId) (link : String) :
    (∀ doc, (createEvent s caller body now newId link).1.data = some doc →
      doc.createdBy = caller) ∧
    (∀ e ∈ (createEvent s caller body now newId link).2.events,
      e ∈ s.events ∨ e.createdBy = caller) ∧
    (∀ doc, (createEvent s caller body now newId link).1.data = some doc →
      (createEvent s caller body now newId link).1.status = 201 ∧
      (createEvent s caller body now newId link).2.events = s.events ++ [doc] ∧
      (createEvent s caller body now newId link).2.rsvps = s.rsvps) ∧
    ((createEvent s caller body now newId link).1.data = none →
      (createEvent s caller body now newId link).1.success = false ∧
      (createEvent s caller body now newId link).2 = s) ∧
    (checkEventRequired body ++ checkEventBody body = [] →
      (∀ e ∈ s.events, e._id ≠ newId) →
      (∀ e ∈ s.events, e.inviteLink ≠ body.inviteLink.getD link) →
      ∃ doc, (createEvent s caller body now newId link).1.data = some doc ∧
        doc ∈ (createEvent s caller body now newId link).2.events ∧
        doc._id = newId ∧ doc.createdBy = caller) := by
  cases hn : newEvent body caller now newId link with
  | error m =>
    have heq : createEvent s caller body now newId link = (serverError m, s) := by
      unfold createEvent; simp only [hn]
    rw [heq]
    refine ⟨fun doc h => (by cases h), fun e he => Or.inl he, fun doc h => (by cases h),
      fun _ => ⟨rfl, rfl⟩, ?_⟩
    intro hv _ _
    obtain ⟨doc, hdoc⟩ := newEvent_isOk caller now newId link hv
    rw [hn] at hdoc
    cases hdoc
  | ok d =>
    have hc := newEvent_createdBy hn
    obtain ⟨hdid, hdlink⟩ := newEvent_id_link hn
    cases hi : insertEvent s.events d with
    | error m =>
      have heq : createEvent s caller body now newId link = (serverError m, s) := by
        unfold createEvent; simp only [hn, hi]
      rw [heq]
      refine ⟨fun doc h => (by cases h), fun e he => Or.inl he, fun doc h => (by cases h),
        fun _ => ⟨rfl, rfl⟩, ?_⟩
      intro _ hid hlink
      have := @insertEvent_fresh s.events d (by rw [hdid]; exact hid) (by rw [hdlink]; exact hlink)
      rw [hi] at this
      cases this
    | ok evs =>
      have hevs : evs = s.events ++ [d] := insertEvent_ok hi
      have heq : createEvent s caller body now newId link =
          ({ status := 201, success := true, data := some d }, { s with events := evs }) := by
        unfold createEvent; simp only [hn, hi]
      rw [heq]
      refine ⟨?_, ?_, ?_, fun h => (by cases h), ?_⟩
      · intro doc h
        cases h
        exact hc
      · intro e he
        simp only [hevs, List.mem_append, List.mem_singleton] at he
        rcases he with he | he
        · exact Or.inl he
        · exact Or.inr (he ▸ hc)
      · intro doc h
        cases h
        exact ⟨rfl, hevs, rfl⟩
      · intro _ _ _
        refine ⟨d, rfl, ?_, hdid, hc⟩
        simp [hevs]

/-- Instance of C29: account 9 posts a body that names account 7 as creator;
the event is stored after the three events of the link store, with account 9
as its creator. -/
theorem createEvent_createdBy_witness :
    (createEvent linkStore 9
      { title := some "Picnic", description := some "Lunch in the park", date := some 500,
        time := some "12:00", location := some "Park", createdBy := some 7 } 100 4 "ddd").1.data.map
      (fun e => e.createdBy) = some 9 ∧
    (createEvent linkStore 9
      { title := some "Picnic", description := some "Lunch in the park", date := some 500,
        time := some "12:00", location := some "Park", createdBy := some 7 } 100 4 "ddd").2.events.map
      (fun e => (e._id, e.createdBy)) = [(1, 7), (2, 7), (3, 8), (4, 9)] ∧
    ∃ doc, (createEvent linkStore 9
      { title := some "Picnic", description := some "Lunch in the park", date := some 500,
        time := some "12:00", location := some "Park", createdBy := some 7 } 100 4 "ddd").1.data =
        some doc ∧
      doc ∈ (createEvent linkStore 9
        { title := some "Picnic", description := some "Lunch in the park", date := some 500,
          time := some "12:00", location := some "Park", createdBy := some 7 } 100 4 "ddd").2.events ∧
      doc._id = 4 ∧ doc.createdBy = 9 :=
  ⟨by decide, by decide,
   (createEvent_createdBy linkStore 9
    { title := some "Picnic", description := some "Lunch in the park", date := some 500,
      time := some "12:00", location := some "Park", createdBy := some 7 } 100 4 "ddd").2.2.2.2
    (by decide) (by decide) (by decide)⟩

/-! ## The frame of `createRSVP` -/

theorem updatedRSVP_key {rsvp doc : RSVP} {b : RSVPBody} {now : Nat}
    (h : updatedRSVP rsvp b now = .ok doc) :
    doc.eventId = rsvp.eventId ∧ doc.userId = rsvp.userId := by
  unfold updatedRSVP at h
  simp only at h
  split at h
  · cases h; exact ⟨rfl, rfl⟩
  · cases h

theorem length_saveRSVP (rsvps : List RSVP) (doc : RSVP) :
    (saveRSVP rsvps doc).length = rsvps.length := by
  induction rsvps with
  | nil => rfl
  | cons r rs ih =>
    unfold saveRSVP
    split
    · rfl
    · simp [ih]

theorem filter_others_saveRSVP (rsvps : List RSVP) (doc : RSVP) :
    (saveRSVP rsvps doc).filter (fun r => !matchesKey doc.eventId doc.userId r) =
      rsvps.filter (fun r => !matchesKey doc.eventId doc.userId r) := by
  induction rsvps with
  | nil => rfl
  | cons r rs ih =>
    unfold saveRSVP
    by_cases h : matchesKey doc.eventId doc.userId r = true
    · rw [if_pos h]
      have hd : matchesKey doc.eventId doc.userId doc = true := by simp [matchesKey]
      simp [List.filter_cons, h, hd]
    · rw [if_neg h]
      simp only [List.filter_cons, ih]

/-- C27: for every store and every createRSVP call, every event record is as
before, the RSVP rows with a different eventId or a different userId are the
same rows in the same order as before, and the number of rows does not shrink
and grows by at most one. -/
theorem createRSVP_frame (s : Store) (e u : ObjectId) (b : RSVPBody) (now : Nat) :
    (createRSVP s e u b now).2.events = s.events ∧
    (createRSVP s e u b now).2.rsvps.filter (fun r => !matchesKey e u r) =
      s.rsvps.filter (fun r => !matchesKey e u r) ∧
    s.rsvps.length ≤ (createRSVP s e u b now).2.rsvps.length ∧
    (createRSVP s e u b now).2.rsvps.length ≤ s.rsvps.length + 1 := by
  have keep : ∀ r : Reply RSVP, (r, s).2.events = s.events ∧
      (r, s).2.rsvps.filter (fun r => !matchesKey e u r) =
        s.rsvps.filter (fun r => !matchesKey e u r) ∧
      s.rsvps.length ≤ (r, s).2.rsvps.length ∧ (r, s).2.rsvps.length ≤ s.rsvps.length + 1 :=
    fun _ => ⟨rfl, rfl, le_refl _, Nat.le_succ _⟩
  unfold createRSVP
  cases hf : findById s.events e with
  | none => exact keep _
  | some event =>
    simp only
    split
    · exact keep _
    · cases hr : findOne s.rsvps e u with
      | some rsvp =>
        simp only
        cases hd : updatedRSVP rsvp b now with
        | error m => exact keep _
        | ok doc =>
          obtain ⟨k1, k2⟩ := findOne_key hr
          obtain ⟨d1, d2⟩ := updatedRSVP_key hd
          have h1 : doc.eventId = e := d1.trans k1
          have h2 : doc.userId = u := d2.trans k2
          refine ⟨rfl, ?_, ?_, ?_⟩
          · have := filter_others_saveRSVP s.rsvps doc
            rw [h1, h2] at this
            exact this
          · simp only [length_saveRSVP]; exact le_refl _
          · simp only [length_saveRSVP]; exact Nat.le_succ _
      | none =>
        simp only
        cases hd : newRSVP e u b now with
        | error m => exact keep _
        | ok doc =>
          obtain ⟨h1, h2⟩ := newRSVP_key hd
          have hnone : findOne s.rsvps doc.eventId doc.userId = none := by rw [h1, h2]; exact hr
          simp only [insertRSVP, hnone, Option.isSome_none]
          refine ⟨rfl, ?_, ?_, ?_⟩
          · have hk : matchesKey e u doc = true := by rw [matchesKey_iff]; exact ⟨h1, h2⟩
            simp [List.filter_append, List.filter_cons, hk]
          · simp
          · simp

/-! ## The three tallies of an event -/

theorem mem_of_findById {events : List Event} {id : ObjectId} {ev : Event}
    (h : findById events id = some ev) : ev ∈ events := by
  unfold findById at h
  exact List.mem_of_find?_eq_some h

theorem findByInviteLink_of_nodup {events : List Event} {ev : Event}
    (hlinks : (events.map (fun e => e.inviteLink)).Nodup) (hmem : ev ∈ events) :
    findByInviteLink events ev.inviteLink = some ev := by
  unfold findByInviteLink
  cases hf : events.find? (fun e => decide (e.inviteLink = ev.inviteLink)) with
  | none =>
    rw [List.find?_eq_none] at hf
    exact absurd (by simp) (hf ev hmem)
  | some e' =>
    have h1 : e'.inviteLink = ev.inviteLink := by simpa using List.find?_some hf
    have h2 : e' ∈ events := List.mem_of_find?_eq_some hf
    rw [List.inj_on_of_nodup_map hlinks h2 hmem h1]

/-- C28: for every store (whose invite links are unique, as the index on
inviteLink guarantees) and every existing event E, getEvent(E) and
getEventByInviteLink(E.inviteLink) return the same rsvpStats object, and its
entries Yes, No and Maybe equal those of the stats returned by
getEventRSVPs(E). -/
theorem rsvpStats_agree (s : Store) (id : ObjectId) (ev : Event)
    (hev : findById s.events id = some ev)
    (hlinks : (s.events.map (fun e => e.inviteLink)).Nodup) :
    ∃ st1 st2 st3,
      (getEvent s id).rsvpStats = some st1 ∧
      (getEventByInviteLink s ev.inviteLink).rsvpStats = some st2 ∧
      (getEventRSVPs s id).stats = some st3 ∧
      st1 = st2 ∧
      Obj.get st1 "Yes" = Obj.get st3 "Yes" ∧
      Obj.get st1 "No" = Obj.get st3 "No" ∧
      Obj.get st1 "Maybe" = Obj.get st3 "Maybe" := by
  have hid := findById_id hev
  have hl := findByInviteLink_of_nodup hlinks (mem_of_findById hev)
  rw [getEventRSVPs_eq hev]
  refine ⟨eventRsvpStats s ev, eventRsvpStats s ev, _, ?_, ?_, rfl, rfl, ?_, ?_, ?_⟩
  · simp only [getEvent, hev]
  · simp only [getEventByInviteLink, hl]
  · unfold eventRsvpStats; rw [hid, get_stats, get_stats]; rfl
  · unfold eventRsvpStats; rw [hid, get_stats, get_stats]; rfl
  · unfold eventRsvpStats; rw [hid, get_stats, get_stats]; rfl

/-- Instance of C28: event 1 of the link store. -/
theorem rsvpStats_agree_witness :
    ∃ st1 st2 st3,
      (getEvent linkStore 1).rsvpStats = some st1 ∧
      (getEventByInviteLink linkStore "aaa").rsvpStats = some st2 ∧
      (getEventRSVPs linkStore 1).stats = some st3 ∧
      st1 = st2 ∧
      Obj.get st1 "Yes" = Obj.get st3 "Yes" ∧
      Obj.get st1 "No" = Obj.get st3 "No" ∧
      Obj.get st1 "Maybe" = Obj.get st3 "Maybe" :=
  rsvpStats_agree linkStore 1
    { _id := 1, title := "Summer party", createdBy := 7, inviteLink := "aaa", createdAt := 20 }
    (by decide) (by decide)

/-! ## Pages of `getEvents` -/

theorem matchesQuery_iff (rx : String → Option (String → Bool)) (q : EventQuery) (e : Event) :
    matchesQuery rx q e = true ↔ Listed rx q e := by
  have hsearch : (match q.search with
      | some t =>
        if t = "" then true
        else
          match rx t with
          | some test => test e.title || test e.description || test e.location
          | none => false
      | none => true) = true ↔
      (∀ t, q.search = some t → t ≠ "" →
        ∃ test, rx t = some test ∧
          (test e.title = true ∨ test e.description = true ∨ test e.location = true)) := by
    cases hs : q.search with
    | none => simp
    | some t =>
      by_cases ht : t = ""
      · simp [ht]
      · cases hr : rx t with
        | none => simp [ht, hr]
        | some test => simp [ht, hr, or_assoc]
  have hcat : (match q.category with
      | some c => if c = "" ∨ c = "all" then true else decide (e.category = c)
      | none => true) = true ↔
      (∀ c, q.category = some c → c ≠ "" → c ≠ "all" → e.category = c) := by
    cases hc : q.category with
    | none => simp
    | some c =>
      by_cases hc1 : c = ""
      · simp [hc1]
      · by_cases hc2 : c = "all"
        · simp [hc2]
        · simp [hc1, hc2]
  unfold matchesQuery Listed
  rw [Bool.and_eq_true, Bool.and_eq_true, hsearch, hcat, decide_eq_true_iff, and_assoc]

/-- C30 as stated fails: a query with a search text lists only the active
events that match the text, and a search text that is no regular expression is
answered with an error.  On the link store, whose three events are all active,
the query {page 1, limit 10, search "party"} returns event 1 alone with total
1, and the query {page 1, limit 10, search "("} is answered with status 500 and
no event. -/
theorem getEvents_search_counterexample :
    (linkStore.events.filter (fun e => decide (e.status = "active"))).length = 3 ∧
    (getEvents literalSearch linkStore
      { page := some 1, limit := some 10, search := some "party" }).data.map
      (fun e => e._id) = [1] ∧
    (getEvents literalSearch linkStore
      { page := some 1, limit := some 10, search := some "party" }).total = some 1 ∧
    (getEvents literalSearch linkStore
      { page := some 1, limit := some 10, search := some "(" }).status = 500 ∧
    (getEvents literalSearch linkStore
      { page := some 1, limit := some 10, search := some "(" }).data = [] := by
  decide

/-- C30 (amended): for every store and every query with page >= 1 and
limit >= 1.  If the search text is missing, empty or a regular expression,
getEvents answers with success and returns exactly the slice
[(page-1)*limit, page*limit) of the listed events ordered by createdAt
descending, where an event is listed when it has status 'active', matches the
category filter (category missing, empty or 'all' meaning no category filter)
and, when a non-empty search text is given, matches it in title, description or
location; the returned count equals the length of that slice and is at most
limit, and total equals the number of all listed events regardless of page and
limit.  If the search text is not empty and is no regular expression, the
reply has status 500, success false and no events. -/
theorem getEvents_page (rx : String → Option (String → Bool)) (s : Store) (q : EventQuery)
    (page limit : Nat) (hp : q.page = some page) (hl : q.limit = some limit)
    (hpage : 1 ≤ page) (hlimit : 1 ≤ limit) :
    ((∀ t, q.search = some t → t ≠ "" → (rx t).isSome = true) →
      ∃ ordered : List Event,
        ordered.Perm (s.events.filter (matchesQuery rx q)) ∧
        (∀ e, e ∈ ordered ↔ e ∈ s.events ∧ Listed rx q e) ∧
        ordered.Pairwise (fun a b => b.createdAt ≤ a.createdAt) ∧
        (getEvents rx s q).status = 200 ∧
        (getEvents rx s q).success = true ∧
        (getEvents rx s q).data = (ordered.drop ((page - 1) * limit)).take limit ∧
        (getEvents rx s q).count = some (getEvents rx s q).data.length ∧
        (getEvents rx s q).data.length ≤ limit ∧
        (getEvents rx s q).total = some ordered.length) ∧
    (∀ t, q.search = some t → t ≠ "" → rx t = none →
      (getEvents rx s q).status = 500 ∧ (getEvents rx s q).success = false ∧
      (getEvents rx s q).data = [] ∧ (getEvents rx s q).total = none) := by
  have hperm : ((s.events.filter (matchesQuery rx q)).insertionSort newestEventFirst).Perm
      (s.events.filter (matchesQuery rx q)) := List.perm_insertionSort _ _
  have hp0 : ¬ (page = 0 ∧ limit ≠ 0) := fun h => by omega
  have hl0 : ¬ limit = 0 := by omega
  constructor
  · intro hrx
    have hvalid : invalidSearch rx q = false := by
      unfold invalidSearch
      cases hs : q.search with
      | none => rfl
      | some t =>
        by_cases ht : t = ""
        · simp [ht]
        · have := hrx t hs ht
          cases hr : rx t with
          | none => rw [hr] at this; cases this
          | some test => simp [ht, hr]
    have heq : getEvents rx s q =
        { status := 200, success := true,
          count := some ((((s.events.filter (matchesQuery rx q)).insertionSort
            newestEventFirst).drop ((page - 1) * limit)).take limit).length,
          total := some (s.events.filter (matchesQuery rx q)).length,
          data := (((s.events.filter (matchesQuery rx q)).insertionSort
            newestEventFirst).drop ((page - 1) * limit)).take limit } := by
      unfold getEvents
      simp only [hp, hl, Option.getD_some, hp0, hl0, if_false, hvalid, Bool.false_eq_true]
    rw [heq]
    refine ⟨_, hperm, ?_, ?_, rfl, rfl, rfl, rfl, ?_, ?_⟩
    · intro e
      rw [hperm.mem_iff, List.mem_filter, matchesQuery_iff]
    · have htotal : IsTotal Event newestEventFirst :=
        ⟨fun a b => Nat.le_total b.createdAt a.createdAt⟩
      have htrans : IsTrans Event newestEventFirst :=
        ⟨fun a b c hab hbc => Nat.le_trans hbc hab⟩
      exact @List.sorted_insertionSort Event newestEventFirst _ htotal htrans _
    · simp only [List.length_take]
      exact Nat.min_le_left _ _
    · simp only [hperm.length_eq]
  · intro t hs ht hr
    have hinvalid : invalidSearch rx q = true := by
      unfold invalidSearch
      simp [hs, ht, hr]
    have heq : getEvents rx s q =
        { status := 500, success := false, message := some "Regular expression is invalid" } := by
      unfold getEvents
      simp only [hp, hl, Option.getD_some, hp0, if_false, hinvalid, if_true]
    rw [heq]
    exact ⟨rfl, rfl, rfl, rfl⟩

/-- Instance of C30 (amended): the first page of size 1 of the link store for
the search text "p", which occurs in the title of events 1 and 3. -/
theorem getEvents_page_witness :
    (∀ t, (some "p" : Option String) = some t → t ≠ "" → (literalSearch t).isSome = true) ∧
    ∃ ordered : List Event,
      ordered.Perm (linkStore.events.filter
        (matchesQuery literalSearch { page := some 1, limit := some 1, search := some "p" })) ∧
      (∀ e, e ∈ ordered ↔
        e ∈ linkStore.events ∧
          Listed literalSearch { page := some 1, limit := some 1, search := some "p" } e) ∧
      ordered.Pairwise (fun a b => b.createdAt ≤ a.createdAt) ∧
      (getEvents literalSearch linkStore
        { page := some 1, limit := some 1, search := some "p" }).status = 200 ∧
      (getEvents literalSearch linkStore
        { page := some 1, limit := some 1, search := some "p" }).success = true ∧
      (getEvents literalSearch linkStore
        { page := some 1, limit := some 1, search := some "p" }).data =
        (ordered.drop ((1 - 1) * 1)).take 1 ∧
      (getEvents literalSearch linkStore
        { page := some 1, limit := some 1, search := some "p" }).count =
        some (getEvents literalSearch linkStore
          { page := some 1, limit := some 1, search := some "p" }).data.length ∧
      (getEvents literalSearch linkStore
        { page := some 1, limit := some 1, search := some "p" }).data.length ≤ 1 ∧
      (getEvents literalSearch linkStore
        { page := some 1, limit := some 1, search := some "p" }).total = some ordered.length :=
  ⟨by intro t h; cases h; intro _; decide,
   (getEvents_page literalSearch linkStore
      { page := some 1, limit := some 1, search := some "p" } 1 1 rfl rfl
      (by decide) (by decide)).1 (by intro t h; cases h; intro _; decide)⟩

/-! ## Storage calls that throw -/

theorem createRSVPF_no_fault (s : Store) (e u : ObjectId) (b : RSVPBody) (now : Nat) :
    createRSVPF { } s e u b now = createRSVP s e u b now := by
  unfold createRSVPF createRSVP
  simp only
  cases findById s.events e with
  | none => rfl
  | some event =>
    simp only
    split
    · rfl
    · cases findOne s.rsvps e u with
      | some rsvp =>
        simp only
        cases updatedRSVP rsvp b now with
        | error m => rfl
        | ok doc => rfl
      | none =>
        simp only
        cases newRSVP e u b now with
        | error m => rfl
        | ok doc =>
          cases hi : insertRSVP s.rsvps doc with
          | error m => simp [Except.bind, Except.map, hi]
          | ok rows => simp [Except.bind, Except.map, hi]

theorem deleteEventF_no_fault (s : Store) (id u : ObjectId) :
    deleteEventF { } s id u = deleteEvent s id u := by
  unfold deleteEventF deleteEvent
  rfl

/-- C25 as stated fails: when `Event.findById` throws in createRSVP, two
storage errors with different messages give different response bodies, each
carrying the message of its exception; the same holds for deleteEvent. -/
theorem storage_error_reply_counterexample :
    (createRSVPF { findEvent := some "connect ECONNREFUSED 10.0.0.5:27017" } sampleStore 1 2
      { response := some "Yes" } 9).1 ≠
    (createRSVPF { findEvent := some "pool destroyed" } sampleStore 1 2
      { response := some "Yes" } 9).1 ∧
    (createRSVPF { findEvent := some "connect ECONNREFUSED 10.0.0.5:27017" } sampleStore 1 2
      { response := some "Yes" } 9).1.message = some "connect ECONNREFUSED 10.0.0.5:27017" ∧
    (deleteEventF { findEvent := some "connect ECONNREFUSED 10.0.0.5:27017" } sampleStore 1 7).1 ≠
    (deleteEventF { findEvent := some "pool destroyed" } sampleStore 1 7).1 := by
  decide

/-- C25 (amended): when a storage call made by createRSVP or deleteEvent fails
with an exception carrying message m, the failure response has status 500,
success false and the message m itself, so it depends on m: two storage errors
with different messages give different response bodies.  Every reply of
deleteEvent with status 500 carries the message of the storage call that
threw. -/
theorem storage_error_message_reported (m1 m2 : String) (hne : m1 ≠ m2) (s : Store)
    (e u : ObjectId) (b : RSVPBody) (now : Nat) :
    (createRSVPF { findEvent := some m1 } s e u b now).1 = serverError m1 ∧
    (deleteEventF { findEvent := some m1 } s e u).1 = serverError m1 ∧
    (createRSVPF { findEvent := some m1 } s e u b now).1 ≠
      (createRSVPF { findEvent := some m2 } s e u b now).1 ∧
    (deleteEventF { findEvent := some m1 } s e u).1 ≠
      (deleteEventF { findEvent := some m2 } s e u).1 ∧
    (∀ f : DeleteEventFaults, (deleteEventF f s e u).1.status = 500 →
      ∃ m, (f.findEvent = some m ∨ f.deleteMany = some m ∨ f.deleteOne = some m) ∧
        (deleteEventF f s e u).1 = serverError m) := by
  have hdiff : ∀ α : Type, (serverError m1 : Reply α) ≠ serverError m2 := by
    intro α h
    simp only [serverError, Reply.mk.injEq, Option.some.injEq, true_and, and_true] at h
    exact hne h
  refine ⟨rfl, rfl, hdiff _, hdiff _, ?_⟩
  intro f hst
  unfold deleteEventF at hst ⊢
  cases h1 : f.findEvent with
  | some m => exact ⟨m, Or.inl rfl, rfl⟩
  | none =>
    simp only [h1] at hst
    simp only
    cases h2 : findById s.events e with
    | none => simp [h2, notFound] at hst
    | some event =>
      simp only [h2] at hst
      simp only
      by_cases hc : event.createdBy = u
      · simp only [hc, ne_eq, not_true_eq_false, if_false] at hst ⊢
        cases h3 : f.deleteMany with
        | some m => exact ⟨m, Or.inr (Or.inl rfl), rfl⟩
        | none =>
          simp only [h3] at hst
          simp only
          cases h4 : f.deleteOne with
          | some m => exact ⟨m, Or.inr (Or.inr rfl), rfl⟩
          | none => simp [h4] at hst
      · simp [hc] at hst

/-- Instance of C25 (amended): the two messages of the counterexample. -/
theorem storage_error_message_reported_witness :
    (createRSVPF { findEvent := some "pool destroyed" } sampleStore 1 2
      { response := some "Yes" } 9).1 = serverError "pool destroyed" ∧
    (createRSVPF { findEvent := some "pool destroyed" } sampleStore 1 2
      { response := some "Yes" } 9).1 ≠
      (createRSVPF { findEvent := some "socket hang up" } sampleStore 1 2
        { response := some "Yes" } 9).1 :=
  ⟨(storage_error_message_reported "pool destroyed" "socket hang up" (by decide) sampleStore 1 2
      { response := some "Yes" } 9).1,
   (storage_error_message_reported "pool destroyed" "socket hang up" (by decide) sampleStore 1 2
      { response := some "Yes" } 9).2.2.1⟩

/-- C26 as stated fails: when `event.deleteOne` throws after `RSVP.deleteMany`
has run, deleteEvent of the creator on event 1 of the sample store answers
with a failure, the row of event 1 is gone and event 1 is still stored. -/
theorem deleteEvent_partial_commit_counterexample :
    (deleteEventF { deleteOne := some "connection closed" } sampleStore 1 7).1.success = false ∧
    (deleteEventF { deleteOne := some "connection closed" } sampleStore 1 7).2 ≠ sampleStore ∧
    (deleteEventF { deleteOne := some "connection closed" } sampleStore 1 7).2.rsvps = [] ∧
    (findById (deleteEventF { deleteOne := some "connection closed" } sampleStore 1 7).2.events
      1).isSome = true ∧
    sampleStore.rsvps.length = 1 := by
  decide

/-- C26 (amended): in a model where each individual storage call may fail,
whenever deleteEvent returns a failure response the event records are
unchanged, and the RSVP rows are unchanged unless the call that threw is the
final `event.deleteOne`: then the RSVP rows of the event have been removed
while the event itself still exists. -/
theorem deleteEventF_failure (f : DeleteEventFaults) (s : Store) (id u : ObjectId)
    (hfail : (deleteEventF f s id u).1.success = false) :
    (deleteEventF f s id u).2.events = s.events ∧
    (f.deleteOne = none → (deleteEventF f s id u).2 = s) ∧
    ((deleteEventF f s id u).2 = s ∨
      (deleteEventF f s id u).2.rsvps = s.rsvps.filter (fun r => !decide (r.eventId = id))) := by
  unfold deleteEventF at hfail ⊢
  cases h1 : f.findEvent with
  | some m => exact ⟨rfl, fun _ => rfl, Or.inl rfl⟩
  | none =>
    simp only [h1] at hfail
    simp only
    cases h2 : findById s.events id with
    | none => exact ⟨rfl, fun _ => rfl, Or.inl rfl⟩
    | some event =>
      simp only [h2] at hfail
      simp only
      by_cases hc : event.createdBy = u
      · simp only [hc, ne_eq, not_true_eq_false, if_false] at hfail ⊢
        cases h3 : f.deleteMany with
        | some m => exact ⟨rfl, fun _ => rfl, Or.inl rfl⟩
        | none =>
          simp only [h3] at hfail
          simp only
          cases h4 : f.deleteOne with
          | some m => exact ⟨rfl, fun h => (by cases h), Or.inr rfl⟩
          | none => simp [h4] at hfail
      · rw [if_pos hc]
        exact ⟨rfl, fun _ => rfl, Or.inl rfl⟩

/-- Instance of C26 (amended): `RSVP.deleteMany` throws on the sample store. -/
theorem deleteEventF_failure_witness :
    (deleteEventF { deleteMany := some "connection closed" } sampleStore 1 7).1.success = false ∧
    (deleteEventF { deleteMany := some "connection closed" } sampleStore 1 7).2 = sampleStore :=
  ⟨by decide,
   (deleteEventF_failure { deleteMany := some "connection closed" } sampleStore 1 7
    (by decide)).2.1 (by decide)⟩

/-! ## Two concurrent `createRSVP` calls -/

theorem storedValid_patchRow (read : RSVP) {doc cur : RSVP}
    (hd : StoredValid doc) (hc : StoredValid cur) : StoredValid (patchRow read doc cur) := by
  unfold patchRow StoredValid
  constructor
  · intro m hm
    simp only at hm
    split at hm
    · exact hc.1 m hm
    · exact hd.1 m hm
  · simp only
    split
    · exact hc.2
    · exact hd.2

theorem phaseOk_mono {e u : ObjectId} {rsvps rsvps' : List RSVP} {cms cms' : List Commit}
    {ph : Phase} (h : PhaseOk e u rsvps cms ph)
    (hrow : (findOne rsvps e u).isSome = true → (findOne rsvps' e u).isSome = true)
    (hcm : cms ≠ [] → cms' ≠ [])
    (hnew : (findOne rsvps' e u).isSome = true → ¬ (findOne rsvps e u).isSome = true →
      cms' ≠ []) :
    PhaseOk e u rsvps' cms' ph := by
  cases ph with
  | start => trivial
  | lookup => trivial
  | update read => exact ⟨h.1, h.2.1, hrow h.2.2.1, h.2.2.2⟩
  | insert =>
    intro hs
    by_cases hold : (findOne rsvps e u).isSome = true
    · exact hcm (h hold)
    · exact hnew hs hold
  | populate => exact hcm h
  | done k => exact hcm h

theorem findOne_append_of_none {rsvps : List RSVP} {e u : ObjectId} {doc : RSVP}
    (h : findOne rsvps e u = none) (h1 : doc.eventId = e) (h2 : doc.userId = u) :
    findOne (rsvps ++ [doc]) e u = some doc := by
  unfold findOne at h ⊢
  rw [List.find?_append, h]
  have hk : matchesKey e u doc = true := by rw [matchesKey_iff]; exact ⟨h1, h2⟩
  simp [List.find?_cons, hk]

theorem rowCount_append_of_none {rsvps : List RSVP} {e u : ObjectId} {doc : RSVP}
    (h : findOne rsvps e u = none) : rowCount (rsvps ++ [doc]) e u ≤ 1 := by
  have h0 := rowCount_eq_zero_of_findOne_none h
  simp only [rowCount, List.filter_append, List.length_append] at h0 ⊢
  rw [h0]
  simp only [List.filter_cons, List.filter_nil]
  split <;> simp

theorem inv_of_no_write {a b : RSVPCall} {e u : ObjectId} {s0 store : Store}
    {cms : List Commit} {ph' : Phase} (ph1 : Phase)
    (h1 : rowCount store.rsvps e u ≤ 1) (h2 : store.events = s0.events)
    (h3 : ∀ cm, cms.head? = some cm → LastCommitOk a b e u store.rsvps cm)
    (h4 : PhaseOk e u store.rsvps cms ph1) (h5 : PhaseOk e u store.rsvps cms ph')
    (h6 : ∀ row, findOne store.rsvps e u = some row → StoredValid row)
    (r : Store × Phase × Option Commit) (hr : r = (store, ph1, none)) :
    rowCount r.1.rsvps e u ≤ 1 ∧ r.1.events = s0.events ∧
    (∀ cm, (pushCommit r.2.2 cms).head? = some cm → LastCommitOk a b e u r.1.rsvps cm) ∧
    PhaseOk e u r.1.rsvps (pushCommit r.2.2 cms) r.2.1 ∧
    PhaseOk e u r.1.rsvps (pushCommit r.2.2 cms) ph' ∧
    (∀ row, findOne r.1.rsvps e u = some row → StoredValid row) := by
  subst hr
  exact ⟨h1, h2, h3, h4, h5, h6⟩

theorem inv_of_write {a b : RSVPCall} {e u : ObjectId} {s0 store : Store}
    {cms : List Commit} {ph' : Phase} (rows : List RSVP) (cm : Commit)
    (h2 : store.events = s0.events)
    (h5 : PhaseOk e u store.rsvps cms ph')
    (hcount : rowCount rows e u ≤ 1)
    (hlast : LastCommitOk a b e u rows cm) (hvalid : StoredValid cm.row)
    (r : Store × Phase × Option Commit)
    (hr : r = ({ store with rsvps := rows }, Phase.populate, some cm)) :
    rowCount r.1.rsvps e u ≤ 1 ∧ r.1.events = s0.events ∧
    (∀ cm', (pushCommit r.2.2 cms).head? = some cm' → LastCommitOk a b e u r.1.rsvps cm') ∧
    PhaseOk e u r.1.rsvps (pushCommit r.2.2 cms) r.2.1 ∧
    PhaseOk e u r.1.rsvps (pushCommit r.2.2 cms) ph' ∧
    (∀ row, findOne r.1.rsvps e u = some row → StoredValid row) := by
  subst hr
  have hne : pushCommit (some cm) cms ≠ [] := by simp [pushCommit]
  refine ⟨hcount, h2, ?_, hne, ?_, ?_⟩
  rotate_left 2
  · intro row hfound
    have hfound' : findOne rows e u = some row := hfound
    rw [hlast.2.1] at hfound'
    cases hfound'
    exact hvalid
  · intro cm' hcm'
    simp only [pushCommit, List.head?_cons, Option.some.injEq] at hcm'
    rw [← hcm']
    exact hlast
  · apply phaseOk_mono h5
    · intro _
      show (findOne rows e u).isSome = true
      rw [hlast.2.1]; rfl
    · intro _; exact hne
    · intro _ _; exact hne

theorem callStep_inv {a b c : RSVPCall} {e u : ObjectId} {s0 store : Store} {ev : Event}
    {cms : List Commit} {ph ph' : Phase}
    (hce : c.eventId = e) (hcu : c.userId = u) (hcab : c = a ∨ c = b) (hv : ValidBody c.body)
    (hev : findById s0.events e = some ev) (hact : ev.status = "active")
    (h1 : rowCount store.rsvps e u ≤ 1) (h2 : store.events = s0.events)
    (h3 : ∀ cm, cms.head? = some cm → LastCommitOk a b e u store.rsvps cm)
    (h4 : PhaseOk e u store.rsvps cms ph) (h5 : PhaseOk e u store.rsvps cms ph')
    (h6 : ∀ row, findOne store.rsvps e u = some row → StoredValid row) :
    rowCount (callStep c store ph).1.rsvps e u ≤ 1 ∧
    (callStep c store ph).1.events = s0.events ∧
    (∀ cm, (pushCommit (callStep c store ph).2.2 cms).head? = some cm →
      LastCommitOk a b e u (callStep c store ph).1.rsvps cm) ∧
    PhaseOk e u (callStep c store ph).1.rsvps (pushCommit (callStep c store ph).2.2 cms)
      (callStep c store ph).2.1 ∧
    PhaseOk e u (callStep c store ph).1.rsvps (pushCommit (callStep c store ph).2.2 cms) ph' ∧
    (∀ row, findOne (callStep c store ph).1.rsvps e u = some row → StoredValid row) := by
  obtain ⟨⟨resp, hresp, henum⟩, hmsg, hplus⟩ := hv
  cases ph with
  | start =>
    apply inv_of_no_write Phase.lookup h1 h2 h3 trivial h5 h6
    simp only [callStep, hce, h2, hev, hact, ne_eq, not_true_eq_false, if_false]
  | lookup =>
    cases hf : findOne store.rsvps e u with
    | some rsvp =>
      obtain ⟨k1, k2⟩ := findOne_key hf
      apply inv_of_no_write (Phase.update rsvp) h1 h2 h3
        ⟨k1, k2, by rw [hf]; rfl, h6 rsvp hf⟩ h5 h6
      simp only [callStep, hce, hcu, hf]
    | none =>
      have hins : PhaseOk e u store.rsvps cms Phase.insert := by
        intro hs
        rw [hf] at hs
        cases hs
      apply inv_of_no_write Phase.insert h1 h2 h3 hins h5 h6
      simp only [callStep, hce, hcu, hf]
  | update read =>
    obtain ⟨k1, k2, hsome, hread⟩ := h4
    obtain ⟨doc, hdoc, hdr⟩ : ∃ doc, updatedRSVP read c.body c.now = .ok doc ∧
        doc.response = resp :=
      ⟨_, updatedRSVP_ok read c.body c.now resp hresp henum hmsg hplus hread, rfl⟩
    cases hf : findOne store.rsvps e u with
    | none => rw [hf] at hsome; cases hsome
    | some cur =>
      obtain ⟨c1, c2⟩ := findOne_key hf
      have hlast : LastCommitOk a b e u (saveRSVP store.rsvps (patchRow read doc cur))
          { call := c, read := some read, row := (patchRow read doc cur) } := by
        refine ⟨hcab, ?_, ?_⟩
        · exact findOne_saveRSVP hf c1 c2
        · simp only [patchRow]
          by_cases hsame : doc.response = read.response
          · right
            exact ⟨read, rfl, by rw [hresp, ← hsame, hdr]⟩
          · left
            rw [if_neg hsame, hresp, hdr]
      apply inv_of_write (saveRSVP store.rsvps (patchRow read doc cur))
        { call := c, read := some read, row := (patchRow read doc cur) } h2 h5
        (by rw [rowCount_saveRSVP]; exact h1) hlast
        (storedValid_patchRow read (updatedRSVP_valid hdoc) (h6 cur hf))
      simp only [callStep, hdoc, k1, k2, hf]
  | insert =>
    obtain ⟨doc, hdoc, hdr, hde, hdu⟩ : ∃ doc, newRSVP c.eventId c.userId c.body c.now = .ok doc ∧
        doc.response = resp ∧ doc.eventId = e ∧ doc.userId = u :=
      ⟨_, newRSVP_ok c.eventId c.userId c.body c.now resp hresp henum hmsg hplus, rfl, hce, hcu⟩
    cases hf : findOne store.rsvps e u with
    | some cur =>
      have hcm : PhaseOk e u store.rsvps cms (Phase.done 500) := h4 (by rw [hf]; rfl)
      apply inv_of_no_write (Phase.done 500) h1 h2 h3 hcm h5 h6
      simp only [callStep, hdoc, insertRSVP, hde, hdu, hf, Option.isSome_some, if_true]
    | none =>
      have hlast : LastCommitOk a b e u (store.rsvps ++ [doc])
          { call := c, read := none, row := doc } :=
        ⟨hcab, findOne_append_of_none hf hde hdu, Or.inl (by rw [hresp, hdr])⟩
      apply inv_of_write (store.rsvps ++ [doc]) { call := c, read := none, row := doc } h2 h5
        (rowCount_append_of_none hf) hlast (newRSVP_valid hdoc)
      simp only [callStep, hdoc, insertRSVP, hde, hdu, hf, Option.isSome_none]
      rfl
  | populate =>
    apply inv_of_no_write (Phase.done 201) h1 h2 h3 h4 h5 h6
    rfl
  | done k =>
    apply inv_of_no_write (Phase.done k) h1 h2 h3 h4 h5 h6
    rfl

theorem concInv_init (a b : RSVPCall) (e u : ObjectId) (s : Store)
    (h : rowCount s.rsvps e u ≤ 1)
    (hvalid : ∀ row, findOne s.rsvps e u = some row → StoredValid row) :
    ConcInv a b e u s (ConcState.init s) :=
  ⟨h, rfl, fun cm hcm => (by cases hcm), trivial, trivial, hvalid⟩

theorem concInv_step {a b : RSVPCall} {e u : ObjectId} {s0 : Store} {ev : Event}
    (hae : a.eventId = e) (hau : a.userId = u) (hbe : b.eventId = e) (hbu : b.userId = u)
    (hva : ValidBody a.body) (hvb : ValidBody b.body)
    (hev : findById s0.events e = some ev) (hact : ev.status = "active")
    (st : ConcState) (pickA : Bool) (h : ConcInv a b e u s0 st) :
    ConcInv a b e u s0 (concStep a b st pickA) := by
  obtain ⟨h1, h2, h3, h4, h5, h6⟩ := h
  cases pickA with
  | true =>
    obtain ⟨r1, r2, r3, r4, r5, r6⟩ :=
      callStep_inv hae hau (Or.inl rfl) hva hev hact h1 h2 h3 h4 h5 h6
    exact ⟨r1, r2, r3, r4, r5, r6⟩
  | false =>
    obtain ⟨r1, r2, r3, r4, r5, r6⟩ :=
      callStep_inv hbe hbu (Or.inr rfl) hvb hev hact h1 h2 h3 h5 h4 h6
    exact ⟨r1, r2, r3, r5, r4, r6⟩

theorem concInv_run {a b : RSVPCall} {e u : ObjectId} {s0 : Store} {ev : Event}
    (hae : a.eventId = e) (hau : a.userId = u) (hbe : b.eventId = e) (hbu : b.userId = u)
    (hva : ValidBody a.body) (hvb : ValidBody b.body)
    (hev : findById s0.events e = some ev) (hact : ev.status = "active")
    (schedule : List Bool) (st : ConcState) (h : ConcInv a b e u s0 st) :
    ConcInv a b e u s0 (runSchedule a b st schedule) := by
  unfold runSchedule
  induction schedule generalizing st with
  | nil => exact h
  | cons p ps ih =>
    simp only [List.foldl_cons]
    exact ih _ (concInv_step hae hau hbe hbu hva hvb hev hact st p h)

theorem rowCount_pos_of_findOne {rsvps : List RSVP} {e u : ObjectId} {row : RSVP}
    (h : findOne rsvps e u = some row) : 1 ≤ rowCount rsvps e u := by
  unfold findOne at h
  have hm : row ∈ rsvps.filter (matchesKey e u) :=
    List.mem_filter.2 ⟨List.mem_of_find?_eq_some h, List.find?_some h⟩
  exact List.length_pos_of_mem hm

/-- C21 as stated fails: on the sample store account 2 has the row {Yes} for
event 1.  Both calls read that row; the call {No} writes first; the call {Yes}
writes last, and since its response equals the one it read, its `save` sets the
timestamp only.  Both calls have finished, the last committed write is the one
of {Yes} (timestamp 10), and the stored row has the response No. -/
theorem concurrent_last_write_counterexample :
    (runSchedule yesCall noCall (ConcState.init sampleStore)
      [true, true, false, false, false, true, true, false]).phaseA = Phase.done 201 ∧
    (runSchedule yesCall noCall (ConcState.init sampleStore)
      [true, true, false, false, false, true, true, false]).phaseB = Phase.done 201 ∧
    (runSchedule yesCall noCall (ConcState.init sampleStore)
      [true, true, false, false, false, true, true, false]).commits.head?.map
      (fun cm => cm.call.body.response) = some (some "Yes") ∧
    (runSchedule yesCall noCall (ConcState.init sampleStore)
      [true, true, false, false, false, true, true, false]).store.rsvps.map
      (fun r => (r.response, r.timestamp)) = [("No", 10)] := by
  decide

/-- C21 (amended): for two concurrently executing createRSVP calls with valid
submissions from the same account for the same active event (one 'Yes', one
'No'), started on a store with at most one row for that (event, account) pair,
a row that passes the schema validation if there is one, under every
interleaving of their storage calls no state, intermediate or final, contains
two rows for the pair; when both calls have finished the store has exactly one
row for the pair, which is the row of the write that committed last, and its
response is the response of that write's call unless the call had read a row
that already carried this response (its `save` then leaves the response of the
stored row as a concurrent write has set it). -/
theorem concurrent_createRSVP (s : Store) (a b : RSVPCall) (e u : ObjectId) (ev : Event)
    (schedule : List Bool)
    (hae : a.eventId = e) (hau : a.userId = u) (hbe : b.eventId = e) (hbu : b.userId = u)
    (hev : findById s.events e = some ev) (hact : ev.status = "active")
    (hya : a.body.response = some "Yes") (hnb : b.body.response = some "No")
    (hva : ValidBody a.body) (hvb : ValidBody b.body)
    (huniq : rowCount s.rsvps e u ≤ 1)
    (hvalid : ∀ row, findOne s.rsvps e u = some row → StoredValid row) :
    (∀ k, rowCount (runSchedule a b (ConcState.init s) (schedule.take k)).store.rsvps e u ≤ 1) ∧
    rowCount (runSchedule a b (ConcState.init s) schedule).store.rsvps e u ≤ 1 ∧
    ((runSchedule a b (ConcState.init s) schedule).phaseA.isDone = true →
     (runSchedule a b (ConcState.init s) schedule).phaseB.isDone = true →
      rowCount (runSchedule a b (ConcState.init s) schedule).store.rsvps e u = 1 ∧
      ∃ cm, (runSchedule a b (ConcState.init s) schedule).commits.head? = some cm ∧
        (cm.call = a ∨ cm.call = b) ∧
        findOne (runSchedule a b (ConcState.init s) schedule).store.rsvps e u = some cm.row ∧
        ((cm.call = a ∧ cm.row.response = "Yes") ∨ (cm.call = b ∧ cm.row.response = "No") ∨
          ∃ r, cm.read = some r ∧ some r.response = cm.call.body.response)) := by
  have hrun := fun sch =>
    concInv_run hae hau hbe hbu hva hvb hev hact sch _ (concInv_init a b e u s huniq hvalid)
  refine ⟨fun k => (hrun (schedule.take k)).1, (hrun schedule).1, ?_⟩
  intro hdA _
  obtain ⟨h1, _, h3, h4, _, _⟩ := hrun schedule
  generalize runSchedule a b (ConcState.init s) schedule = st at *
  have hne : st.commits ≠ [] := by
    cases hph : st.phaseA with
    | done k => rw [hph] at h4; exact h4
    | start => rw [hph] at hdA; cases hdA
    | lookup => rw [hph] at hdA; cases hdA
    | update r => rw [hph] at hdA; cases hdA
    | insert => rw [hph] at hdA; cases hdA
    | populate => rw [hph] at hdA; cases hdA
  cases hc : st.commits with
  | nil => exact absurd hc hne
  | cons cm rest =>
    have hlast := h3 cm (by rw [hc]; rfl)
    obtain ⟨l1, l2, l3⟩ := hlast
    refine ⟨le_antisymm h1 (rowCount_pos_of_findOne l2), cm, rfl, l1, l2, ?_⟩
    rcases l3 with l3 | l3
    · rcases l1 with l1 | l1
      · left
        refine ⟨l1, ?_⟩
        rw [l1, hya] at l3
        exact Option.some.inj l3
      · right; left
        refine ⟨l1, ?_⟩
        rw [l1, hnb] at l3
        exact Option.some.inj l3
    · right; right; exact l3

/-- Instance of C21 (amended): the interleaving of the counterexample on the
sample store. -/
theorem concurrent_createRSVP_witness :
    rowCount sampleStore.rsvps 1 2 ≤ 1 ∧
    rowCount (runSchedule yesCall noCall (ConcState.init sampleStore)
      [true, true, false, false, false, true, true, false]).store.rsvps 1 2 ≤ 1 ∧
    ((runSchedule yesCall noCall (ConcState.init sampleStore)
        [true, true, false, false, false, true, true, false]).phaseA.isDone = true →
     (runSchedule yesCall noCall (ConcState.init sampleStore)
        [true, true, false, false, false, true, true, false]).phaseB.isDone = true →
      rowCount (runSchedule yesCall noCall (ConcState.init sampleStore)
        [true, true, false, false, false, true, true, false]).store.rsvps 1 2 = 1 ∧
      ∃ cm, (runSchedule yesCall noCall (ConcState.init sampleStore)
          [true, true, false, false, false, true, true, false]).commits.head? = some cm ∧
        (cm.call = yesCall ∨ cm.call = noCall) ∧
        findOne (runSchedule yesCall noCall (ConcState.init sampleStore)
          [true, true, false, false, false, true, true, false]).store.rsvps 1 2 = some cm.row ∧
        ((cm.call = yesCall ∧ cm.row.response = "Yes") ∨
          (cm.call = noCall ∧ cm.row.response = "No") ∨
          ∃ r, cm.read = some r ∧ some r.response = cm.call.body.response)) :=
  ⟨by decide,
   (concurrent_createRSVP sampleStore yesCall noCall 1 2 { _id := 1, createdBy := 7 }
    [true, true, false, false, false, true, true, false] rfl rfl rfl rfl (by decide) (by decide)
    rfl rfl
    ⟨⟨"Yes", rfl, by decide⟩, fun m h => (by cases h), fun n h => (by cases h)⟩
    ⟨⟨"No", rfl, by decide⟩, fun m h => (by cases h), fun n h => (by cases h)⟩
    (by decide) (by decide)).2⟩

/-! ## The step model agrees with the handler when a call runs alone -/

theorem patchRow_self {read doc : RSVP} (h1 : doc.eventId = read.eventId)
    (h2 : doc.userId = read.userId) : patchRow read doc read = doc := by
  obtain ⟨de, du, dr, dm, dp, dt⟩ := doc
  obtain ⟨re, ru, rr, rm, rp, rt⟩ := read
  simp only at h1 h2
  subst h1 h2
  simp only [patchRow, RSVP.mk.injEq, true_and]
  refine ⟨?_, ?_, ?_, ?_⟩ <;> split <;> simp_all

theorem callStep_alone (c : RSVPCall) (s : Store) :
    (callStep c (callStep c (callStep c s Phase.start).1 (callStep c s Phase.start).2.1).1
      (callStep c (callStep c s Phase.start).1 (callStep c s Phase.start).2.1).2.1).1 =
      (createRSVP s c.eventId c.userId c.body c.now).2 := by
  unfold createRSVP
  cases hf : findById s.events c.eventId with
  | none => simp [callStep, hf]
  | some event =>
    by_cases hact : event.status = "active"
    · cases hr : findOne s.rsvps c.eventId c.userId with
      | some rsvp =>
        obtain ⟨k1, k2⟩ := findOne_key hr
        cases hd : updatedRSVP rsvp c.body c.now with
        | error m => simp [callStep, hf, hact, hr, hd]
        | ok doc =>
          obtain ⟨d1, d2⟩ := updatedRSVP_key hd
          simp [callStep, hf, hact, hr, hd, k1, k2, patchRow_self d1 d2]
      | none =>
        cases hd : newRSVP c.eventId c.userId c.body c.now with
        | error m => simp [callStep, hf, hact, hr, hd]
        | ok doc =>
          cases hi : insertRSVP s.rsvps doc with
          | error m => simp [callStep, hf, hact, hr, hd, hi]
          | ok rows => simp [callStep, hf, hact, hr, hd, hi]
    · simp [callStep, hf, hact]
/-! ## Route parameters that are no ObjectId -/

/-- C8 as stated fails: the route parameter `my-rsvps` matches no stored event
and reaches createRSVP through `POST /api/rsvp/:eventId`, but it is no
ObjectId, so `Event.findById` rejects with a cast error and the call is
answered with status 500, not 404. -/
theorem createRSVPReq_malformed_id_counterexample :
    dispatch rsvpRoutes Method.POST ["my-rsvps"] =
      some (Handler.createRSVP, [("eventId", "my-rsvps")]) ∧
    (∀ ev ∈ sampleStore.events, hexObjectId "my-rsvps" ≠ some ev._id) ∧
    (createRSVPReq hexObjectId sampleStore "my-rsvps" 2 { response := some "Yes" } 9).1.status
      = 500 ∧
    (createRSVPReq hexObjectId sampleStore "my-rsvps" 2 { response := some "Yes" } 9).1.status
      ≠ 404 := by
  decide

/-- C8 (amended): for every eventId parameter that matches no stored event,
createRSVP fails (success false, no data) and changes nothing in the store,
so it neither creates nor modifies an RSVP row.  If the parameter is an
ObjectId, the reply is 404 'Event not found'; if it is no ObjectId, the reply
has status 500. -/
theorem createRSVPReq_unknown_event (cast : String → Option ObjectId) (s : Store)
    (param : String) (u : ObjectId) (b : RSVPBody) (now : Nat)
    (hno : ∀ ev ∈ s.events, cast param ≠ some ev._id) :
    (createRSVPReq cast s param u b now).2 = s ∧
    (createRSVPReq cast s param u b now).1.success = false ∧
    (createRSVPReq cast s param u b now).1.data = none ∧
    ((cast param).isSome = true →
      (createRSVPReq cast s param u b now).1 =
        { status := 404, success := false, message := some "Event not found" }) ∧
    (cast param = none → (createRSVPReq cast s param u b now).1.status = 500) := by
  cases hc : cast param with
  | none =>
    have heq : createRSVPReq cast s param u b now =
        (serverError (castError param "_id" "Event"), s) := by
      unfold createRSVPReq; simp only [hc]
    rw [heq]
    exact ⟨rfl, rfl, rfl, fun h => (by cases h), fun _ => rfl⟩
  | some e =>
    have hnone : findById s.events e = none :=
      findById_eq_none_of_forall_ne (fun ev hev h => hno ev hev (by rw [hc, h]))
    have heq : createRSVPReq cast s param u b now =
        ({ status := 404, success := false, message := some "Event not found" }, s) := by
      unfold createRSVPReq
      simp only [hc]
      exact createRSVP_unknown_event s e u b now hnone
    rw [heq]
    exact ⟨rfl, rfl, rfl, fun _ => rfl, fun h => (by cases h)⟩

/-- Instance of C8 (amended): the sample store has no event 5; the parameter
that writes the ObjectId 5 is answered with 404 and the store is unchanged. -/
theorem createRSVPReq_unknown_event_witness :
    (∀ ev ∈ sampleStore.events, hexObjectId "000000000000000000000005" ≠ some ev._id) ∧
    (createRSVPReq hexObjectId sampleStore "000000000000000000000005" 2
      { response := some "Yes" } 9).2 = sampleStore ∧
    (createRSVPReq hexObjectId sampleStore "000000000000000000000005" 2
      { response := some "Yes" } 9).1 =
        { status := 404, success := false, message := some "Event not found" } :=
  ⟨by decide,
   (createRSVPReq_unknown_event hexObjectId sampleStore "000000000000000000000005" 2
      { response := some "Yes" } 9 (by decide)).1,
   (createRSVPReq_unknown_event hexObjectId sampleStore "000000000000000000000005" 2
      { response := some "Yes" } 9 (by decide)).2.2.2.1 (by decide)⟩

/-- C16 as stated fails: account 2 has no RSVP row for the parameter
`my-rsvps`, which reaches deleteRSVP through `DELETE /api/rsvp/:eventId`; it is
no ObjectId, so `findOneAndDelete` rejects with a cast error and the call is
answered with status 500, not 404. -/
theorem deleteRSVPReq_malformed_id_counterexample :
    dispatch rsvpRoutes Method.DELETE ["my-rsvps"] =
      some (Handler.deleteRSVP, [("eventId", "my-rsvps")]) ∧
    (∀ r ∈ sampleStore.rsvps, hexObjectId "my-rsvps" ≠ some r.eventId) ∧
    (deleteRSVPReq hexObjectId sampleStore "my-rsvps" 2).1.status = 500 ∧
    (deleteRSVPReq hexObjectId sampleStore "my-rsvps" 2).1.status ≠ 404 := by
  decide

/-- C16 (amended): deleteRSVP never changes an event.  When the eventId
parameter is an ObjectId and the caller has a row for that event, it answers
with success and removes exactly that row: the stored rows before are the
found row of the caller plus the rows after.  When the parameter is an
ObjectId and the caller has no row for it, it answers 404 'RSVP not found' and
changes nothing.  When the parameter is no ObjectId, it answers with status
500 and changes nothing.  In every case each row of another user or another
event occurs after the call as often as before. -/
theorem deleteRSVPReq_frame (cast : String → Option ObjectId) (s : Store) (param : String)
    (u : ObjectId) :
    (deleteRSVPReq cast s param u).2.events = s.events ∧
    (cast param = none →
      (deleteRSVPReq cast s param u).1.status = 500 ∧
      (deleteRSVPReq cast s param u).1.success = false ∧
      (deleteRSVPReq cast s param u).2 = s) ∧
    (∀ e, cast param = some e → findOne s.rsvps e u = none →
      deleteRSVPReq cast s param u = (notFound "RSVP not found", s)) ∧
    (∀ e row, cast param = some e → findOne s.rsvps e u = some row →
      (deleteRSVPReq cast s param u).1.status = 200 ∧
      (deleteRSVPReq cast s param u).1.success = true ∧
      row.eventId = e ∧ row.userId = u ∧
      s.rsvps.Perm (row :: (deleteRSVPReq cast s param u).2.rsvps)) ∧
    (∀ r : RSVP, (∀ e, cast param = some e → ¬ (r.eventId = e ∧ r.userId = u)) →
      (deleteRSVPReq cast s param u).2.rsvps.count r = s.rsvps.count r) := by
  cases hc : cast param with
  | none =>
    have heq : deleteRSVPReq cast s param u =
        (serverError (castError param "eventId" "RSVP"), s) := by
      unfold deleteRSVPReq; simp only [hc]
    rw [heq]
    exact ⟨rfl, fun _ => ⟨rfl, rfl, rfl⟩, fun e h => (by cases h), fun e row h => (by cases h),
      fun _ _ => rfl⟩
  | some e0 =>
    have heq : deleteRSVPReq cast s param u = deleteRSVP s e0 u := by
      unfold deleteRSVPReq; simp only [hc]
    obtain ⟨h1, h2, h3, h4⟩ := deleteRSVP_spec s e0 u
    rw [heq]
    refine ⟨h1, fun h => (by cases h), ?_, ?_, ?_⟩
    · intro e he hf
      cases he
      exact h2 hf
    · intro e row he hf
      cases he
      exact h3 row hf
    · intro r hr
      exact h4 r (hr e0 rfl)

/-- Instance of C16 (amended): account 2 withdraws its answer to event 1 of
the sample store after a second account has answered. -/
theorem deleteRSVPReq_frame_witness :
    hexObjectId "000000000000000000000001" = some 1 ∧
    findOne racedStore.rsvps 1 2 =
      some { eventId := 1, userId := 2, response := "Yes", plusOnes := 2, timestamp := 3 } ∧
    (deleteRSVPReq hexObjectId racedStore "000000000000000000000001" 2).1.status = 200 ∧
    racedStore.rsvps.Perm
      ({ eventId := 1, userId := 2, response := "Yes", plusOnes := 2, timestamp := 3 } ::
        (deleteRSVPReq hexObjectId racedStore "000000000000000000000001" 2).2.rsvps) ∧
    (deleteRSVPReq hexObjectId racedStore "000000000000000000000001" 2).2.events =
      racedStore.events :=
  ⟨by decide, by decide,
   ((deleteRSVPReq_frame hexObjectId racedStore "000000000000000000000001" 2).2.2.2.1 1
    { eventId := 1, userId := 2, response := "Yes", plusOnes := 2, timestamp := 3 }
    (by decide) (by decide)).1,
   ((deleteRSVPReq_frame hexObjectId racedStore "000000000000000000000001" 2).2.2.2.1 1
    { eventId := 1, userId := 2, response := "Yes", plusOnes := 2, timestamp := 3 }
    (by decide) (by decide)).2.2.2.2,
   (deleteRSVPReq_frame hexObjectId racedStore "000000000000000000000001" 2).1⟩

end MernFinal
